import Mathlib

/-!
# Verification of the Balatro-bot decision engine against its specification

This file is a shallow embedding, in Lean 4, of the parts of the
`balatro_bot` Python package that the specification's claims are about:

* `models.py`          — cards, ranks, suits, modifiers, hand types
* `hand_evaluation.py` — poker-hand categorisation and scoring-card selection
* `jokers.py`          — the modifier-entity (joker) effect dispatch tables
* `scoring.py`         — the ordered scoring pipeline `calculate_score`
* `deck_tracker.py`    — the three-pile deck tracker
* `probability.py`     — hypergeometric completion probabilities
* `heuristics.py`      — the fast play/discard ranking and `should_discard`
* `decision_engine.py` — `DeepDecisionEngine.decide`
* `simulator.py`       — the round state machine, `clone`, `play_hand`, `is_won`
* `mcts.py`            — the Monte-Carlo tree search loop

Modelling conventions, stated once here:

* Python `float` is modelled by `F`, an exact (unnormalised) fraction type
  whose operations the kernel can evaluate.  Every float produced by the
  code in scope is an exact binary/decimal fraction combined by `+ - * /`,
  so `F` computes the same values the Python code computes up to float
  rounding; claims proved below never depend on float rounding error.
  Value equality of two `F`s is `F.beq` (cross multiplication).
* Python exceptions (`ValueError` in `evaluate_hand` / `calculate_score`)
  are modelled with `Option`: `none` is an escaped exception, and callers
  propagate it monadically exactly where Python would propagate the raise.
* The seeded card RNG `random.Random(rng_seed)` is modelled by `CRng`,
  the stream of `random()` results that the seed determines, together
  with a read position.  The module-level global RNG (`random.random`,
  `random.randint`) consumed by the Misprint / Bloodstone /
  Business Card / Reserved Parking calculators is modelled by `GRng`,
  an oracle for the hidden global stream, threaded explicitly through
  every function that can reach those calculators.
* `random.shuffle` inside the simulator is modelled by an oracle field
  `shuffles : Nat → List Card → List Card` plus a call counter: the k-th
  shuffle call applies `shuffles k`.  Copying the oracle and the counter
  models `Random.setstate(getstate())` in `clone`.
* Python dicts used as joker state maps are association lists
  `List (String × JVal)`; `dict.get(k, d)` is `JokerState.getI` etc.,
  which also returns the default when the stored value has an
  unexpected shape (the Python code never stores a wrong shape).
* Python's stable `list.sort(reverse=True)` is modelled by a stable
  descending insertion sort (`sortDescBy`); stability and the total
  preorder determine the output uniquely, so the two agree.
* Human-readable `reasoning` strings are elided from action records:
  they are logging output, no claim mentions them, and reproducing
  Python `%`-formatting of floats is out of scope.
-/

/-! ## Exact fractions standing in for Python floats -/

/-- An exact, possibly unnormalised fraction `num / den`.  Every
construction site in this file keeps `den` positive. -/
structure F where
  num : Int
  den : Nat
deriving Repr, DecidableEq

namespace F

def ofInt (n : Int) : F := ⟨n, 1⟩

def ofNat (n : Nat) : F := ⟨(n : Int), 1⟩

/-- `a / b` for natural `a`, positive natural `b` (hypergeometric ratios). -/
def ratio (a b : Nat) : F := ⟨(a : Int), b⟩

def add (a b : F) : F := ⟨a.num * (b.den : Int) + b.num * (a.den : Int), a.den * b.den⟩

def sub (a b : F) : F := ⟨a.num * (b.den : Int) - b.num * (a.den : Int), a.den * b.den⟩

def mul (a b : F) : F := ⟨a.num * b.num, a.den * b.den⟩

def neg (a : F) : F := ⟨-a.num, a.den⟩

/-- Division.  All division sites in the embedded code divide by a
positive value; dividing by zero yields the poison value `⟨0, 0⟩`
(the Python code would raise). -/
def div (a b : F) : F :=
  if 0 < b.num then ⟨a.num * (b.den : Int), a.den * b.num.toNat⟩
  else if b.num < 0 then ⟨-(a.num * (b.den : Int)), a.den * (-b.num).toNat⟩
  else ⟨0, 0⟩

def powNat (a : F) (n : Nat) : F := ⟨a.num ^ n, a.den ^ n⟩

/-- Value equality (cross multiplication); sound because `den` is positive. -/
def beq (a b : F) : Bool := a.num * (b.den : Int) == b.num * (a.den : Int)

def le (a b : F) : Bool := a.num * (b.den : Int) ≤ b.num * (a.den : Int)

def lt (a b : F) : Bool := a.num * (b.den : Int) < b.num * (a.den : Int)

/-- Python `int(x)`: truncation toward zero. -/
def trunc (a : F) : Int := a.num.tdiv (a.den : Int)

/-- The exact rational value of an `F` (for specification statements). -/
def val (a : F) : ℚ := (a.num : ℚ) / (a.den : ℚ)

def zero : F := ⟨0, 1⟩

def one : F := ⟨1, 1⟩

/-- Python `sum` over floats: left fold from `0.0`. -/
def sum (l : List F) : F := l.foldl add zero

/-- Python `max` over floats (used via `max(best_prob, prob)`). -/
def maxF (a b : F) : F := if lt a b then b else a

end F

/-! ## Stable descending sort (Python `list.sort(reverse=True)`) -/

/-- Insert `x` into a descending-sorted list, after every element not
strictly below it — the placement a stable descending sort gives. -/
def insDescBy (lt : α → α → Bool) (x : α) : List α → List α
  | [] => [x]
  | y :: l => if lt y x then x :: y :: l else y :: insDescBy lt x l

/-- Stable descending sort: fold left inserting each element. -/
def sortDescBy (lt : α → α → Bool) (l : List α) : List α :=
  l.foldl (fun acc x => insDescBy lt x acc) []

/-- `itertools.combinations(s, k)`: all `k`-element sublists of `s`,
in the order Python emits them. -/
def combinationsL : List α → Nat → List (List α)
  | _, 0 => [[]]
  | [], _ + 1 => []
  | x :: xs, k + 1 =>
      (combinationsL xs k).map (fun c => x :: c) ++ combinationsL xs (k + 1)

/-! ## `models.py` — cards and hand types -/

inductive Suit where
  | spades | hearts | clubs | diamonds
deriving Repr, DecidableEq

/-- The four suits in Python iteration order (`for suit in Suit`). -/
def Suit.all : List Suit := [.spades, .hearts, .clubs, .diamonds]

inductive Rank where
  | two | three | four | five | six | seven | eight | nine | ten
  | jack | queen | king | ace
deriving Repr, DecidableEq

namespace Rank

/-- The `IntEnum` value of a rank. -/
def val : Rank → Nat
  | .two => 2 | .three => 3 | .four => 4 | .five => 5 | .six => 6
  | .seven => 7 | .eight => 8 | .nine => 9 | .ten => 10
  | .jack => 11 | .queen => 12 | .king => 13 | .ace => 14

/-- `Rank.chip_value`: 2–10 face value, J/Q/K → 10, A → 11. -/
def chipValue (r : Rank) : Nat :=
  if r.val ≤ 10 then r.val else if r.val = 14 then 11 else 10

/-- The thirteen ranks in Python iteration order (`for rank in Rank`). -/
def all : List Rank :=
  [.two, .three, .four, .five, .six, .seven, .eight, .nine, .ten,
   .jack, .queen, .king, .ace]

end Rank

inductive Enhancement where
  | none | bonus | mult | wild | glass | steel | stone | gold | lucky
deriving Repr, DecidableEq

inductive Edition where
  | base | foil | holographic | polychrome | negative
deriving Repr, DecidableEq

inductive Seal where
  | none | gold | red | blue | purple
deriving Repr, DecidableEq

/-- `models.Card`: frozen dataclass. -/
structure Card where
  rank : Rank
  suit : Suit
  enhancement : Enhancement := .none
  edition : Edition := .base
  seal' : Seal := .none   -- `seal` in Python; `seal` is a Lean command keyword
deriving Repr, DecidableEq

namespace Card

def isWild (c : Card) : Bool := c.enhancement == .wild

def isStone (c : Card) : Bool := c.enhancement == .stone

/-- `Card.has_suit`: stone has no suit, wild matches every suit. -/
def hasSuit (c : Card) (s : Suit) : Bool :=
  if c.isStone then false else if c.isWild then true else c.suit == s

end Card

/-- `create_standard_deck()`: 52 plain cards, suits outer, ranks inner. -/
def createStandardDeck : List Card :=
  Suit.all.flatMap fun s => Rank.all.map fun r => { rank := r, suit := s }

inductive HandType where
  | highCard | pair | twoPair | threeOfAKind | straight | flush
  | fullHouse | fourOfAKind | straightFlush | royalFlush
  | fiveOfAKind | flushHouse | flushFive
deriving Repr, DecidableEq

namespace HandType

/-- The `IntEnum` value (1–13), which orders the categories. -/
def val : HandType → Nat
  | .highCard => 1 | .pair => 2 | .twoPair => 3 | .threeOfAKind => 4
  | .straight => 5 | .flush => 6 | .fullHouse => 7 | .fourOfAKind => 8
  | .straightFlush => 9 | .royalFlush => 10 | .fiveOfAKind => 11
  | .flushHouse => 12 | .flushFive => 13

def baseChips : HandType → Nat
  | .highCard => 5 | .pair => 10 | .twoPair => 20 | .threeOfAKind => 30
  | .straight => 30 | .flush => 35 | .fullHouse => 40 | .fourOfAKind => 60
  | .straightFlush => 100 | .royalFlush => 100 | .fiveOfAKind => 120
  | .flushHouse => 140 | .flushFive => 160

def baseMult : HandType → Nat
  | .highCard => 1 | .pair => 2 | .twoPair => 2 | .threeOfAKind => 3
  | .straight => 4 | .flush => 4 | .fullHouse => 4 | .fourOfAKind => 7
  | .straightFlush => 8 | .royalFlush => 8 | .fiveOfAKind => 12
  | .flushHouse => 14 | .flushFive => 16

end HandType

/-- The slice of `models.GameState` the scoring and decision paths read:
every read of `hand_levels` is `dict.get(ht, 1)`, modelled as a total
function, and joker calculators read `discards_remaining`. -/
structure GameStateM where
  handLevels : HandType → Nat := fun _ => 1
  discardsRemaining : Nat := 3

/-! ## `hand_evaluation.py` -/

/-- `hand_evaluation.HandResult`. -/
structure HandResult where
  handType : HandType
  scoringCards : List Card
  baseChips : Nat
  baseMult : Nat
deriving Repr, DecidableEq

/-- `HandResult.base_score`. -/
def HandResult.baseScore (r : HandResult) : Nat := r.baseChips * r.baseMult

/-- Count of cards of rank `r` (a `Counter` lookup). -/
def countRank (cards : List Card) (r : Rank) : Nat :=
  cards.countP (fun c => c.rank == r)

/-- The distinct ranks occurring in `cards`, first-occurrence order. -/
def distinctRanks (cards : List Card) : List Rank :=
  (cards.map (·.rank)).dedup

/-- `sorted([c.rank for c in normal], reverse=True)`. -/
def sortedRanksDesc (cards : List Card) : List Rank :=
  sortDescBy (fun a b => a.val < b.val) (cards.map (·.rank))

/-- `sorted(rank_counts.values(), reverse=True)`. -/
def countValues (cards : List Card) : List Nat :=
  sortDescBy (fun a b => a < b) ((distinctRanks cards).map (countRank cards))

/-- `_check_flush`: wild cards complete any suit; needs ≥ 5 cards. -/
def checkFlush (cards : List Card) : Bool :=
  if cards.length < 5 then false
  else
    let wildCount := cards.countP (·.isWild)
    let nonWild := cards.filter (fun c => !c.isWild)
    if nonWild.isEmpty then true
    else Suit.all.any fun s =>
      5 ≤ nonWild.countP (fun c => c.suit == s) + wildCount

/-- The consecutive-descending check inside `_is_straight`
(`for i ...: if ranks[i] - ranks[i+1] != 1: break / else: return True`). -/
def descendingByOne : List Rank → Bool
  | [] => true
  | [_] => true
  | a :: b :: l => (a.val - b.val == 1) && descendingByOne (b :: l)

/-- `_is_straight` on the descending-sorted rank list. -/
def isStraightRanks (sorted : List Rank) : Bool :=
  if sorted.length < 5 then false
  else if descendingByOne sorted then true
  else sorted == [.ace, .five, .four, .three, .two]

/-- `_identify_hand`: first matching predicate wins. -/
def identifyHand (cards : List Card) (cv : List Nat) (isFlush isStraight : Bool)
    (sorted : List Rank) : HandType × List Card :=
  let rc := countRank cards
  if cv.head? == some 5 && isFlush then (.flushFive, cards)
  else if cv.head? == some 5 then (.fiveOfAKind, cards)
  else if isFlush && isStraight && sorted.head? == some .ace
      && sorted.getLast? == some .ten then (.royalFlush, cards)
  else if isFlush && isStraight then (.straightFlush, cards)
  else if cv.head? == some 4 then
    (.fourOfAKind, cards.filter (fun c => rc c.rank == 4))
  else if cv.take 2 == [3, 2] && isFlush then (.flushHouse, cards)
  else if cv.take 2 == [3, 2] then (.fullHouse, cards)
  else if isFlush then (.flush, cards)
  else if isStraight then (.straight, cards)
  else if cv.head? == some 3 then
    (.threeOfAKind, cards.filter (fun c => rc c.rank == 3))
  else if cv.take 2 == [2, 2] then
    (.twoPair, cards.filter (fun c => rc c.rank == 2))
  else if cv.head? == some 2 then
    (.pair, cards.filter (fun c => rc c.rank == 2))
  else
    match cards with
    | [] => (.highCard, [])
    | c :: rest =>
        -- `max(cards, key=lambda c: c.rank)`: first card of maximal rank
        let highest := rest.foldl (fun m c => if m.rank.val < c.rank.val then c else m) c
        (.highCard, [highest])

/-- Chip contribution of one scoring card (stone → 50, else chip value). -/
def scoringCardChips (c : Card) : Nat :=
  if c.enhancement == .stone then 50 else c.rank.chipValue

/-- `evaluate_hand(cards, hand_level)`; `none` models the `ValueError`
on an empty or over-size input. -/
def evaluateHand (cards : List Card) (handLevel : Nat) : Option HandResult :=
  if cards.isEmpty then none
  else if 5 < cards.length then none
  else
    let stoneCards := cards.filter (fun c => c.enhancement == .stone)
    let normalCards := cards.filter (fun c => c.enhancement != .stone)
    let sorted := sortedRanksDesc normalCards
    let isFlush := checkFlush normalCards
    let isStraight := isStraightRanks sorted
    let cv := countValues normalCards
    let (ht, sc) := identifyHand normalCards cv isFlush isStraight sorted
    let scoringCards := sc ++ stoneCards
    let baseChips := ht.baseChips + (handLevel - 1) * ht.baseChips
        + (scoringCards.map scoringCardChips).sum
    some
      { handType := ht
        scoringCards := scoringCards
        baseChips := baseChips
        baseMult := ht.baseMult + (handLevel - 1) }

/-- `_compare_hands` as the `> 0` test used by `find_best_hand`:
true when `a` is strictly better than `b`. -/
def handBetter (a b : HandResult) : Bool :=
  if a.handType != b.handType then b.handType.val < a.handType.val
  else b.baseScore < a.baseScore

/-- `find_best_hand`: best 5-card subset for more than five cards. -/
def findBestHand (cards : List Card) : Option (List Card × HandResult) :=
  if cards.length ≤ 5 then
    (evaluateHand cards 1).map (fun r => (cards, r))
  else
    let rec go : List (List Card) → Option (List Card × HandResult) →
        Option (List Card × HandResult)
      | [], acc => acc
      | combo :: rest, acc =>
          match evaluateHand combo 1 with
          | none => none
          | some r =>
              match acc with
              | none => go rest (some (combo, r))
              | some (bc, br) =>
                  if handBetter r br then go rest (some (combo, r))
                  else go rest (some (bc, br))
    go (combinationsL cards 5) none

/-! ## `jokers.py` — modifier-entity effects -/

/-- `jokers.JokerEffect`. -/
structure JokerEffect where
  addChips : Int := 0
  addMult : Int := 0
  multMult : F := F.one
  retrigger : Nat := 0
  money : Int := 0
deriving Repr, DecidableEq

/-- `JokerEffect.__bool__`. -/
def JokerEffect.isActive (e : JokerEffect) : Bool :=
  e.addChips != 0 || e.addMult != 0 || !(e.multMult.beq F.one)
    || 0 < e.retrigger || e.money != 0

/-- A value stored in a joker's mutable `state` dict. -/
inductive JVal where
  | i (n : Int)
  | f (x : F)
  | b (x : Bool)
  | s (x : String)
  | hts (l : List HandType)
deriving Repr, DecidableEq

/-- A joker's `state` dict: an insertion-ordered association list. -/
def JokerState := List (String × JVal)
deriving Repr, DecidableEq

namespace JokerState

def get? (st : JokerState) (k : String) : Option JVal :=
  (List.find? (fun p => p.1 == k) st).map (·.2)

/-- `state.get(k, d)` read as an int. -/
def getI (st : JokerState) (k : String) (d : Int) : Int :=
  match st.get? k with
  | some (.i n) => n
  | _ => d

/-- `state.get(k, d)` read as a float (Python also accepts a stored int). -/
def getF (st : JokerState) (k : String) (d : F) : F :=
  match st.get? k with
  | some (.f x) => x
  | some (.i n) => F.ofInt n
  | _ => d

def getB (st : JokerState) (k : String) (d : Bool) : Bool :=
  match st.get? k with
  | some (.b x) => x
  | _ => d

def getS (st : JokerState) (k : String) (d : String) : String :=
  match st.get? k with
  | some (.s x) => x
  | _ => d

def getHts (st : JokerState) (k : String) : List HandType :=
  match st.get? k with
  | some (.hts l) => l
  | _ => []

/-- `state[k] = v`: replace in place or append (dict insertion order). -/
def set : JokerState → String → JVal → JokerState
  | [], k, v => [(k, v)]
  | (k', v') :: rest, k, v =>
      if k' == k then (k, v) :: rest else (k', v') :: set rest k v

end JokerState

/-- `scoring.ScoringContext`. -/
structure ScoringContext where
  playedCards : List Card
  scoringCards : List Card
  cardsInHand : List Card
  handResult : HandResult
  gameState : GameStateM
  currentChips : Int := 0
  currentMult : F := F.zero

/-- Oracle for the module-level global RNG (`random.random`,
`random.randint`): streams of results plus read positions. -/
structure GRng where
  qs : Nat → F
  ints : Nat → Nat
  qpos : Nat := 0
  ipos : Nat := 0

/-- One `random.random()` call on the global RNG. -/
def GRng.nextQ (g : GRng) : F × GRng :=
  (g.qs g.qpos, { g with qpos := g.qpos + 1 })

/-- `random.randint(0, hi)` on the global RNG. -/
def GRng.nextIntTo (g : GRng) (hi : Nat) : Nat × GRng :=
  (g.ints g.ipos % (hi + 1), { g with ipos := g.ipos + 1 })

/-- `sum(1 for _ in range(n) if random.random() < p)`. -/
def GRng.bernoulliCount (p : F) : Nat → GRng → Nat × GRng
  | 0, g => (0, g)
  | n + 1, g =>
      let (q, g') := g.nextQ
      let (c, g'') := GRng.bernoulliCount p n g'
      ((if q.lt p then 1 else 0) + c, g'')

/-- `jokers.JokerInstance`: the definition's `id` and `name` plus the
mutable `state` dict (the other static-definition fields — description,
rarity, cost, timing — are never read on the scoring path). -/
structure JokerInstance where
  id : String
  name : String
  state : JokerState := []
deriving Repr, DecidableEq

/-- `_is_face_card` on rank values. -/
def isFaceVal (v : Nat) : Bool := v == 11 || v == 12 || v == 13

/-- `_is_even_rank`. -/
def isEvenVal (v : Nat) : Bool := v == 10 || v == 8 || v == 6 || v == 4 || v == 2

/-- `_is_odd_rank`. -/
def isOddVal (v : Nat) : Bool := v == 14 || v == 9 || v == 7 || v == 5 || v == 3

/-- `_is_fibonacci_rank`. -/
def isFibVal (v : Nat) : Bool := v == 14 || v == 2 || v == 3 || v == 5 || v == 8

/-- The single-letter suit string (`Suit.value`). -/
def Suit.str : Suit → String
  | .spades => "S" | .hearts => "H" | .clubs => "C" | .diamonds => "D"

/-- `any(count >= n for count in Counter(ranks).values())`. -/
def hasRankGroup (cards : List Card) (n : Nat) : Bool :=
  cards.any (fun c => n ≤ countRank cards c.rank)

/-- Hand types counting as containing a straight in the calculators. -/
def straightish (ht : HandType) : Bool :=
  ht == .straight || ht == .straightFlush || ht == .royalFlush

/-- Hand types counting as containing a flush in the calculators. -/
def flushish (ht : HandType) : Bool :=
  ht == .flush || ht == .straightFlush || ht == .royalFlush
    || ht == .flushHouse || ht == .flushFive

/-- A joker's scoring calculator.  `det` covers the calculators whose
Python bodies touch no RNG (they may read and write `joker.state`);
`rnd` covers the four calculators whose bodies call the module-level
global RNG (misprint, bloodstone, business_card, reserved_parking),
none of which writes state. -/
inductive JokerCalc where
  | det (f : JokerState → ScoringContext → JokerEffect × JokerState)
  | rnd (f : JokerState → ScoringContext → GRng → JokerEffect × GRng)

/-- Count of scoring cards whose literal `suit` field is `s`
(`sum(1 for c in ctx.scoring_cards if c.suit.value == ...)`). -/
def scoringSuitCount (ctx : ScoringContext) (s : Suit) : Nat :=
  ctx.scoringCards.countP (fun c => c.suit == s)

def jokerEffectv (st : JokerState) (_ : ScoringContext) : JokerEffect × JokerState :=
  ({ addMult := 4 }, st)

def greedyJokerEffect (st : JokerState) (ctx : ScoringContext) : JokerEffect × JokerState :=
  ({ addMult := 3 * (scoringSuitCount ctx .diamonds : Int) }, st)

def lustyJokerEffect (st : JokerState) (ctx : ScoringContext) : JokerEffect × JokerState :=
  ({ addMult := 3 * (scoringSuitCount ctx .hearts : Int) }, st)

def wrathfulJokerEffect (st : JokerState) (ctx : ScoringContext) : JokerEffect × JokerState :=
  ({ addMult := 3 * (scoringSuitCount ctx .spades : Int) }, st)

def gluttonousJokerEffect (st : JokerState) (ctx : ScoringContext) : JokerEffect × JokerState :=
  ({ addMult := 3 * (scoringSuitCount ctx .clubs : Int) }, st)

def jollyJokerEffect (st : JokerState) (ctx : ScoringContext) : JokerEffect × JokerState :=
  (if hasRankGroup ctx.scoringCards 2 then { addMult := 8 } else {}, st)

def zanyJokerEffect (st : JokerState) (ctx : ScoringContext) : JokerEffect × JokerState :=
  (if hasRankGroup ctx.scoringCards 3 then { addMult := 12 } else {}, st)

def madJokerEffect (st : JokerState) (ctx : ScoringContext) : JokerEffect × JokerState :=
  (if ctx.handResult.handType == .twoPair then { addMult := 10 } else {}, st)

def crazyJokerEffect (st : JokerState) (ctx : ScoringContext) : JokerEffect × JokerState :=
  (if straightish ctx.handResult.handType then { addMult := 12 } else {}, st)

def drollJokerEffect (st : JokerState) (ctx : ScoringContext) : JokerEffect × JokerState :=
  (if flushish ctx.handResult.handType then { addMult := 10 } else {}, st)

def halfJokerEffect (st : JokerState) (ctx : ScoringContext) : JokerEffect × JokerState :=
  (if ctx.playedCards.length ≤ 3 then { addMult := 20 } else {}, st)

def bannerEffect (st : JokerState) (ctx : ScoringContext) : JokerEffect × JokerState :=
  ({ addChips := 30 * (ctx.gameState.discardsRemaining : Int) }, st)

def mysticSummitEffect (st : JokerState) (ctx : ScoringContext) : JokerEffect × JokerState :=
  (if ctx.gameState.discardsRemaining == 0 then { addMult := 15 } else {}, st)

/-- Misprint: `random.randint(0, 23)` on the *global* RNG. -/
def misprintEffect (_ : JokerState) (_ : ScoringContext) (g : GRng) :
    JokerEffect × GRng :=
  let (n, g') := g.nextIntTo 23
  ({ addMult := (n : Int) }, g')

def raisedFistEffect (st : JokerState) (ctx : ScoringContext) : JokerEffect × JokerState :=
  match ctx.cardsInHand with
  | [] => ({}, st)
  | c :: rest =>
      -- `min(cards, key=...)`: first card of minimal rank
      let lowest := rest.foldl (fun m d => if d.rank.val < m.rank.val then d else m) c
      ({ addMult := 2 * (lowest.rank.val : Int) }, st)

def fibonacciEffect (st : JokerState) (ctx : ScoringContext) : JokerEffect × JokerState :=
  ({ addMult := 8 * (ctx.scoringCards.countP (fun c => isFibVal c.rank.val) : Int) }, st)

def abstractJokerEffect (st : JokerState) (_ : ScoringContext) : JokerEffect × JokerState :=
  ({ addMult := 3 * st.getI "joker_count" 1 }, st)

def grosMichelEffect (st : JokerState) (_ : ScoringContext) : JokerEffect × JokerState :=
  ({ addMult := 15 }, st)

def evenStevenEffect (st : JokerState) (ctx : ScoringContext) : JokerEffect × JokerState :=
  ({ addMult := 4 * (ctx.scoringCards.countP (fun c => isEvenVal c.rank.val) : Int) }, st)

def scholarEffect (st : JokerState) (ctx : ScoringContext) : JokerEffect × JokerState :=
  let aces : Int := ctx.scoringCards.countP (fun c => c.rank.val == 14)
  ({ addChips := 20 * aces, addMult := 4 * aces }, st)

def supernovaEffect (st : JokerState) (_ : ScoringContext) : JokerEffect × JokerState :=
  ({ addMult := st.getI "times_played" 0 }, st)

def erosionEffect (st : JokerState) (_ : ScoringContext) : JokerEffect × JokerState :=
  ({ addMult := 4 * st.getI "cards_below" 0 }, st)

def fortuneTellerEffect (st : JokerState) (_ : ScoringContext) : JokerEffect × JokerState :=
  ({ addMult := st.getI "tarots_used" 0 }, st)

def popcornEffect (st : JokerState) (_ : ScoringContext) : JokerEffect × JokerState :=
  ({ addMult := max 0 (st.getI "mult" 20) }, st)

def smileyFaceEffect (st : JokerState) (ctx : ScoringContext) : JokerEffect × JokerState :=
  ({ addMult := 5 * (ctx.scoringCards.countP (fun c => isFaceVal c.rank.val) : Int) }, st)

def swashbucklerEffect (st : JokerState) (_ : ScoringContext) : JokerEffect × JokerState :=
  ({ addMult := st.getI "sell_value" 1 }, st)

def shootTheMoonEffect (st : JokerState) (ctx : ScoringContext) : JokerEffect × JokerState :=
  ({ addMult := 13 * (ctx.cardsInHand.countP (fun c => c.rank.val == 12) : Int) }, st)

def bootstrapsEffect (st : JokerState) (_ : ScoringContext) : JokerEffect × JokerState :=
  ({ addMult := 2 * ((st.getI "money" 0).fdiv 5) }, st)

def onyxAgateEffect (st : JokerState) (ctx : ScoringContext) : JokerEffect × JokerState :=
  ({ addMult := 7 * (scoringSuitCount ctx .clubs : Int) }, st)

def walkieTalkieEffect (st : JokerState) (ctx : ScoringContext) : JokerEffect × JokerState :=
  let n : Int := ctx.scoringCards.countP (fun c => c.rank.val == 10 || c.rank.val == 4)
  ({ addChips := 10 * n, addMult := 4 * n }, st)

def slyJokerEffect (st : JokerState) (ctx : ScoringContext) : JokerEffect × JokerState :=
  (if hasRankGroup ctx.scoringCards 2 then { addChips := 50 } else {}, st)

def wilyJokerEffect (st : JokerState) (ctx : ScoringContext) : JokerEffect × JokerState :=
  (if hasRankGroup ctx.scoringCards 3 then { addChips := 100 } else {}, st)

def cleverJokerEffect (st : JokerState) (ctx : ScoringContext) : JokerEffect × JokerState :=
  (if ctx.handResult.handType == .twoPair then { addChips := 80 } else {}, st)

def deviousJokerEffect (st : JokerState) (ctx : ScoringContext) : JokerEffect × JokerState :=
  (if straightish ctx.handResult.handType then { addChips := 100 } else {}, st)

def craftyJokerEffect (st : JokerState) (ctx : ScoringContext) : JokerEffect × JokerState :=
  (if flushish ctx.handResult.handType then { addChips := 80 } else {}, st)

def scaryFaceEffect (st : JokerState) (ctx : ScoringContext) : JokerEffect × JokerState :=
  ({ addChips := 30 * (ctx.scoringCards.countP (fun c => isFaceVal c.rank.val) : Int) }, st)

def oddToddEffect (st : JokerState) (ctx : ScoringContext) : JokerEffect × JokerState :=
  ({ addChips := 31 * (ctx.scoringCards.countP (fun c => isOddVal c.rank.val) : Int) }, st)

def blueJokerEffect (st : JokerState) (_ : ScoringContext) : JokerEffect × JokerState :=
  ({ addChips := 2 * st.getI "deck_remaining" 52 }, st)

def stoneJokerEffect (st : JokerState) (_ : ScoringContext) : JokerEffect × JokerState :=
  ({ addChips := 25 * st.getI "stone_cards" 0 }, st)

def bullEffect (st : JokerState) (_ : ScoringContext) : JokerEffect × JokerState :=
  ({ addChips := 2 * st.getI "money" 0 }, st)

def arrowheadEffect (st : JokerState) (ctx : ScoringContext) : JokerEffect × JokerState :=
  ({ addChips := 50 * (scoringSuitCount ctx .spades : Int) }, st)

def stuntmanEffect (st : JokerState) (_ : ScoringContext) : JokerEffect × JokerState :=
  ({ addChips := 250 }, st)

def iceCreamEffect (st : JokerState) (_ : ScoringContext) : JokerEffect × JokerState :=
  ({ addChips := st.getI "chips" 100 }, st)

def runnerEffect (st : JokerState) (ctx : ScoringContext) : JokerEffect × JokerState :=
  let chips := st.getI "chips" 0
  let st' := if straightish ctx.handResult.handType then
      st.set "chips" (.i (chips + 15)) else st
  ({ addChips := st'.getI "chips" 0 }, st')

def squareJokerEffect (st : JokerState) (ctx : ScoringContext) : JokerEffect × JokerState :=
  let chips := st.getI "chips" 0
  let st' := if ctx.playedCards.length == 4 then
      st.set "chips" (.i (chips + 4)) else st
  ({ addChips := st'.getI "chips" 0 }, st')

def castleEffect (st : JokerState) (_ : ScoringContext) : JokerEffect × JokerState :=
  ({ addChips := st.getI "chips" 0 }, st)

def weeJokerEffect (st : JokerState) (ctx : ScoringContext) : JokerEffect × JokerState :=
  let chips := st.getI "chips" 0
  let twos : Int := ctx.scoringCards.countP (fun c => c.rank.val == 2)
  let st' := if 0 < twos then st.set "chips" (.i (chips + 8 * twos)) else st
  ({ addChips := st'.getI "chips" 0 }, st')

def rideTheBusEffect (st : JokerState) (_ : ScoringContext) : JokerEffect × JokerState :=
  ({ addMult := st.getI "mult" 0 }, st)

def greenJokerEffect (st : JokerState) (_ : ScoringContext) : JokerEffect × JokerState :=
  ({ addMult := st.getI "mult" 0 }, st)

def redCardEffect (st : JokerState) (_ : ScoringContext) : JokerEffect × JokerState :=
  ({ addMult := st.getI "mult" 0 }, st)

def flashCardEffect (st : JokerState) (_ : ScoringContext) : JokerEffect × JokerState :=
  ({ addMult := st.getI "mult" 0 }, st)

def spareTrousersEffect (st : JokerState) (ctx : ScoringContext) : JokerEffect × JokerState :=
  let m := st.getI "mult" 0
  let st' := if ctx.handResult.handType == .twoPair then
      st.set "mult" (.i (m + 2)) else st
  ({ addMult := st'.getI "mult" 0 }, st')

def blackboardEffect (st : JokerState) (ctx : ScoringContext) : JokerEffect × JokerState :=
  (if !ctx.cardsInHand.isEmpty
      && ctx.cardsInHand.all (fun c => c.suit == .spades || c.suit == .clubs)
   then { multMult := F.ofInt 3 } else {}, st)

def jokerStencilEffect (st : JokerState) (_ : ScoringContext) : JokerEffect × JokerState :=
  let slots := st.getI "empty_slots" 0
  (if 0 < slots then { multMult := F.ofInt slots } else {}, st)

def loyaltyCardEffect (st : JokerState) (_ : ScoringContext) : JokerEffect × JokerState :=
  (if st.getI "hands_until" 5 == 0 then { multMult := F.ofInt 4 } else {}, st)

def steelJokerEffect (st : JokerState) (_ : ScoringContext) : JokerEffect × JokerState :=
  let n := st.getI "steel_cards" 0
  (if 0 < n then { multMult := F.add F.one (F.mul ⟨1, 5⟩ (F.ofInt n)) } else {}, st)

def constellationEffect (st : JokerState) (_ : ScoringContext) : JokerEffect × JokerState :=
  let m := st.getF "mult" F.one
  (if F.one.lt m then { multMult := m } else {}, st)

def cavendishEffect (st : JokerState) (_ : ScoringContext) : JokerEffect × JokerState :=
  ({ multMult := F.ofInt 3 }, st)

def cardSharpEffect (st : JokerState) (ctx : ScoringContext) : JokerEffect × JokerState :=
  (if (st.getHts "hands_this_round").contains ctx.handResult.handType
   then { multMult := F.ofInt 3 } else {}, st)

def madnessEffect (st : JokerState) (_ : ScoringContext) : JokerEffect × JokerState :=
  let m := st.getF "mult" F.one
  (if F.one.lt m then { multMult := m } else {}, st)

def hologramEffect (st : JokerState) (_ : ScoringContext) : JokerEffect × JokerState :=
  let m := st.getF "mult" F.one
  (if F.one.lt m then { multMult := m } else {}, st)

def vampireEffect (st : JokerState) (_ : ScoringContext) : JokerEffect × JokerState :=
  let m := st.getF "mult" F.one
  (if F.one.lt m then { multMult := m } else {}, st)

def obeliskEffect (st : JokerState) (_ : ScoringContext) : JokerEffect × JokerState :=
  let m := st.getF "mult" F.one
  (if F.one.lt m then { multMult := m } else {}, st)

def photographEffect (st : JokerState) (ctx : ScoringContext) : JokerEffect × JokerState :=
  (if ctx.scoringCards.any (fun c => isFaceVal c.rank.val)
   then { multMult := F.ofInt 2 } else {}, st)

def luckyCatEffect (st : JokerState) (_ : ScoringContext) : JokerEffect × JokerState :=
  let m := st.getF "mult" F.one
  (if F.one.lt m then { multMult := m } else {}, st)

def baseballCardEffect (st : JokerState) (_ : ScoringContext) : JokerEffect × JokerState :=
  let n := st.getI "uncommon_jokers" 0
  (if 0 < n then { multMult := F.powNat ⟨3, 2⟩ n.toNat } else {}, st)

def ancientJokerEffect (st : JokerState) (ctx : ScoringContext) : JokerEffect × JokerState :=
  let target := st.getS "suit" "S"
  let n := ctx.scoringCards.countP (fun c => c.suit.str == target)
  (if 0 < n then { multMult := F.powNat ⟨3, 2⟩ n } else {}, st)

def ramenEffect (st : JokerState) (_ : ScoringContext) : JokerEffect × JokerState :=
  let m := st.getF "mult" (F.ofInt 2)
  (if F.one.lt m then { multMult := m } else {}, st)

def acrobatEffect (st : JokerState) (_ : ScoringContext) : JokerEffect × JokerState :=
  (if st.getB "is_final_hand" false then { multMult := F.ofInt 3 } else {}, st)

def campfireEffect (st : JokerState) (_ : ScoringContext) : JokerEffect × JokerState :=
  let m := st.getF "mult" F.one
  (if F.one.lt m then { multMult := m } else {}, st)

def throwbackEffect (st : JokerState) (_ : ScoringContext) : JokerEffect × JokerState :=
  let n := st.getI "blinds_skipped" 0
  (if 0 < n then { multMult := F.add F.one (F.mul ⟨1, 4⟩ (F.ofInt n)) } else {}, st)

/-- Bloodstone: one global-RNG draw per scoring Heart. -/
def bloodstoneEffect (_ : JokerState) (ctx : ScoringContext) (g : GRng) :
    JokerEffect × GRng :=
  let hearts := ctx.scoringCards.countP (fun c => c.suit == .hearts)
  let (triggered, g') := GRng.bernoulliCount ⟨1, 2⟩ hearts g
  (if 0 < triggered then { multMult := F.powNat ⟨3, 2⟩ triggered } else {}, g')

def glassJokerEffect (st : JokerState) (_ : ScoringContext) : JokerEffect × JokerState :=
  let m := st.getF "mult" F.one
  (if F.one.lt m then { multMult := m } else {}, st)

def flowerPotEffect (st : JokerState) (ctx : ScoringContext) : JokerEffect × JokerState :=
  (if Suit.all.all (fun s => ctx.scoringCards.any (fun c => c.suit == s))
   then { multMult := F.ofInt 3 } else {}, st)

def theDuoEffect (st : JokerState) (ctx : ScoringContext) : JokerEffect × JokerState :=
  (if hasRankGroup ctx.scoringCards 2 then { multMult := F.ofInt 2 } else {}, st)

def theTrioEffect (st : JokerState) (ctx : ScoringContext) : JokerEffect × JokerState :=
  (if hasRankGroup ctx.scoringCards 3 then { multMult := F.ofInt 3 } else {}, st)

def theFamilyEffect (st : JokerState) (ctx : ScoringContext) : JokerEffect × JokerState :=
  (if hasRankGroup ctx.scoringCards 4 then { multMult := F.ofInt 4 } else {}, st)

def theOrderEffect (st : JokerState) (ctx : ScoringContext) : JokerEffect × JokerState :=
  (if straightish ctx.handResult.handType then { multMult := F.ofInt 3 } else {}, st)

def theTribeEffect (st : JokerState) (ctx : ScoringContext) : JokerEffect × JokerState :=
  (if flushish ctx.handResult.handType then { multMult := F.ofInt 2 } else {}, st)

def theIdolEffect (st : JokerState) (ctx : ScoringContext) : JokerEffect × JokerState :=
  let tr := st.getI "rank" 14
  let ts := st.getS "suit" "S"
  let n := ctx.scoringCards.countP
      (fun c => (c.rank.val : Int) == tr && c.suit.str == ts)
  (if 0 < n then { multMult := F.powNat (F.ofInt 2) n } else {}, st)

def seeingDoubleEffect (st : JokerState) (ctx : ScoringContext) : JokerEffect × JokerState :=
  let hasClub := ctx.scoringCards.any (fun c => c.suit == .clubs)
  let hasOther := ctx.scoringCards.any (fun c => c.suit != .clubs)
  (if hasClub && hasOther then { multMult := F.ofInt 2 } else {}, st)

def hitTheRoadEffect (st : JokerState) (_ : ScoringContext) : JokerEffect × JokerState :=
  let m := st.getF "mult" F.one
  (if F.one.lt m then { multMult := m } else {}, st)

def driversLicenseEffect (st : JokerState) (_ : ScoringContext) : JokerEffect × JokerState :=
  (if 16 ≤ st.getI "enhanced_cards" 0 then { multMult := F.ofInt 3 } else {}, st)

def baronEffect (st : JokerState) (ctx : ScoringContext) : JokerEffect × JokerState :=
  let kings := ctx.cardsInHand.countP (fun c => c.rank.val == 13)
  (if 0 < kings then { multMult := F.powNat ⟨3, 2⟩ kings } else {}, st)

def tribouletEffect (st : JokerState) (ctx : ScoringContext) : JokerEffect × JokerState :=
  let n := ctx.scoringCards.countP (fun c => c.rank.val == 12 || c.rank.val == 13)
  (if 0 < n then { multMult := F.powNat (F.ofInt 2) n } else {}, st)

def canioEffect (st : JokerState) (_ : ScoringContext) : JokerEffect × JokerState :=
  let m := st.getF "mult" F.one
  (if F.one.lt m then { multMult := m } else {}, st)

def yorickEffect (st : JokerState) (_ : ScoringContext) : JokerEffect × JokerState :=
  let m := st.getF "mult" F.one
  (if F.one.lt m then { multMult := m } else {}, st)

def hackEffect (st : JokerState) (ctx : ScoringContext) : JokerEffect × JokerState :=
  ({ retrigger := ctx.scoringCards.countP
      (fun c => c.rank.val == 2 || c.rank.val == 3 || c.rank.val == 4 || c.rank.val == 5) }, st)

def duskEffect (st : JokerState) (ctx : ScoringContext) : JokerEffect × JokerState :=
  (if st.getB "is_final_hand" false
   then { retrigger := ctx.scoringCards.length } else {}, st)

def sockAndBuskinEffect (st : JokerState) (ctx : ScoringContext) : JokerEffect × JokerState :=
  ({ retrigger := ctx.scoringCards.countP (fun c => isFaceVal c.rank.val) }, st)

def hangingChadEffect (st : JokerState) (_ : ScoringContext) : JokerEffect × JokerState :=
  ({ retrigger := 2 }, st)

def seltzerEffect (st : JokerState) (ctx : ScoringContext) : JokerEffect × JokerState :=
  (if 0 < st.getI "hands_remaining" 0
   then { retrigger := ctx.scoringCards.length } else {}, st)

def mimeEffect (st : JokerState) (ctx : ScoringContext) : JokerEffect × JokerState :=
  ({ retrigger := ctx.cardsInHand.length }, st)

def ceremonialDaggerEffect (st : JokerState) (_ : ScoringContext) : JokerEffect × JokerState :=
  ({ addMult := st.getI "mult" 0 }, st)

/-- Business Card: one global-RNG draw per scoring face card, $2 each hit. -/
def businessCardEffect (_ : JokerState) (ctx : ScoringContext) (g : GRng) :
    JokerEffect × GRng :=
  let faces := ctx.scoringCards.countP (fun c => isFaceVal c.rank.val)
  let (hits, g') := GRng.bernoulliCount ⟨1, 2⟩ faces g
  ({ money := 2 * (hits : Int) }, g')

/-- Reserved Parking: one global-RNG draw per face card held in hand. -/
def reservedParkingEffect (_ : JokerState) (ctx : ScoringContext) (g : GRng) :
    JokerEffect × GRng :=
  let faces := ctx.cardsInHand.countP (fun c => isFaceVal c.rank.val)
  let (hits, g') := GRng.bernoulliCount ⟨1, 2⟩ faces g
  ({ money := (hits : Int) }, g')

def roughGemEffect (st : JokerState) (ctx : ScoringContext) : JokerEffect × JokerState :=
  ({ money := (scoringSuitCount ctx .diamonds : Int) }, st)

/-- The shared body of every calculator that returns a plain
`JokerEffect()`: credit_card, marble_joker, eight_ball, chaos_the_clown,
delayed_gratification, pareidolia, space_joker, egg, burglar, dna,
splash, sixth_sense, hiker, faceless_joker, superposition, to_do_list,
vagabond, cloud_9, rocket, midas_mask, luchador, gift_card, turtle_bean,
mail_in_rebate, to_the_moon, hallucination, juggler, drunkard,
golden_joker, diet_cola, trading_card, golden_ticket, mr_bones,
troubadour, certificate, smeared_joker, showman, blueprint, merry_andy,
oops_all_6s, matador, invisible_joker, brainstorm, satellite,
cartomancer, astronomer, burnt_joker, chicot, perkeo, four_fingers,
shortcut, seance, riff_raff (their scoring bodies are identical). -/
def zeroEffect (st : JokerState) (_ : ScoringContext) : JokerEffect × JokerState :=
  ({}, st)

/-- Chunk 1 of the `JOKER_CALCULATORS` table (split only to keep
elaboration fast; the concatenation below is the Python dict). -/
def jokerCalcChunk1 : List (String × JokerCalc) := [
  ("joker", .det jokerEffectv),
  ("greedy_joker", .det greedyJokerEffect),
  ("lusty_joker", .det lustyJokerEffect),
  ("wrathful_joker", .det wrathfulJokerEffect),
  ("gluttonous_joker", .det gluttonousJokerEffect),
  ("jolly_joker", .det jollyJokerEffect),
  ("zany_joker", .det zanyJokerEffect),
  ("mad_joker", .det madJokerEffect),
  ("crazy_joker", .det crazyJokerEffect),
  ("droll_joker", .det drollJokerEffect),
  ("half_joker", .det halfJokerEffect),
  ("banner", .det bannerEffect),
  ("mystic_summit", .det mysticSummitEffect),
  ("misprint", .rnd misprintEffect),
  ("raised_fist", .det raisedFistEffect),
  ("fibonacci", .det fibonacciEffect),
  ("abstract_joker", .det abstractJokerEffect),
  ("gros_michel", .det grosMichelEffect),
  ("even_steven", .det evenStevenEffect),
  ("scholar", .det scholarEffect)]

/-- Chunk 2 of the `JOKER_CALCULATORS` table (split only to keep
elaboration fast; the concatenation below is the Python dict). -/
def jokerCalcChunk2 : List (String × JokerCalc) := [
  ("supernova", .det supernovaEffect),
  ("erosion", .det erosionEffect),
  ("fortune_teller", .det fortuneTellerEffect),
  ("popcorn", .det popcornEffect),
  ("smiley_face", .det smileyFaceEffect),
  ("swashbuckler", .det swashbucklerEffect),
  ("shoot_the_moon", .det shootTheMoonEffect),
  ("bootstraps", .det bootstrapsEffect),
  ("onyx_agate", .det onyxAgateEffect),
  ("walkie_talkie", .det walkieTalkieEffect),
  ("sly_joker", .det slyJokerEffect),
  ("wily_joker", .det wilyJokerEffect),
  ("clever_joker", .det cleverJokerEffect),
  ("devious_joker", .det deviousJokerEffect),
  ("crafty_joker", .det craftyJokerEffect),
  ("scary_face", .det scaryFaceEffect),
  ("odd_todd", .det oddToddEffect),
  ("blue_joker", .det blueJokerEffect),
  ("stone_joker", .det stoneJokerEffect),
  ("bull", .det bullEffect)]

/-- Chunk 3 of the `JOKER_CALCULATORS` table (split only to keep
elaboration fast; the concatenation below is the Python dict). -/
def jokerCalcChunk3 : List (String × JokerCalc) := [
  ("arrowhead", .det arrowheadEffect),
  ("stuntman", .det stuntmanEffect),
  ("ice_cream", .det iceCreamEffect),
  ("runner", .det runnerEffect),
  ("square_joker", .det squareJokerEffect),
  ("castle", .det castleEffect),
  ("wee_joker", .det weeJokerEffect),
  ("ride_the_bus", .det rideTheBusEffect),
  ("green_joker", .det greenJokerEffect),
  ("red_card", .det redCardEffect),
  ("flash_card", .det flashCardEffect),
  ("spare_trousers", .det spareTrousersEffect),
  ("blackboard", .det blackboardEffect),
  ("joker_stencil", .det jokerStencilEffect),
  ("loyalty_card", .det loyaltyCardEffect),
  ("steel_joker", .det steelJokerEffect),
  ("constellation", .det constellationEffect),
  ("cavendish", .det cavendishEffect),
  ("card_sharp", .det cardSharpEffect),
  ("madness", .det madnessEffect)]

/-- Chunk 4 of the `JOKER_CALCULATORS` table (split only to keep
elaboration fast; the concatenation below is the Python dict). -/
def jokerCalcChunk4 : List (String × JokerCalc) := [
  ("hologram", .det hologramEffect),
  ("vampire", .det vampireEffect),
  ("obelisk", .det obeliskEffect),
  ("photograph", .det photographEffect),
  ("lucky_cat", .det luckyCatEffect),
  ("baseball_card", .det baseballCardEffect),
  ("ancient_joker", .det ancientJokerEffect),
  ("ramen", .det ramenEffect),
  ("acrobat", .det acrobatEffect),
  ("campfire", .det campfireEffect),
  ("throwback", .det throwbackEffect),
  ("bloodstone", .rnd bloodstoneEffect),
  ("glass_joker", .det glassJokerEffect),
  ("flower_pot", .det flowerPotEffect),
  ("the_duo", .det theDuoEffect),
  ("the_trio", .det theTrioEffect),
  ("the_family", .det theFamilyEffect),
  ("the_order", .det theOrderEffect),
  ("the_tribe", .det theTribeEffect),
  ("the_idol", .det theIdolEffect)]

/-- Chunk 5 of the `JOKER_CALCULATORS` table (split only to keep
elaboration fast; the concatenation below is the Python dict). -/
def jokerCalcChunk5 : List (String × JokerCalc) := [
  ("seeing_double", .det seeingDoubleEffect),
  ("hit_the_road", .det hitTheRoadEffect),
  ("drivers_license", .det driversLicenseEffect),
  ("baron", .det baronEffect),
  ("triboulet", .det tribouletEffect),
  ("canio", .det canioEffect),
  ("yorick", .det yorickEffect),
  ("hack", .det hackEffect),
  ("dusk", .det duskEffect),
  ("sock_and_buskin", .det sockAndBuskinEffect),
  ("hanging_chad", .det hangingChadEffect),
  ("seltzer", .det seltzerEffect),
  ("mime", .det mimeEffect),
  ("credit_card", .det zeroEffect),
  ("ceremonial_dagger", .det ceremonialDaggerEffect),
  ("marble_joker", .det zeroEffect),
  ("eight_ball", .det zeroEffect),
  ("chaos_the_clown", .det zeroEffect),
  ("delayed_gratification", .det zeroEffect),
  ("pareidolia", .det zeroEffect)]

/-- Chunk 6 of the `JOKER_CALCULATORS` table (split only to keep
elaboration fast; the concatenation below is the Python dict). -/
def jokerCalcChunk6 : List (String × JokerCalc) := [
  ("business_card", .rnd businessCardEffect),
  ("space_joker", .det zeroEffect),
  ("egg", .det zeroEffect),
  ("burglar", .det zeroEffect),
  ("dna", .det zeroEffect),
  ("splash", .det zeroEffect),
  ("sixth_sense", .det zeroEffect),
  ("hiker", .det zeroEffect),
  ("faceless_joker", .det zeroEffect),
  ("superposition", .det zeroEffect),
  ("to_do_list", .det zeroEffect),
  ("vagabond", .det zeroEffect),
  ("cloud_9", .det zeroEffect),
  ("rocket", .det zeroEffect),
  ("midas_mask", .det zeroEffect),
  ("luchador", .det zeroEffect),
  ("gift_card", .det zeroEffect),
  ("turtle_bean", .det zeroEffect),
  ("reserved_parking", .rnd reservedParkingEffect),
  ("mail_in_rebate", .det zeroEffect)]

/-- Chunk 7 of the `JOKER_CALCULATORS` table (split only to keep
elaboration fast; the concatenation below is the Python dict). -/
def jokerCalcChunk7 : List (String × JokerCalc) := [
  ("to_the_moon", .det zeroEffect),
  ("hallucination", .det zeroEffect),
  ("juggler", .det zeroEffect),
  ("drunkard", .det zeroEffect),
  ("golden_joker", .det zeroEffect),
  ("diet_cola", .det zeroEffect),
  ("trading_card", .det zeroEffect),
  ("golden_ticket", .det zeroEffect),
  ("mr_bones", .det zeroEffect),
  ("troubadour", .det zeroEffect),
  ("certificate", .det zeroEffect),
  ("smeared_joker", .det zeroEffect),
  ("rough_gem", .det roughGemEffect),
  ("showman", .det zeroEffect),
  ("blueprint", .det zeroEffect),
  ("merry_andy", .det zeroEffect),
  ("oops_all_6s", .det zeroEffect),
  ("matador", .det zeroEffect),
  ("invisible_joker", .det zeroEffect),
  ("brainstorm", .det zeroEffect)]

/-- Chunk 8 of the `JOKER_CALCULATORS` table (split only to keep
elaboration fast; the concatenation below is the Python dict). -/
def jokerCalcChunk8 : List (String × JokerCalc) := [
  ("satellite", .det zeroEffect),
  ("cartomancer", .det zeroEffect),
  ("astronomer", .det zeroEffect),
  ("burnt_joker", .det zeroEffect),
  ("chicot", .det zeroEffect),
  ("perkeo", .det zeroEffect),
  ("four_fingers", .det zeroEffect),
  ("shortcut", .det zeroEffect),
  ("seance", .det zeroEffect),
  ("riff_raff", .det zeroEffect)]

/-- `jokers.JOKER_CALCULATORS`: the id-keyed scoring dispatch table. -/
def JOKER_CALCULATORS : List (String × JokerCalc) :=
  jokerCalcChunk1 ++ jokerCalcChunk2 ++ jokerCalcChunk3 ++ jokerCalcChunk4 ++ jokerCalcChunk5 ++ jokerCalcChunk6 ++ jokerCalcChunk7 ++ jokerCalcChunk8

/-- `JokerInstance.calculate_effect`: dispatch by id; a missing entry is
a zero effect.  Returns the (possibly state-updated) instance and the
advanced global-RNG oracle. -/
def calculateEffect (j : JokerInstance) (ctx : ScoringContext) (g : GRng) :
    JokerEffect × JokerInstance × GRng :=
  match (List.find? (fun p => p.1 == j.id) JOKER_CALCULATORS).map
      (Prod.snd : String × JokerCalc → JokerCalc) with
  | Option.none => ({}, j, g)
  | some (.det f) =>
      let (e, st) := f j.state ctx
      (e, { j with state := st }, g)
  | some (.rnd f) =>
      let (e, g') := f j.state ctx g
      (e, j, g')

/-- Whether an entity id dispatches to a calculator that consults the
module-level global RNG (exactly misprint, bloodstone, business_card,
reserved_parking in the table above). -/
def usesGlobalRng (id : String) : Bool :=
  match (List.find? (fun p => p.1 == id) JOKER_CALCULATORS).map
      (Prod.snd : String × JokerCalc → JokerCalc) with
  | some (.rnd _) => true
  | _ => false

/-! ## `scoring.py` -/

/-- Oracle for a seeded `random.Random(rng_seed)`: the stream of
`random()` results the seed determines, plus a read position. -/
structure CRng where
  qs : Nat → F
  pos : Nat := 0

/-- One `rng.random()` call on the seeded card RNG. -/
def CRng.nextQ (r : CRng) : F × CRng := (r.qs r.pos, { r with pos := r.pos + 1 })

/-- `scoring.CardEffect`. -/
structure CardEffect where
  card : Card
  chips : Int := 0
  mult : Int := 0
  multMult : F := F.one
  money : Int := 0
  retrigger : Nat := 0
  destroyed : Bool := false
deriving Repr, DecidableEq

/-- `scoring.ScoringBreakdown`.  `jokerEffects` entries are the
`(joker_name, chips_added, mult_added, mult_multiplied)` tuples. -/
structure ScoringBreakdown where
  handType : HandType
  baseChips : Int
  baseMult : Int
  cardEffects : List CardEffect := []
  jokerEffects : List (String × Int × Int × F) := []
  moneyEarned : Int := 0
  destroyedCards : List Card := []
  finalChips : Int := 0
  finalMult : F := F.zero
  finalScore : Int := 0
deriving Repr, DecidableEq

/-- `apply_card_modifiers`: enhancement, then edition, then seal.
Glass draws once from the seeded RNG when present; Lucky draws twice. -/
def applyCardModifiers (card : Card) (rng : Option CRng) :
    CardEffect × Option CRng :=
  let e0 : CardEffect := { card := card }
  let (e1, rng1) :=
    match card.enhancement with
    | .bonus => ({ e0 with chips := e0.chips + 30 }, rng)
    | .mult => ({ e0 with mult := e0.mult + 4 }, rng)
    | .glass =>
        let e := { e0 with multMult := e0.multMult.mul (F.ofInt 2) }
        match rng with
        | some r =>
            let (q, r') := r.nextQ
            (if q.lt ⟨1, 4⟩ then { e with destroyed := true } else e, some r')
        | Option.none => (e, Option.none)
    | .lucky =>
        match rng with
        | some r =>
            let (q1, r1) := r.nextQ
            let e := if q1.lt ⟨1, 5⟩ then { e0 with mult := e0.mult + 20 } else e0
            let (q2, r2) := r1.nextQ
            (if q2.lt ⟨1, 15⟩ then { e with money := e.money + 20 } else e, some r2)
        | Option.none => (e0, Option.none)
    | _ => (e0, rng)
  let e2 :=
    match card.edition with
    | .foil => { e1 with chips := e1.chips + 50 }
    | .holographic => { e1 with mult := e1.mult + 10 }
    | .polychrome => { e1 with multMult := e1.multMult.mul ⟨3, 2⟩ }
    | _ => e1
  let e3 :=
    match card.seal' with
    | .gold => { e2 with money := e2.money + 3 }
    | .red => { e2 with retrigger := e2.retrigger + 1 }
    | _ => e2
  (e3, rng1)

/-- `apply_steel_cards_in_hand`: ×1.5 mult per Steel card held. -/
def applySteelCardsInHand (cardsInHand : List Card) : Int × F :=
  (0, cardsInHand.foldl
    (fun m c => if c.enhancement == .steel then m.mul ⟨3, 2⟩ else m) F.one)

/-- One card effect applied `1 + retrigger` times; each application adds
chips, adds mult, multiplies mult, accumulates money — in that order. -/
def applyCardTriggers : Nat → CardEffect → Int × F × Int → Int × F × Int
  | 0, _, acc => acc
  | n + 1, ce, (chips, m, money) =>
      applyCardTriggers n ce
        (chips + ce.chips, (m.add (F.ofInt ce.mult)).mul ce.multMult, money + ce.money)

/-- The per-scoring-card loop of `calculate_score`; returns the running
chips/mult/money, the recorded card effects, the destroyed cards and
the advanced seeded RNG. -/
def scoreCardsLoop : List Card → Option CRng → Int → F → Int →
    List CardEffect → List Card →
    Int × F × Int × List CardEffect × List Card × Option CRng
  | [], rng, chips, m, money, effs, destroyed =>
      (chips, m, money, effs, destroyed, rng)
  | c :: rest, rng, chips, m, money, effs, destroyed =>
      let (ce, rng') := applyCardModifiers c rng
      let (chips', m', money') := applyCardTriggers (1 + ce.retrigger) ce (chips, m, money)
      scoreCardsLoop rest rng' chips' m' money' (effs ++ [ce])
        (if ce.destroyed then destroyed ++ [c] else destroyed)

/-- The joker loop of `calculate_score`: each joker fires in held order
against a context carrying the running (chips, mult); active effects
apply chips, then +mult, then ×mult, are recorded, and update the
context seen by every subsequent joker. -/
def applyJokerChain : List JokerInstance → ScoringContext → Int → F →
    List (String × Int × Int × F) → GRng →
    Int × F × List (String × Int × Int × F) × List JokerInstance × GRng
  | [], _, chips, m, recs, g => (chips, m, recs, [], g)
  | j :: rest, ctx, chips, m, recs, g =>
      let (eff, j', g') := calculateEffect j ctx g
      if eff.isActive then
        let chips' := if eff.addChips != 0 then chips + eff.addChips else chips
        let m1 := if eff.addMult != 0 then m.add (F.ofInt eff.addMult) else m
        let m2 := if !(eff.multMult.beq F.one) then m1.mul eff.multMult else m1
        let ctx' := { ctx with currentChips := chips', currentMult := m2 }
        let (fc, fm, frecs, fjs, fg) := applyJokerChain rest ctx' chips' m2
            (recs ++ [(j'.name, eff.addChips, eff.addMult, eff.multMult)]) g'
        (fc, fm, frecs, j' :: fjs, fg)
      else
        let (fc, fm, frecs, fjs, fg) := applyJokerChain rest ctx chips m recs g'
        (fc, fm, frecs, j' :: fjs, fg)

/-- `calculate_score`.  Inputs are the played cards, the held jokers in
order, the game state, the cards still in hand, the seeded card-RNG
oracle (`none` models `rng_seed=None`) and the global-RNG oracle.
Returns the breakdown together with the (possibly state-updated) jokers
and the advanced global oracle; `none` models the `ValueError` on an
empty play. -/
def calculateScore (playedCards : List Card) (jokers : List JokerInstance)
    (gs : GameStateM) (cardsInHand : List Card) (rng : Option CRng) (g : GRng) :
    Option (ScoringBreakdown × List JokerInstance × GRng) :=
  if playedCards.isEmpty then Option.none
  else
    match evaluateHand playedCards 1 with
    | Option.none => Option.none
    | some r0 =>
      let handLevel := gs.handLevels r0.handType
      match evaluateHand playedCards handLevel with
      | Option.none => Option.none
      | some handResult =>
        let (chips1, mult1, money1, cardEffs, destroyed, _) :=
          scoreCardsLoop handResult.scoringCards rng
            (handResult.baseChips : Int) (F.ofInt (handResult.baseMult : Int)) 0 [] []
        let (_, steelMult) := applySteelCardsInHand cardsInHand
        let mult2 := if !(steelMult.beq F.one) then mult1.mul steelMult else mult1
        let ctx : ScoringContext :=
          { playedCards := playedCards
            scoringCards := handResult.scoringCards
            cardsInHand := cardsInHand
            handResult := handResult
            gameState := gs
            currentChips := chips1
            currentMult := mult2 }
        let (finalChips, finalMult, jokerRecs, jokers', g') :=
          applyJokerChain jokers ctx chips1 mult2 [] g
        some
          ({ handType := handResult.handType
             baseChips := (handResult.baseChips : Int)
             baseMult := (handResult.baseMult : Int)
             cardEffects := cardEffs
             jokerEffects := jokerRecs
             moneyEarned := money1
             destroyedCards := destroyed
             finalChips := finalChips
             finalMult := finalMult
             finalScore := (F.mul (F.ofInt finalChips) finalMult).trunc },
           jokers', g')

/-! ## `deck_tracker.py` -/

/-- `deck_tracker.DeckState`: the three piles.  The Python per-suit and
per-rank count caches with their dirty flag are an implementation detail
with an identical observable contract (the spec says so explicitly), so
the queries below recount directly. -/
structure DeckState where
  remainingCards : List Card := []
  cardsPlayed : List Card := []
  cardsDiscarded : List Card := []
deriving Repr, DecidableEq

namespace DeckState

/-- The dataclass constructor including `__post_init__`: a fully empty
state is replaced by a fresh standard deck. -/
def create (rem played disc : List Card) : DeckState :=
  if rem.isEmpty && played.isEmpty && disc.isEmpty then
    ⟨createStandardDeck, [], []⟩
  else ⟨rem, played, disc⟩

def totalRemaining (ds : DeckState) : Nat := ds.remainingCards.length

def totalSeen (ds : DeckState) : Nat :=
  ds.cardsPlayed.length + ds.cardsDiscarded.length

def suitCount (ds : DeckState) (s : Suit) : Nat :=
  ds.remainingCards.countP (fun c => c.suit == s)

def rankCount (ds : DeckState) (r : Rank) : Nat :=
  ds.remainingCards.countP (fun c => c.rank == r)

def cardCount (ds : DeckState) (r : Rank) (s : Suit) : Nat :=
  ds.remainingCards.countP (fun c => c.rank == r && c.suit == s)

/-- `remove_card`: pop the first remaining card matching on rank and
suit, append the *argument* card to the chosen pile; `false` and no
change when nothing matches. -/
def removeCard (ds : DeckState) (card : Card) (played : Bool) :
    DeckState × Bool :=
  match ds.remainingCards.findIdx?
      (fun c => c.rank == card.rank && c.suit == card.suit) with
  | some i =>
      let rem := ds.remainingCards.eraseIdx i
      if played then
        ({ ds with remainingCards := rem,
                   cardsPlayed := ds.cardsPlayed ++ [card] }, true)
      else
        ({ ds with remainingCards := rem,
                   cardsDiscarded := ds.cardsDiscarded ++ [card] }, true)
  | Option.none => (ds, false)

/-- `remove_cards`: batched removal, counting successes. -/
def removeCards (ds : DeckState) (cards : List Card) (played : Bool) :
    DeckState × Nat :=
  cards.foldl
    (fun (acc : DeckState × Nat) c =>
      let (ds', ok) := acc.1.removeCard c played
      (ds', acc.2 + (if ok then 1 else 0)))
    (ds, 0)

/-- `reset`: a fresh standard deck, both piles cleared. -/
def reset (_ : DeckState) : DeckState := ⟨createStandardDeck, [], []⟩

/-- The distinct suits present among remaining cards, in first-occurrence
order — the key set of `get_suit_distribution`'s `Counter`. -/
def distinctSuits (ds : DeckState) : List Suit :=
  (ds.remainingCards.map (·.suit)).dedup

/-- `from_known_cards`: subtract the (rank, suit)-deduplicated seen set
from a fresh standard deck; hand cards go into *no* pile. -/
def fromKnownCards (hand played discarded : List Card) : DeckState :=
  let seen := (hand ++ played ++ discarded).map (fun c => (c.rank, c.suit))
  create
    (createStandardDeck.filter (fun c => !seen.contains (c.rank, c.suit)))
    played discarded

end DeckState

/-! ## `probability.py` -/

/-- `hypergeometric_pmf`, with its explicit impossible-case guards. -/
def hypergeometricPmf (K N n k : Nat) : F :=
  if N < n then F.zero
  else if K < k then F.zero
  else if n < k then F.zero
  else if N - K < n - k then F.zero
  else
    let denom := N.choose n
    if denom == 0 then F.zero
    else F.ratio (K.choose k * (N - K).choose (n - k)) denom

/-- `hypergeometric_cdf_at_least`: `k ≤ 0` yields 1. -/
def cdfAtLeast (K N n : Nat) (k : Int) : F :=
  if k ≤ 0 then F.one
  else F.sub F.one
    (F.sum ((List.range k.toNat).map (fun i => hypergeometricPmf K N n i)))

/-- `flush_completion_probability` for one suit (the Python function
builds the dict by evaluating this body for each of the four suits).
Note the hand count uses the literal `suit` field of each card. -/
def flushCompletionProbability (hand : List Card) (ds : DeckState)
    (draws : Nat) (s : Suit) : F :=
  let cih := hand.countP (fun c => c.suit == s)
  if ds.totalRemaining == 0 || draws == 0 then
    (if 5 ≤ cih then F.one else F.zero)
  else
    let needed := 5 - cih
    if needed == 0 then F.one
    else if draws < needed then F.zero
    else cdfAtLeast (ds.suitCount s) ds.totalRemaining draws (needed : Int)

/-- The ten canonical straight sequences (wheel through Broadway). -/
def straightSequences : List (List Nat) :=
  [[14, 2, 3, 4, 5], [2, 3, 4, 5, 6], [3, 4, 5, 6, 7], [4, 5, 6, 7, 8],
   [5, 6, 7, 8, 9], [6, 7, 8, 9, 10], [7, 8, 9, 10, 11], [8, 9, 10, 11, 12],
   [9, 10, 11, 12, 13], [10, 11, 12, 13, 14]]

/-- `Rank(value)` for 2–14 (the `else Rank.ACE` fallback included). -/
def rankOfVal (v : Nat) : Rank :=
  if v == 2 then .two else if v == 3 then .three else if v == 4 then .four
  else if v == 5 then .five else if v == 6 then .six else if v == 7 then .seven
  else if v == 8 then .eight else if v == 9 then .nine else if v == 10 then .ten
  else if v == 11 then .jack else if v == 12 then .queen
  else if v == 13 then .king else .ace

/-- Ascending sort of naturals (`sorted(...)`). -/
def sortAscNat (l : List Nat) : List Nat := sortDescBy (fun a b => b < a) l

/-- `_has_straight` (returns 1.0 / 0.0 as the Python code does). -/
def hasStraightF (hand : List Card) : F :=
  if hand.length < 5 then F.zero
  else
    let ranks := sortAscNat (hand.map (fun c => c.rank.val)).dedup
    if (List.range (ranks.length - 4)).any
        (fun i => ranks.getD (i + 4) 0 - ranks.getD i 0 == 4) then F.one
    else if [14, 2, 3, 4, 5].all
        (fun v => hand.any (fun c => c.rank.val == v)) then F.one
    else F.zero

/-- The multi-rank product-approximation loop of
`_straight_sequence_probability`. -/
def straightProductLoop : List Nat → DeckState → Nat → F → Nat → F
  | [], _, _, prob, _ => prob
  | r :: rest, ds, draws, prob, remaining =>
      let available := ds.rankCount (if r ≤ 14 then rankOfVal r else .ace)
      if available == 0 then F.zero
      else if remaining < draws then F.zero
      else
        let pNone :=
          if draws ≤ remaining then
            F.ratio ((remaining - available).choose draws) (remaining.choose draws)
          else F.zero
        straightProductLoop rest ds draws
          (prob.mul (F.sub F.one pNone)) (remaining - 1)

/-- `_straight_sequence_probability`. -/
def straightSequenceProbability (seq : List Nat) (handRanks : List Nat)
    (ds : DeckState) (draws : Nat) : F :=
  let needed := seq.filter (fun r => !handRanks.contains r)
  if needed.length == 0 then F.one
  else if draws < needed.length then F.zero
  else
    match needed with
    | [r] =>
        cdfAtLeast (ds.rankCount (if r ≤ 14 then rankOfVal r else .ace))
          ds.totalRemaining draws 1
    | _ => straightProductLoop needed ds draws F.one ds.totalRemaining

/-- The per-sequence fold of `straight_completion_probability`, with the
early `return 1.0` when a sequence is already complete. -/
def straightSeqLoop : List (List Nat) → List Nat → DeckState → Nat → F → F
  | [], _, _, _, best => best
  | seq :: rest, hr, ds, draws, best =>
      let have' := seq.countP (fun r => hr.contains r)
      let needed := 5 - have'
      if needed == 0 then F.one
      else if draws < needed then straightSeqLoop rest hr ds draws best
      else straightSeqLoop rest hr ds draws
        (F.maxF best (straightSequenceProbability seq hr ds draws))

/-- `straight_completion_probability`. -/
def straightCompletionProbability (hand : List Card) (ds : DeckState)
    (draws : Nat) : F :=
  if ds.totalRemaining == 0 || draws == 0 then hasStraightF hand
  else
    let hr := (hand.map (fun c => c.rank.val)).dedup
    straightSeqLoop straightSequences hr ds draws F.zero

/-- `pair_upgrade_probability`. -/
def pairUpgradeProbability (hand : List Card) (ds : DeckState) (draws : Nat)
    (target : HandType) : F :=
  let N := ds.totalRemaining
  if N == 0 || draws == 0 then F.zero
  else if target == .threeOfAKind then
    let pairs := (distinctRanks hand).filter (fun r => countRank hand r == 2)
    if pairs.isEmpty then F.zero
    else pairs.foldl
      (fun best r => F.maxF best (cdfAtLeast (ds.rankCount r) N draws 1)) F.zero
  else if target == .fullHouse then
    let trips := (distinctRanks hand).filter (fun r => 3 ≤ countRank hand r)
    let pairs := (distinctRanks hand).filter (fun r => 2 ≤ countRank hand r)
    if !trips.isEmpty && 2 ≤ pairs.length then F.one
    else if !trips.isEmpty then
      let others := (distinctRanks hand).filter (fun r => countRank hand r == 1)
      if others.isEmpty then F.zero
      else others.foldl
        (fun best r => F.maxF best (cdfAtLeast (ds.rankCount r) N draws 1)) F.zero
    else if !pairs.isEmpty then
      -- `max(pairs, key=lambda r: deck_state.rank_count(r))`: first maximal
      match pairs with
      | [] => F.zero
      | p :: ps =>
          let bestPair := ps.foldl
            (fun m r => if ds.rankCount m < ds.rankCount r then r else m) p
          cdfAtLeast (ds.rankCount bestPair) N draws 1
    else F.zero
  else if target == .fourOfAKind then
    let trips := (distinctRanks hand).filter (fun r => 3 ≤ countRank hand r)
    let pairs := (distinctRanks hand).filter (fun r => 2 ≤ countRank hand r)
    let best1 := trips.foldl
      (fun best r => F.maxF best
        (cdfAtLeast (ds.rankCount r) N draws (4 - (countRank hand r : Int)))) F.zero
    if 2 ≤ draws then
      pairs.foldl
        (fun best r =>
          if trips.contains r then best
          else F.maxF best
            (cdfAtLeast (ds.rankCount r) N draws (4 - (countRank hand r : Int))))
        best1
    else best1
  else F.zero

/-- `probability.HandCompletionProbabilities`. -/
structure HandCompletionProbabilities where
  flush : Suit → F
  straight : F
  threeOfAKind : F
  fullHouse : F
  fourOfAKind : F

/-- `best_flush`: max over the four suits (dict order S, H, C, D). -/
def HandCompletionProbabilities.bestFlush (p : HandCompletionProbabilities) : F :=
  match Suit.all.map p.flush with
  | [] => F.zero
  | x :: xs => xs.foldl F.maxF x

/-- `best_improvement`: first labelled maximum. -/
def HandCompletionProbabilities.bestImprovement
    (p : HandCompletionProbabilities) : String × F :=
  let rest : List (String × F) :=
    [("straight", p.straight), ("three_of_a_kind", p.threeOfAKind),
     ("full_house", p.fullHouse), ("four_of_a_kind", p.fourOfAKind)]
  rest.foldl (fun m o => if F.lt m.2 o.2 then o else m) ("flush", p.bestFlush)

/-- `calculate_all_completion_probabilities`. -/
def calculateAllCompletionProbabilities (hand : List Card) (ds : DeckState)
    (draws : Nat) : HandCompletionProbabilities :=
  { flush := fun s => flushCompletionProbability hand ds draws s
    straight := straightCompletionProbability hand ds draws
    threeOfAKind := pairUpgradeProbability hand ds draws .threeOfAKind
    fullHouse := pairUpgradeProbability hand ds draws .fullHouse
    fourOfAKind := pairUpgradeProbability hand ds draws .fourOfAKind }

/-! ## `heuristics.py` -/

inductive HActionType where
  | play | discard | buyJoker | sellJoker | skip | endShop
deriving Repr, DecidableEq

/-- `heuristics.ScoredAction` (minus the logging `reasoning` string). -/
structure ScoredAction where
  actionType : HActionType
  cardIndices : List Nat
  score : F
  expectedChips : Int := 0
  isLethal : Bool := false
deriving Repr, DecidableEq

/-- `heuristics.HeuristicConfig` defaults. -/
structure HeuristicConfig where
  lethalBonus : F := F.ofInt 10000
  handTypeWeight : F := F.ofInt 100
  chipEfficiencyWeight : F := F.one
  jokerSynergyWeight : F := F.ofInt 50
  discardImprovementWeight : F := F.ofInt 200
  keepHighCardsWeight : F := F.ofInt 10
  keepSynergyCardsWeight : F := F.ofInt 30

/-- All played index subsets of sizes `1..min(5, n)`, Python order. -/
def playIndexSets (n : Nat) : List (List Nat) :=
  (List.range' 1 (min 5 n)).flatMap (fun k => combinationsL (List.range n) k)

/-- All card subsets of sizes `1..min(5, len)`, Python order. -/
def subsetsUpTo5 (cards : List α) : List (List α) :=
  (List.range' 1 (min 5 cards.length)).flatMap (fun k => combinationsL cards k)

/-- `_calculate_joker_synergy`. -/
def calcJokerSynergy (cards : List Card) (jokers : List JokerInstance)
    (cfg : HeuristicConfig) : F :=
  jokers.foldl
    (fun bonus j =>
      if j.id == "greedy_joker" then
        bonus.add (F.mul cfg.jokerSynergyWeight
          (F.ofNat (cards.countP (fun c => c.suit == .diamonds))))
      else if j.id == "lusty_joker" then
        bonus.add (F.mul cfg.jokerSynergyWeight
          (F.ofNat (cards.countP (fun c => c.suit == .hearts))))
      else if j.id == "wrathful_joker" then
        bonus.add (F.mul cfg.jokerSynergyWeight
          (F.ofNat (cards.countP (fun c => c.suit == .spades))))
      else if j.id == "gluttonous_joker" then
        bonus.add (F.mul cfg.jokerSynergyWeight
          (F.ofNat (cards.countP (fun c => c.suit == .clubs))))
      else if j.id == "jolly_joker" || j.id == "sly_joker" || j.id == "the_duo" then
        (if hasRankGroup cards 2 then bonus.add cfg.jokerSynergyWeight else bonus)
      else if j.id == "zany_joker" || j.id == "wily_joker" || j.id == "the_trio" then
        (if hasRankGroup cards 3 then
          bonus.add (cfg.jokerSynergyWeight.mul ⟨3, 2⟩) else bonus)
      else if j.id == "half_joker" then
        (if cards.length ≤ 3 then
          bonus.add (cfg.jokerSynergyWeight.mul (F.ofInt 2)) else bonus)
      else bonus)
    F.zero

/-- `_calculate_kept_card_synergy` (note: `all` over an empty kept list
is vacuously true, so Blackboard's bonus fires for an empty keep). -/
def calcKeptCardSynergy (cards : List Card) (jokers : List JokerInstance)
    (cfg : HeuristicConfig) : F :=
  jokers.foldl
    (fun bonus j =>
      if j.id == "blackboard" then
        (if cards.all (fun c => c.suit == .spades || c.suit == .clubs) then
          bonus.add (cfg.jokerSynergyWeight.mul (F.ofInt 3)) else bonus)
      else if j.id == "raised_fist" then
        match cards with
        | [] => bonus
        | c :: rest =>
            let lowest := rest.foldl (fun m d => min m d.rank.val) c.rank.val
            bonus.add (F.ofNat (lowest * 2))
      else bonus)
    F.zero

/-- The inner max-consecutive-run loop of `_evaluate_kept_cards`. -/
def runLoop : List Nat → Nat → Nat → Nat → Nat
  | [], _, _, best => best
  | x :: rest, prev, curr, best =>
      if x - prev == 1 then runLoop rest x (curr + 1) (max best (curr + 1))
      else runLoop rest x 1 best

/-- `max_connected` over the ascending distinct rank values. -/
def maxConnectedRun : List Nat → Nat
  | [] => 1
  | x :: rest => runLoop rest x 1 1

/-- `_evaluate_kept_cards`. -/
def evaluateKeptCards (cards : List Card) (_jokers : List JokerInstance) : F :=
  if cards.isEmpty then F.zero
  else
    let pairs := ((distinctRanks cards).filter (fun r => 2 ≤ countRank cards r)).length
    let trips := ((distinctRanks cards).filter (fun r => 3 ≤ countRank cards r)).length
    let flushPotential :=
      Suit.all.any (fun s => 4 ≤ cards.countP (fun c => c.suit == s))
    let sortedVals := sortAscNat ((cards.map (fun c => c.rank.val)).dedup)
    let straightPotential := 4 ≤ maxConnectedRun sortedVals
    let highCards := cards.countP (fun c => 10 ≤ c.rank.val)
    let s1 := F.ofNat (pairs * 50 + trips * 100)
    let s2 := if flushPotential then s1.add (F.ofInt 80) else s1
    let s3 := if straightPotential then s2.add (F.ofInt 60) else s2
    s3.add (F.ofNat (highCards * 10))

/-- The combo fold of `_find_best_hand_in_cards`; outer `none` models a
propagated evaluator exception (unreachable here: every combo has 1–5
cards), inner `none` the function's own `None` result. -/
def fbhLoop : List (List Card) → HandType → List Card →
    Option (HandType × List Card)
  | [], bt, bc => some (bt, bc)
  | combo :: rest, bt, bc =>
      match evaluateHand combo 1 with
      | Option.none => Option.none
      | some r =>
          if bt.val < r.handType.val then fbhLoop rest r.handType combo
          else fbhLoop rest bt bc

/-- `_find_best_hand_in_cards`: `some none` is Python's `None` (empty
input, or nothing better than HighCard was found). -/
def findBestHandInCards (cards : List Card) :
    Option (Option (HandType × List Card)) :=
  if cards.isEmpty then some Option.none
  else
    match fbhLoop (subsetsUpTo5 cards) .highCard [] with
    | Option.none => Option.none
    | some (bt, bc) => some (if bc.isEmpty then Option.none else some (bt, bc))

/-- Flush/suit helper: `[c for i, c in enumerate(hand) if i not in indices]`. -/
def removeIndices (hand : List Card) (idxs : List Nat) : List Card :=
  ((List.range hand.length).filter (fun i => !idxs.contains i)).filterMap
    (fun i => hand.get? i)

/-- `[hand[i] for i in indices]` for in-range indices. -/
def selectIndices (hand : List Card) (idxs : List Nat) : List Card :=
  idxs.filterMap (fun i => hand.get? i)

/-- The per-subset loop of `evaluate_plays`, threading the jokers'
mutable state and the global RNG through each `calculate_score` call. -/
def evalPlaysLoop : List (List Nat) → List Card → List JokerInstance →
    GameStateM → Int → Nat → HeuristicConfig → GRng → List ScoredAction →
    Option (List ScoredAction × List JokerInstance × GRng)
  | [], _, jokers, _, _, _, _, g, acc => some (acc, jokers, g)
  | idxs :: rest, hand, jokers, gs, chipsNeeded, handsRemaining, cfg, g, acc =>
      let cardsToPlay := selectIndices hand idxs
      let remaining := removeIndices hand idxs
      match calculateScore cardsToPlay jokers gs remaining Option.none g with
      | Option.none => Option.none
      | some (bd, jokers', g') =>
          let isLethal := chipsNeeded ≤ bd.finalScore
          let s1 := if isLethal then cfg.lethalBonus else F.zero
          let s2 := s1.add (F.mul (F.ofNat bd.handType.val) cfg.handTypeWeight)
          let eff := F.div (F.ofInt bd.finalScore) (F.ofNat cardsToPlay.length)
          let s3 := s2.add (eff.mul cfg.chipEfficiencyWeight)
          let s4 := s3.add (calcJokerSynergy cardsToPlay jokers' cfg)
          let s5 := if handsRemaining ≤ 2 && !isLethal then
              s4.add ((F.ofInt bd.finalScore).mul ⟨1, 10⟩) else s4
          let s6 := if isLethal && 2 < cardsToPlay.length then
              s5.sub (F.ofNat (cardsToPlay.length * 10)) else s5
          evalPlaysLoop rest hand jokers' gs chipsNeeded handsRemaining cfg g'
            (acc ++ [{ actionType := .play
                       cardIndices := idxs
                       score := s6
                       expectedChips := bd.finalScore
                       isLethal := isLethal }])

/-- `evaluate_plays`: all 1–5-card plays, scored and sorted best-first. -/
def evaluatePlays (hand : List Card) (jokers : List JokerInstance)
    (gs : GameStateM) (blindChips currentChips : Int) (handsRemaining : Nat)
    (cfg : HeuristicConfig) (g : GRng) :
    Option (List ScoredAction × List JokerInstance × GRng) :=
  match evalPlaysLoop (playIndexSets hand.length) hand jokers gs
      (blindChips - currentChips) handsRemaining cfg g [] with
  | Option.none => Option.none
  | some (acts, jokers', g') =>
      some (sortDescBy (fun a b => F.lt a.score b.score) acts, jokers', g')

/-- The per-subset loop of `evaluate_discards` (no scoring calls). -/
def evalDiscardsLoop (hand : List Card) (jokers : List JokerInstance)
    (cfg : HeuristicConfig) (bestHandCards : List Card) :
    List (List Nat) → List ScoredAction → List ScoredAction
  | [], acc => acc
  | idxs :: rest, acc =>
      let cardsToDiscard := selectIndices hand idxs
      let cardsToKeep := removeIndices hand idxs
      let discardingBest := cardsToDiscard.any (fun c => bestHandCards.contains c)
      let s1 := if discardingBest then F.zero.sub (F.ofInt 500) else F.zero
      let s2 := s1.add ((evaluateKeptCards cardsToKeep jokers).mul
          cfg.discardImprovementWeight)
      let lowBonus := F.mul
          (F.ofNat ((cardsToDiscard.map (fun c => 14 - c.rank.val)).sum))
          cfg.keepHighCardsWeight
      let s3 := s2.add lowBonus
      let s4 := s3.add (calcKeptCardSynergy cardsToKeep jokers cfg)
      let s5 := s4.sub ((calcJokerSynergy cardsToDiscard jokers cfg).mul ⟨1, 2⟩)
      let s6 := s5.sub (F.ofNat (cardsToDiscard.length * 5))
      evalDiscardsLoop hand jokers cfg bestHandCards rest
        (acc ++ [{ actionType := .discard, cardIndices := idxs, score := s6 }])

/-- `evaluate_discards` (its `deck_remaining` parameter is unread). -/
def evaluateDiscards (hand : List Card) (jokers : List JokerInstance)
    (_gs : GameStateM) (_deckRemaining : Nat) (cfg : HeuristicConfig) :
    Option (List ScoredAction) :=
  match findBestHandInCards hand with
  | Option.none => Option.none
  | some currentBest =>
      let bestHandCards :=
        match currentBest with
        | some (_, bc) => bc
        | Option.none => []
      some (sortDescBy (fun a b => F.lt a.score b.score)
        (evalDiscardsLoop hand jokers cfg bestHandCards
          (playIndexSets hand.length) []))

/-- `should_discard`.  Returns the decision together with the jokers'
threaded state and the advanced global RNG; `none` models a propagated
evaluator exception. -/
def shouldDiscard (hand : List Card) (jokers : List JokerInstance)
    (gs : GameStateM) (blindChips currentChips : Int)
    (handsRemaining discardsRemaining deckRemaining : Nat) (g : GRng) :
    Option (Bool × List JokerInstance × GRng) :=
  if discardsRemaining == 0 then some (false, jokers, g)
  else
    match evaluatePlays hand jokers gs blindChips currentChips handsRemaining {} g with
    | Option.none => Option.none
    | some (playActions, jokers', g') =>
        match playActions.head? with
        | Option.none => some (false, jokers', g')
        | some bestPlay =>
            if bestPlay.isLethal then some (false, jokers', g')
            else if handsRemaining ≤ 1 then some (false, jokers', g')
            else
              match findBestHandInCards hand with
              | Option.none => Option.none
              | some Option.none => some (true, jokers', g')
              | some (some (currentHandType, _)) =>
                  if currentHandType.val ≤ HandType.pair.val
                      && 0 < discardsRemaining then
                    match evaluateDiscards hand jokers' gs deckRemaining {} with
                    | Option.none => Option.none
                    | some discardActions =>
                        match discardActions.head? with
                        | some bestDiscard =>
                            if F.lt F.zero bestDiscard.score then
                              (if F.lt (F.ofInt bestPlay.expectedChips)
                                  ((F.ofInt (blindChips - currentChips)).mul ⟨1, 2⟩)
                               then some (true, jokers', g')
                               else some (false, jokers', g'))
                            else some (false, jokers', g')
                        | Option.none => some (false, jokers', g')
                  else some (false, jokers', g')

/-! ## `decision_engine.py` -/

/-- `decision_engine.DecisionConfig` defaults (floats as exact `F`). -/
structure DecisionConfig where
  lethalProbabilityThreshold : F := ⟨19, 20⟩
  lethalVariancePenalty : F := F.ofInt 1000
  earlyGameVarianceWeight : F := ⟨1, 10⟩
  midGameVarianceWeight : F := ⟨3, 10⟩
  lateGameVarianceWeight : F := ⟨1, 2⟩
  lethalRangeVarianceWeight : F := F.one
  baseSafetyMargin : F := F.ofInt 50
  lowDiscardMarginMultiplier : F := ⟨3, 2⟩
  bossBlindMarginMultiplier : F := F.ofInt 2
  nearLethalMarginMultiplier : F := F.ofInt 3
  rareRankLossWeight : F := F.ofInt 20
  suitImbalanceWeight : F := F.ofInt 10
  straightPotentialWeight : F := F.ofInt 15
  jokerTriggerValueWeight : F := F.one
  futureFrequencyWeight : F := ⟨1, 2⟩
  preferPlayOverDiscard : F := F.ofInt 10
  preferFewerCards : F := F.ofInt 5
  preferDeterministic : F := F.ofInt 20

/-- `decision_engine.EvaluatedAction` (minus the `reasoning` strings). -/
structure EvaluatedAction where
  actionType : HActionType
  cardIndices : List Nat
  cards : List Card
  expectedScore : Int
  variance : F := F.zero
  handType : Option HandType := Option.none
  scoringBreakdown : Option ScoringBreakdown := Option.none
  isLethal : Bool := false
  isDeterministic : Bool := true
  finalScore : F := F.zero
deriving Repr, DecidableEq

/-- The `(expected_score, -card_count, hand_type_value)` safety tuple of
`_find_safest_lethal`. -/
def safetyKey (a : EvaluatedAction) : Int × Int × Int :=
  (a.expectedScore, -(a.cards.length : Int),
   match a.handType with
   | some ht => (ht.val : Int)
   | Option.none => 0)

/-- Lexicographic strict order on integer triples. -/
def lexLt3 (a b : Int × Int × Int) : Bool :=
  a.1 < b.1 || (a.1 == b.1 && (a.2.1 < b.2.1
    || (a.2.1 == b.2.1 && a.2.2 < b.2.2)))

/-- `_find_safest_lethal`: Python's `max(..., key=safety_score)` — the
first element attaining the maximal tuple. -/
def findSafestLethal (l : List EvaluatedAction) : Option EvaluatedAction :=
  match l with
  | [] => Option.none
  | a :: rest =>
      some (rest.foldl (fun m b => if lexLt3 (safetyKey m) (safetyKey b) then b else m) a)

/-- The per-subset loop of `_evaluate_all_plays`. -/
def deepEvalPlaysLoop : List (List Nat) → List Card → List JokerInstance →
    GameStateM → Int → GRng → List EvaluatedAction →
    Option (List EvaluatedAction × List JokerInstance × GRng)
  | [], _, jokers, _, _, g, acc => some (acc, jokers, g)
  | idxs :: rest, hand, jokers, gs, chipsNeeded, g, acc =>
      let cardsToPlay := selectIndices hand idxs
      let remaining := removeIndices hand idxs
      match calculateScore cardsToPlay jokers gs remaining Option.none g with
      | Option.none => Option.none
      | some (bd, jokers', g') =>
          let isLethal := chipsNeeded ≤ bd.finalScore
          deepEvalPlaysLoop rest hand jokers' gs chipsNeeded g'
            (acc ++ [{ actionType := .play
                       cardIndices := idxs
                       cards := cardsToPlay
                       expectedScore := bd.finalScore
                       variance := F.zero
                       handType := some bd.handType
                       scoringBreakdown := some bd
                       isLethal := isLethal
                       isDeterministic := true }])

/-- `_evaluate_all_plays` (its `hands_remaining` parameter is unread). -/
def evaluateAllPlays (hand : List Card) (jokers : List JokerInstance)
    (gs : GameStateM) (chipsNeeded : Int) (g : GRng) :
    Option (List EvaluatedAction × List JokerInstance × GRng) :=
  deepEvalPlaysLoop (playIndexSets hand.length) hand jokers gs chipsNeeded g []

/-- `_get_variance_weight`. -/
def getVarianceWeight (cfg : DecisionConfig) (chipsNeeded : Int)
    (handsRemaining : Nat) (blindTotal : Int) : F :=
  if F.lt (F.ofInt chipsNeeded) ((F.ofInt blindTotal).mul ⟨3, 10⟩) then
    cfg.lethalRangeVarianceWeight
  else if handsRemaining ≤ 2 then cfg.lateGameVarianceWeight
  else if handsRemaining ≤ 3 then cfg.midGameVarianceWeight
  else cfg.earlyGameVarianceWeight

/-- `_calculate_safety_margin`. -/
def calculateSafetyMargin (cfg : DecisionConfig) (chipsNeeded currentHandScore : Int)
    (_handsRemaining discardsRemaining : Nat) (isBossBlind : Bool) : F :=
  let m1 := cfg.baseSafetyMargin
  let m2 := if F.le ((F.ofInt chipsNeeded).mul ⟨4, 5⟩) (F.ofInt currentHandScore)
    then m1.mul cfg.nearLethalMarginMultiplier else m1
  let m3 := if discardsRemaining ≤ 1 then m2.mul cfg.lowDiscardMarginMultiplier else m2
  if isBossBlind then m3.mul cfg.bossBlindMarginMultiplier else m3

/-- `_estimate_joker_bonus`. -/
def estimateJokerBonus (cards : List Card) (handType : HandType)
    (jokers : List JokerInstance) : F :=
  let (multiplier, addMult, addChips) := jokers.foldl
    (fun (acc : F × Int × Int) j =>
      let (mult, am, ac) := acc
      if j.id == "joker" then (mult, am + 4, ac)
      else if j.id == "jolly_joker"
          && (handType == .pair || handType == .twoPair || handType == .fullHouse) then
        (mult, am + 8, ac)
      else if j.id == "zany_joker"
          && (handType == .threeOfAKind || handType == .fullHouse
              || handType == .fourOfAKind) then
        (mult, am + 12, ac)
      else if j.id == "mad_joker" && handType == .twoPair then (mult, am + 10, ac)
      else if j.id == "crazy_joker"
          && (handType == .straight || handType == .straightFlush) then
        (mult, am + 12, ac)
      else if j.id == "droll_joker"
          && (handType == .flush || handType == .flushHouse
              || handType == .flushFive) then
        (mult, am + 10, ac)
      else if j.id == "greedy_joker" then
        (mult, am + 3 * (cards.countP (fun c => c.suit == .diamonds) : Int), ac)
      else if j.id == "lusty_joker" then
        (mult, am + 3 * (cards.countP (fun c => c.suit == .hearts) : Int), ac)
      else if j.id == "wrathful_joker" then
        (mult, am + 3 * (cards.countP (fun c => c.suit == .spades) : Int), ac)
      else if j.id == "gluttonous_joker" then
        (mult, am + 3 * (cards.countP (fun c => c.suit == .clubs) : Int), ac)
      else if j.id == "steel_joker" then (mult, am, ac)
      else if j.id == "half_joker" && cards.length ≤ 3 then (mult, am + 20, ac)
      else if j.id == "the_duo"
          && (handType == .pair || handType == .twoPair || handType == .fullHouse) then
        (mult.mul (F.ofInt 2), am, ac)
      else if j.id == "the_trio"
          && (handType == .threeOfAKind || handType == .fullHouse
              || handType == .fourOfAKind) then
        (mult.mul (F.ofInt 3), am, ac)
      else if j.id == "the_family"
          && (handType == .fourOfAKind || handType == .fiveOfAKind) then
        (mult.mul (F.ofInt 4), am, ac)
      else if j.id == "the_order"
          && (handType == .straight || handType == .straightFlush) then
        (mult.mul (F.ofInt 3), am, ac)
      else if j.id == "the_tribe"
          && (handType == .flush || handType == .flushHouse
              || handType == .flushFive || handType == .straightFlush) then
        (mult.mul (F.ofInt 2), am, ac)
      else (mult, am, ac))
    (F.one, 0, 0)
  F.div ((F.ofInt ((10 + addChips) * (2 + addMult))).mul multiplier) (F.ofInt 20)

/-- `_estimate_hand_score` (the local base-value dict restates the
`HandType` tables verbatim; note the `+10`-per-level chip formula). -/
def estimateHandScore (handType : HandType) (keptCards : List Card)
    (jokers : List JokerInstance) (gs : GameStateM) : Int :=
  let level := gs.handLevels handType
  let chips := handType.baseChips + (level - 1) * 10
  let mult := handType.baseMult + (level - 1)
  let jokerMult := F.maxF F.one (estimateJokerBonus keptCards handType jokers)
  ((F.ofNat (chips * mult)).mul jokerMult).trunc

/-- `_estimate_kept_cards_score`; `none` models a propagated evaluator
exception from `find_best_hand`. -/
def estimateKeptCardsScore (keptCards : List Card) (jokers : List JokerInstance)
    (gs : GameStateM) : Option Int :=
  if keptCards.isEmpty then some 0
  else
    match findBestHand keptCards with
    | Option.none => Option.none
    | some (_, r) => some (estimateHandScore r.handType keptCards jokers gs)

/-- `_estimate_discard_ev`: the outcome list, its EV and its variance. -/
def estimateDiscardEv (keptCards : List Card) (probs : HandCompletionProbabilities)
    (jokers : List JokerInstance) (gs : GameStateM) (_draws : Nat) :
    Option (F × F) :=
  let hundredth : F := ⟨1, 100⟩
  let o1 : List (F × Int) :=
    if F.lt hundredth probs.bestFlush then
      [(probs.bestFlush, estimateHandScore .flush keptCards jokers gs)] else []
  let o2 := o1 ++ (if F.lt hundredth probs.straight then
      [(probs.straight, estimateHandScore .straight keptCards jokers gs)] else [])
  let o3 := o2 ++ (if F.lt hundredth probs.threeOfAKind then
      [(probs.threeOfAKind, estimateHandScore .threeOfAKind keptCards jokers gs)] else [])
  let o4 := o3 ++ (if F.lt hundredth probs.fullHouse then
      [(probs.fullHouse, estimateHandScore .fullHouse keptCards jokers gs)] else [])
  let o5 := o4 ++ (if F.lt hundredth probs.fourOfAKind then
      [(probs.fourOfAKind, estimateHandScore .fourOfAKind keptCards jokers gs)] else [])
  let probNoImprove := F.sub F.one (F.sum (o5.map (·.1)))
  match (if F.lt F.zero probNoImprove then
      (estimateKeptCardsScore keptCards jokers gs).map
        (fun s => o5 ++ [(probNoImprove, s)])
    else some o5) with
  | Option.none => Option.none
  | some outcomes =>
      if outcomes.isEmpty then some (F.zero, F.zero)
      else
        let ev := F.sum (outcomes.map (fun o => o.1.mul (F.ofInt o.2)))
        let variance := F.sum (outcomes.map (fun o =>
          let d := (F.ofInt o.2).sub ev
          o.1.mul (d.mul d)))
        some (ev, variance)

/-- `_card_synergizes_with_joker`. -/
def cardSynergizesWithJoker (card : Card) (j : JokerInstance) : Bool :=
  if j.id == "greedy_joker" || j.id == "rough_gem" then card.suit == .diamonds
  else if j.id == "lusty_joker" || j.id == "bloodstone" then card.suit == .hearts
  else if j.id == "wrathful_joker" || j.id == "arrowhead" then card.suit == .spades
  else if j.id == "gluttonous_joker" || j.id == "onyx_agate" then card.suit == .clubs
  else if j.id == "scary_face" || j.id == "smiley_face" || j.id == "photograph" then
    card.rank == .jack || card.rank == .queen || card.rank == .king
  else if j.id == "even_steven" then
    card.rank.val == 2 || card.rank.val == 4 || card.rank.val == 6
      || card.rank.val == 8 || card.rank.val == 10
  else if j.id == "odd_todd" then
    card.rank.val == 3 || card.rank.val == 5 || card.rank.val == 7
      || card.rank.val == 9 || card.rank.val == 14
  else if j.id == "fibonacci" then
    card.rank.val == 2 || card.rank.val == 3 || card.rank.val == 5
      || card.rank.val == 8 || card.rank.val == 14
  else if j.id == "scholar" then card.rank == .ace
  else if j.id == "walkie_talkie" then card.rank.val == 10 || card.rank.val == 4
  else if j.id == "hack" then
    card.rank.val == 2 || card.rank.val == 3 || card.rank.val == 4
      || card.rank.val == 5
  else if j.id == "triboulet" then card.rank == .king || card.rank == .queen
  else false

/-- `_calculate_deck_damage`. -/
def calculateDeckDamage (cfg : DecisionConfig) (cardsToDiscard : List Card)
    (ds : DeckState) (jokers : List JokerInstance) : F :=
  let rare := cardsToDiscard.countP (fun c =>
    c.rank == .ace || c.rank == .king || c.rank == .queen || c.rank == .jack)
  let d1 := (F.ofNat rare).mul cfg.rareRankLossWeight
  let suits := ds.distinctSuits
  let d2 :=
    if suits.isEmpty then d1
    else
      let avg := F.ratio ds.totalRemaining suits.length
      let below := cardsToDiscard.countP
        (fun c => F.lt (F.ofNat (ds.suitCount c.suit)) avg)
      d1.add ((F.ofNat below).mul cfg.suitImbalanceWeight)
  let syn := jokers.foldl
    (fun acc j => acc + cardsToDiscard.countP (fun c => cardSynergizesWithJoker c j))
    0
  d2.add ((F.ofNat syn).mul (cfg.jokerTriggerValueWeight.mul (F.ofInt 10)))

/-- The per-subset loop of `_evaluate_all_discards`: candidates whose
damage-adjusted EV does not clear `current_score + safety_margin` are
filtered out. -/
def deepEvalDiscardsLoop (hand : List Card) (jokers : List JokerInstance)
    (gs : GameStateM) (ds : DeckState) (currentScore : Int) (margin : F)
    (cfg : DecisionConfig) :
    List (List Nat) → List EvaluatedAction → Option (List EvaluatedAction)
  | [], acc => some acc
  | idxs :: rest, acc =>
      let cardsToDiscard := selectIndices hand idxs
      let cardsToKeep := removeIndices hand idxs
      let probs := calculateAllCompletionProbabilities cardsToKeep ds idxs.length
      match estimateDiscardEv cardsToKeep probs jokers gs idxs.length with
      | Option.none => Option.none
      | some (ev, variance) =>
          let damage := calculateDeckDamage cfg cardsToDiscard ds jokers
          let adjustedEv := ev.sub damage
          if F.le adjustedEv ((F.ofInt currentScore).add margin) then
            deepEvalDiscardsLoop hand jokers gs ds currentScore margin cfg rest acc
          else
            deepEvalDiscardsLoop hand jokers gs ds currentScore margin cfg rest
              (acc ++ [{ actionType := .discard
                         cardIndices := idxs
                         cards := cardsToDiscard
                         expectedScore := adjustedEv.trunc
                         variance := variance
                         isDeterministic := false }])

/-- `_evaluate_all_discards`. -/
def evaluateAllDiscards (hand : List Card) (jokers : List JokerInstance)
    (gs : GameStateM) (ds : DeckState) (chipsNeeded : Int)
    (handsRemaining discardsRemaining : Nat) (isBossBlind : Bool)
    (cfg : DecisionConfig) (g : GRng) :
    Option (List EvaluatedAction × List JokerInstance × GRng) :=
  match findBestHand hand with
  | Option.none => Option.none
  | some (_, currentBest) =>
      let played := hand.filter (fun c => currentBest.scoringCards.contains c)
      match calculateScore played jokers gs [] Option.none g with
      | Option.none => Option.none
      | some (bd, jokers', g') =>
          let currentScore := bd.finalScore
          let margin := calculateSafetyMargin cfg chipsNeeded currentScore
            handsRemaining discardsRemaining isBossBlind
          match deepEvalDiscardsLoop hand jokers' gs ds currentScore margin cfg
              (playIndexSets hand.length) [] with
          | Option.none => Option.none
          | some acts => some (acts, jokers', g')

/-- The final-score weighting applied to every surviving action in
`decide` (variance penalty plus the three tie-breakers). -/
def weightAction (cfg : DecisionConfig) (vw : F) (a : EvaluatedAction) :
    EvaluatedAction :=
  let f1 := (F.ofInt a.expectedScore).sub (vw.mul a.variance)
  let f2 := if a.actionType == .play then f1.add cfg.preferPlayOverDiscard else f1
  let f3 := if a.isDeterministic then f2.add cfg.preferDeterministic else f2
  { a with finalScore := f3.sub ((F.ofNat a.cards.length).mul cfg.preferFewerCards) }

/-- `DeepDecisionEngine.decide`.  Returns the chosen action together
with the threaded joker states and global-RNG oracle; `none` models a
propagated exception.  (Named `deepDecide` because `decide` is taken
by core Lean.) -/
def deepDecide (hand : List Card) (jokers : List JokerInstance) (gs : GameStateM)
    (blindChips currentChips : Int) (handsRemaining discardsRemaining : Nat)
    (deckState : Option DeckState) (isBossBlind : Bool) (cfg : DecisionConfig)
    (g : GRng) : Option (EvaluatedAction × List JokerInstance × GRng) :=
  let chipsNeeded := blindChips - currentChips
  let ds := match deckState with
    | some d => d
    | Option.none => DeckState.fromKnownCards hand [] []
  match evaluateAllPlays hand jokers gs chipsNeeded g with
  | Option.none => Option.none
  | some (playActions, jokers', g') =>
      let lethalPlays := playActions.filter (·.isLethal)
      if !lethalPlays.isEmpty then
        match findSafestLethal lethalPlays with
        | some best => some (best, jokers', g')
        | Option.none => Option.none
      else
        match (if 0 < discardsRemaining then
            evaluateAllDiscards hand jokers' gs ds chipsNeeded handsRemaining
              discardsRemaining isBossBlind cfg g'
          else some ([], jokers', g')) with
        | Option.none => Option.none
        | some (discardActions, jokers'', g'') =>
            let allActions := playActions ++ discardActions
            let vw := getVarianceWeight cfg chipsNeeded handsRemaining blindChips
            let weighted := allActions.map (weightAction cfg vw)
            let sorted := sortDescBy (fun a b => F.lt a.finalScore b.finalScore) weighted
            match sorted with
            | [] =>
                some ({ actionType := .play
                        cardIndices := [0]
                        cards := match hand with
                          | [] => []
                          | c :: _ => [c]
                        expectedScore := 0 }, jokers'', g'')
            | best :: _ => some (best, jokers'', g'')

/-! ## `simulator.py` -/

inductive GamePhase where
  | blindSelect | playing | shop | gameOver
deriving Repr, DecidableEq

inductive BlindType where
  | small | big | boss
deriving Repr, DecidableEq

/-- `BLIND_BASE_CHIPS`. -/
def blindBaseChips : BlindType → Int
  | .small => 300 | .big => 450 | .boss => 600

/-- `BLIND_REWARDS`. -/
def blindRewards : BlindType → Int
  | .small => 3 | .big => 4 | .boss => 5

/-- `ANTE_SCALING.get(ante, 15.0 + (ante - 8) * 5)`. -/
def anteScaling (ante : Nat) : F :=
  match ante with
  | 1 => F.one
  | 2 => ⟨3, 2⟩
  | 3 => F.ofInt 2
  | 4 => F.ofInt 3
  | 5 => F.ofInt 4
  | 6 => F.ofInt 6
  | 7 => F.ofInt 9
  | 8 => F.ofInt 15
  | _ => F.add (F.ofInt 15) (F.ofInt (((ante : Int) - 8) * 5))

/-- `simulator.ActionResult` (the human-readable `message` is elided). -/
structure ActionResult where
  success : Bool
  score : Int := 0
  breakdown : Option ScoringBreakdown := Option.none
  blindBeaten : Bool := false
  gameOver : Bool := false
  won : Bool := false
deriving Repr, DecidableEq

/-- `simulator.GameSimulator`.  The `random.Random` handle is the
`shuffles` oracle plus the `rngCalls` counter (see the file header);
copying both models `setstate(getstate())`. -/
structure GameSimulator where
  deck : List Card := []
  hand : List Card := []
  playedThisRound : List Card := []
  jokers : List JokerInstance := []
  maxJokers : Nat := 5
  money : Int := 4
  ante : Nat := 1
  maxAnte : Nat := 8
  blindType : BlindType := .small
  handsRemaining : Nat := 4
  discardsRemaining : Nat := 3
  currentChips : Int := 0
  blindChips : Int := 300
  handSize : Nat := 8
  phase : GamePhase := .blindSelect
  handLevels : HandType → Nat := fun _ => 1
  shuffles : Nat → List Card → List Card := fun _ l => l
  rngCalls : Nat := 0

namespace GameSimulator

/-- One `self.rng.shuffle(deck)` call. -/
def shuffleNow (s : GameSimulator) (l : List Card) : List Card × GameSimulator :=
  (s.shuffles s.rngCalls l, { s with rngCalls := s.rngCalls + 1 })

/-- `GameSimulator.clone`: note each card is rebuilt as
`Card(c.rank, c.suit)`, so enhancement, edition and seal fall back to
their defaults; joker state dicts are copied, and the RNG state is
carried over. -/
def clone (s : GameSimulator) : GameSimulator :=
  { s with
    deck := s.deck.map (fun c => { rank := c.rank, suit := c.suit }),
    hand := s.hand.map (fun c => { rank := c.rank, suit := c.suit }),
    playedThisRound := s.playedThisRound.map (fun c => { rank := c.rank, suit := c.suit }),
    jokers := s.jokers.map (fun j => { id := j.id, name := j.name, state := j.state }) }

/-- `_calculate_blind_chips`. -/
def calculateBlindChips (s : GameSimulator) : Int :=
  ((F.ofInt (blindBaseChips s.blindType)).mul (anteScaling s.ante)).trunc

/-- The draw loop of `_draw_to_hand_size`: `deck.pop()` takes from the
back of the list. -/
def drawLoop : Nat → List Card → List Card → List Card × List Card × Nat
  | 0, deck, hand => (deck, hand, 0)
  | n + 1, deck, hand =>
      match deck.getLast? with
      | Option.none => (deck, hand, 0)
      | some c =>
          let (deck', hand', k) := drawLoop n deck.dropLast (hand ++ [c])
          (deck', hand', k + 1)

/-- `_draw_to_hand_size`. -/
def drawToHandSize (s : GameSimulator) : GameSimulator × Nat :=
  let (deck', hand', n) := drawLoop (s.handSize - s.hand.length) s.deck s.hand
  ({ s with deck := deck', hand := hand' }, n)

/-- `_advance_blind`. -/
def advanceBlind (s : GameSimulator) : GameSimulator :=
  match s.blindType with
  | .small => { s with blindType := .big, phase := .blindSelect }
  | .big => { s with blindType := .boss, phase := .blindSelect }
  | .boss =>
      let ante' := s.ante + 1
      { s with ante := ante', blindType := .small,
               phase := if s.maxAnte < ante' then .gameOver else .shop }

/-- `start_blind`. -/
def startBlind (s : GameSimulator) : GameSimulator × ActionResult :=
  if s.phase != .blindSelect then (s, { success := false })
  else
    let s1 := { s with phase := .playing, handsRemaining := 4,
                       discardsRemaining := 3, currentChips := 0,
                       playedThisRound := [] }
    let s2 := { s1 with blindChips := s1.calculateBlindChips }
    ((s2.drawToHandSize).1, { success := true })

/-- `skip_blind`. -/
def skipBlind (s : GameSimulator) : GameSimulator × ActionResult :=
  if s.phase != .blindSelect then (s, { success := false })
  else if s.blindType == .boss then (s, { success := false })
  else ({ s with money := s.money + 1 }.advanceBlind, { success := true })

/-- `end_shop`. -/
def endShop (s : GameSimulator) : GameSimulator × ActionResult :=
  if s.phase != .shop then (s, { success := false })
  else ({ s with phase := .blindSelect }, { success := true })

/-- `_update_joker_states_after_play`. -/
def updateJokerStatesAfterPlay (jokers : List JokerInstance)
    (playedCards : List Card) : List JokerInstance :=
  jokers.map fun j =>
    if j.id == "ice_cream" then
      { j with state := j.state.set "chips" (.i (max 0 (j.state.getI "chips" 100 - 5))) }
    else if j.id == "green_joker" then
      { j with state := j.state.set "mult" (.i (j.state.getI "mult" 0 + 1)) }
    else if j.id == "ride_the_bus" then
      if playedCards.any (fun c =>
          c.rank == .jack || c.rank == .queen || c.rank == .king) then
        { j with state := j.state.set "mult" (.i 0) }
      else
        { j with state := j.state.set "mult" (.i (j.state.getI "mult" 0 + 1)) }
    else j

/-- `_update_joker_states_after_discard`. -/
def updateJokerStatesAfterDiscard (jokers : List JokerInstance)
    (_discardedCards : List Card) : List JokerInstance :=
  jokers.map fun j =>
    if j.id == "green_joker" then
      { j with state := j.state.set "mult" (.i (max 0 (j.state.getI "mult" 0 - 1))) }
    else j

/-- `_handle_blind_beaten`: pay the reward plus interest, reshuffle the
played pile and the hand back into the deck, then either declare the
win (Boss blind at `ante >= max_ante`, leaving `ante` untouched) or
advance. -/
def handleBlindBeaten (s : GameSimulator) (bd : ScoringBreakdown) :
    GameSimulator × ActionResult :=
  let interest := min (Int.fdiv s.money 5) 5
  let s1 := { s with money := s.money + blindRewards s.blindType + interest }
  let (deck1, s2) := s1.shuffleNow (s1.deck ++ s1.playedThisRound)
  let s3 := { s2 with deck := deck1, playedThisRound := [] }
  let (deck2, s4) := s3.shuffleNow (s3.deck ++ s3.hand)
  let s5 := { s4 with deck := deck2, hand := [] }
  if s5.blindType == .boss && s5.maxAnte ≤ s5.ante then
    ({ s5 with phase := .gameOver },
     { success := true, score := bd.finalScore, breakdown := some bd,
       blindBeaten := true, gameOver := true, won := true })
  else
    (s5.advanceBlind,
     { success := true, score := bd.finalScore, breakdown := some bd,
       blindBeaten := true })

/-- `play_hand`; threads the global-RNG oracle through scoring. -/
def playHand (s : GameSimulator) (cardIndices : List Nat) (g : GRng) :
    GameSimulator × ActionResult × GRng :=
  if s.phase != .playing then (s, { success := false }, g)
  else if s.handsRemaining == 0 then (s, { success := false }, g)
  else if cardIndices.isEmpty then (s, { success := false }, g)
  else if 5 < cardIndices.length then (s, { success := false }, g)
  else if cardIndices.any (fun i => s.hand.length ≤ i) then
    (s, { success := false }, g)
  else if !cardIndices.Nodup then (s, { success := false }, g)
  else
    let sortedIdxs := sortDescBy (fun a b => a < b) cardIndices
    let cardsToPlay := selectIndices s.hand sortedIdxs
    let hand' := removeIndices s.hand cardIndices
    let gsM : GameStateM := { handLevels := s.handLevels,
                              discardsRemaining := s.discardsRemaining }
    match calculateScore cardsToPlay s.jokers gsM hand' Option.none g with
    | Option.none => (s, { success := false }, g)
    | some (bd, jokers', g') =>
        let jokers'' := updateJokerStatesAfterPlay jokers' cardsToPlay
        let s1 := { s with hand := hand', jokers := jokers'',
                           currentChips := s.currentChips + bd.finalScore,
                           handsRemaining := s.handsRemaining - 1,
                           playedThisRound := s.playedThisRound ++ cardsToPlay }
        if s1.blindChips ≤ s1.currentChips then
          let (s2, res) := s1.handleBlindBeaten bd
          (s2, res, g')
        else if s1.handsRemaining == 0 then
          ({ s1 with phase := .gameOver },
           { success := true, score := bd.finalScore, breakdown := some bd,
             gameOver := true, won := false }, g')
        else
          ((s1.drawToHandSize).1,
           { success := true, score := bd.finalScore, breakdown := some bd }, g')

/-- `discard`. -/
def discard (s : GameSimulator) (cardIndices : List Nat) :
    GameSimulator × ActionResult :=
  if s.phase != .playing then (s, { success := false })
  else if s.discardsRemaining == 0 then (s, { success := false })
  else if cardIndices.isEmpty then (s, { success := false })
  else if 5 < cardIndices.length then (s, { success := false })
  else if cardIndices.any (fun i => s.hand.length ≤ i) then
    (s, { success := false })
  else if !cardIndices.Nodup then (s, { success := false })
  else
    let sortedIdxs := sortDescBy (fun a b => a < b) cardIndices
    let cardsToDiscard := selectIndices s.hand sortedIdxs
    let hand' := removeIndices s.hand cardIndices
    let jokers' := updateJokerStatesAfterDiscard s.jokers cardsToDiscard
    let s1 := { s with hand := hand', jokers := jokers',
                       discardsRemaining := s.discardsRemaining - 1,
                       playedThisRound := s.playedThisRound ++ cardsToDiscard }
    ((s1.drawToHandSize).1, { success := true })

/-- `get_legal_plays`. -/
def getLegalPlays (s : GameSimulator) : List (List Nat) :=
  if s.phase != .playing || s.handsRemaining == 0 then []
  else playIndexSets s.hand.length

/-- `get_legal_discards`. -/
def getLegalDiscards (s : GameSimulator) : List (List Nat) :=
  if s.phase != .playing || s.discardsRemaining == 0 then []
  else playIndexSets s.hand.length

/-- `is_game_over`. -/
def isGameOver (s : GameSimulator) : Bool := s.phase == .gameOver

/-- `is_won`: demands `ante > max_ante`. -/
def isWon (s : GameSimulator) : Bool :=
  s.phase == .gameOver && s.maxAnte < s.ante

end GameSimulator

/-! ## `mcts.py`

The Python tree uses parent pointers and in-place mutation; here the
tree is a value and backpropagation is a fold along the selected path
(the list of actions from the root), which is the same update.  The
UCB1 child selector computes `avg + c·√(ln(parent_visits)/visits)` with
float `sqrt`/`log`; it is the one piece abstracted as a parameter
`policy : Nat → children → Option chosen` — every theorem below holds
for *every* policy that returns a member of the children list, hence in
particular for the code's UCB1 selector, and the concrete runs checked
below never consult the policy (a root that is not fully expanded is
selected before any UCB1 comparison happens). -/

inductive ActionKind where
  | play | discard | startBlind | skipBlind | endShop
deriving Repr, DecidableEq

/-- `mcts.MCTSAction`. -/
structure MCTSAction where
  kind : ActionKind
  cardIndices : List Nat := []
deriving Repr, DecidableEq

/-- `mcts.get_legal_actions`. -/
def getLegalActions (game : GameSimulator) : List MCTSAction :=
  match game.phase with
  | .blindSelect =>
      [{ kind := .startBlind }] ++
        (if game.blindType != .boss then [{ kind := ActionKind.skipBlind }] else [])
  | .playing =>
      (game.getLegalPlays.map (fun l => { kind := ActionKind.play, cardIndices := l })) ++
        (if 0 < game.discardsRemaining then
          game.getLegalDiscards.map (fun l => { kind := ActionKind.discard, cardIndices := l })
         else [])
  | .shop => [{ kind := .endShop }]
  | .gameOver => []

/-- `mcts.apply_action`, threading the global RNG through plays. -/
def applyAction (game : GameSimulator) (act : MCTSAction) (g : GRng) :
    GameSimulator × GRng :=
  match act.kind with
  | .play =>
      let (s, _, g') := game.playHand act.cardIndices g
      (s, g')
  | .discard => ((game.discard act.cardIndices).1, g)
  | .startBlind => ((game.startBlind).1, g)
  | .skipBlind => ((game.skipBlind).1, g)
  | .endShop => ((game.endShop).1, g)

/-- `mcts.MCTSNode`, as a value tree: the action that led here, the
visit/value/win statistics, the children keyed by action (dict
insertion order) and the untried-action list. -/
inductive MTree where
  | mk (action : Option MCTSAction) (visits : Nat) (totalValue : F) (wins : Nat)
       (children : List (MCTSAction × MTree)) (untried : List MCTSAction)

namespace MTree

def visitsOf : MTree → Nat
  | .mk _ v _ _ _ _ => v

def childrenOf : MTree → List (MCTSAction × MTree)
  | .mk _ _ _ _ cs _ => cs

def untriedOf : MTree → List MCTSAction
  | .mk _ _ _ _ _ ut => ut

def withUntried (t : MTree) (us : List MCTSAction) : MTree :=
  match t with
  | .mk a v tv w cs _ => .mk a v tv w cs us

/-- `node.untried_actions.remove(action)` plus `node.children[action] = child`. -/
def removeUntriedAddChild (t : MTree) (act : MCTSAction) (child : MTree) : MTree :=
  match t with
  | .mk a v tv w cs ut => .mk a v tv w (cs ++ [(act, child)]) (ut.erase act)

end MTree

/-- Rewrite the subtree keyed `a` inside a children list. -/
def modifyChild (a : MCTSAction) (f : MTree → MTree) :
    List (MCTSAction × MTree) → List (MCTSAction × MTree)
  | [] => []
  | (k, t) :: rest =>
      if k == a then (k, f t) :: rest else (k, t) :: modifyChild a f rest

/-- Apply `f` to the node sitting at `path` below the root. -/
def updateAt : List MCTSAction → (MTree → MTree) → MTree → MTree
  | [], f, t => f t
  | a :: p, f, .mk act v tv w cs ut => .mk act v tv w (modifyChild a (updateAt p f) cs) ut

/-- Read the node sitting at `path` below the root. -/
def lookupPath : List MCTSAction → MTree → Option MTree
  | [], t => some t
  | a :: p, t =>
      match (t.childrenOf.find? (fun q => q.1 == a)).map (·.2) with
      | some c => lookupPath p c
      | Option.none => Option.none

/-- `MCTS._backpropagate` seen from the root: bump every node from the
backpropagation start up the parent chain — i.e. every node whose path
is an initial segment of `path` — by one visit, the rollout value, and
a win. -/
def backprop (path : List MCTSAction) (v : F) (win : Bool) : MTree → MTree
  | .mk a vis tv w cs ut =>
      let cs' :=
        match path with
        | [] => cs
        | x :: p => modifyChild x (backprop p v win) cs
      .mk a (vis + 1) (tv.add v) (w + (if win then 1 else 0)) cs' ut

/-- The abstracted UCB1 child selector (`MCTSNode.best_child`): given
the parent's visit count and the children, pick one. -/
def MPolicy := Nat → List (MCTSAction × MTree) → Option (MCTSAction × MTree)

/-- `mcts.MCTSConfig` (the fields the embedded loop reads). -/
structure MCTSConfig where
  maxRolloutDepth : Nat := 50
  winValue : F := F.one
  anteValue : F := ⟨1, 10⟩
  blindValue : F := ⟨3, 100⟩

/-- `MCTS._select`: descend while the node is fully expanded and has
children, choosing by `policy`, replaying each action on the cloned
game, and refreshing an empty untried list on a childless node.  `fuel`
bounds the descent by the (finite) tree height; `search` passes a bound
the height never reaches. -/
def selectLoop (policy : MPolicy) :
    Nat → MTree → GameSimulator → GRng →
    List MCTSAction × MTree × GameSimulator × GRng
  | 0, t, game, g => ([], t, game, g)
  | fuel + 1, .mk a vis tv w cs ut, game, g =>
      if ut.isEmpty && !cs.isEmpty then
        match policy vis cs with
        | Option.none => ([], .mk a vis tv w cs ut, game, g)
        | some (act, child) =>
            let (game', g') := applyAction game act g
            let child' :=
              if child.untriedOf.isEmpty && child.childrenOf.isEmpty then
                child.withUntried (getLegalActions game')
              else child
            let (p, child'', game'', g'') := selectLoop policy fuel child' game' g'
            (act :: p,
             .mk a vis tv w (modifyChild act (fun _ => child'') cs) ut,
             game'', g'')
      else ([], .mk a vis tv w cs ut, game, g)

/-- `MCTS._select_untried_action`: in the Playing phase, prefer the
heuristically best untried play (note the heuristic evaluation threads
the simulation game's joker states); otherwise the first untried
action. -/
def selectUntriedAction (node : MTree) (game : GameSimulator) (g : GRng) :
    Option (MCTSAction × GameSimulator × GRng) :=
  if game.phase == .playing then
    let playActions := node.untriedOf.filter (fun a => a.kind == ActionKind.play)
    if !playActions.isEmpty then
      match evaluatePlays game.hand game.jokers
          { handLevels := game.handLevels,
            discardsRemaining := game.discardsRemaining }
          game.blindChips game.currentChips game.handsRemaining {} g with
      | Option.none => Option.none
      | some (scored, jokers', g') =>
          let game' := { game with jokers := jokers' }
          match scored.findSome?
              (fun sa => playActions.find? (fun u => u.cardIndices == sa.cardIndices)) with
          | some u => some (u, game', g')
          | Option.none => (node.untriedOf.head?).map (fun a => (a, game', g'))
    else (node.untriedOf.head?).map (fun a => (a, game, g))
  else (node.untriedOf.head?).map (fun a => (a, game, g))

/-- The heuristic rollout of `MCTS._simulate` (the default
`use_heuristic_rollouts=True` branch), capped by the depth budget. -/
def rolloutLoop (cfg : MCTSConfig) :
    Nat → GameSimulator → GRng → Option (GameSimulator × GRng)
  | 0, game, g => some (game, g)
  | fuel + 1, game, g =>
      if game.isGameOver then some (game, g)
      else
        match game.phase with
        | .blindSelect => rolloutLoop cfg fuel (game.startBlind).1 g
        | .playing =>
            (match evaluatePlays game.hand game.jokers
                { handLevels := game.handLevels,
                  discardsRemaining := game.discardsRemaining }
                game.blindChips game.currentChips game.handsRemaining {} g with
            | Option.none => Option.none
            | some (scored, jokers', g') =>
                let game' := { game with jokers := jokers' }
                match scored.head? with
                | Option.none => some (game', g')
                | some best =>
                    let (game'', _, g'') := game'.playHand best.cardIndices g'
                    rolloutLoop cfg fuel game'' g'')
        | .shop => rolloutLoop cfg fuel (game.endShop).1 g
        | .gameOver => some (game, g)

/-- `MCTS._evaluate_terminal`. -/
def evaluateTerminal (cfg : MCTSConfig) (game : GameSimulator) : F :=
  if game.isWon then cfg.winValue
  else
    let progress : Nat :=
      match game.blindType with
      | .small => 0 | .big => 1 | .boss => 2
    let v := ((F.ofNat game.ante).mul cfg.anteValue).add
      ((F.ofNat progress).mul cfg.blindValue)
    if F.lt cfg.winValue v then cfg.winValue else v

/-- One MCTS iteration: clone, select, expand, simulate, backpropagate.
`none` models a propagated exception (unreachable on legal states). -/
def mctsIterate (cfg : MCTSConfig) (policy : MPolicy) (fuel : Nat)
    (game : GameSimulator) (t : MTree) (g : GRng) : Option (MTree × GRng) :=
  let simGame := game.clone
  let (path, t1, game1, g1) := selectLoop policy fuel t simGame g
  let selected := (lookupPath path t1).getD t1
  let nodeTerminal := path.isEmpty && simGame.isGameOver
  if !nodeTerminal && !selected.untriedOf.isEmpty then
    match selectUntriedAction selected game1 g1 with
    | Option.none => Option.none
    | some (action, game1', g1') =>
        let (game2, g2) := applyAction game1' action g1'
        let child := MTree.mk (some action) 0 F.zero 0 [] (getLegalActions game2)
        let t2 := updateAt path (fun nd => nd.removeUntriedAddChild action child) t1
        match rolloutLoop cfg cfg.maxRolloutDepth game2 g2 with
        | Option.none => Option.none
        | some (game3, g3) =>
            some (backprop (path ++ [action]) (evaluateTerminal cfg game3)
              game3.isWon t2, g3)
  else
    match rolloutLoop cfg cfg.maxRolloutDepth game1 g1 with
    | Option.none => Option.none
    | some (game3, g3) =>
        some (backprop path (evaluateTerminal cfg game3) game3.isWon t1, g3)

/-- `MCTSNode.best_action`: the child with the most visits (the first
one among ties, as Python `max`). -/
def bestAction (t : MTree) : Option MCTSAction :=
  match t.childrenOf with
  | [] => Option.none
  | c :: rest =>
      some ((rest.foldl
        (fun (m : MCTSAction × MTree) p =>
          if m.2.visitsOf < p.2.visitsOf then p else m) c).1)

/-- The iteration loop of `MCTS.search`.  The wall-clock cut-off is not
modelled: `n` is the number of iterations actually run (the
iteration-count budget, deterministic per the spec's concurrency
section). -/
def searchLoop (cfg : MCTSConfig) (policy : MPolicy) (fuel : Nat)
    (game : GameSimulator) : Nat → MTree → GRng → Option (MTree × GRng)
  | 0, t, g => some (t, g)
  | n + 1, t, g =>
      match mctsIterate cfg policy fuel game t g with
      | Option.none => Option.none
      | some (t', g') => searchLoop cfg policy fuel game n t' g'

/-- `MCTS.search`: build the root, run `n` iterations, return the
most-visited root action together with the final tree. -/
def mctsSearch (cfg : MCTSConfig) (policy : MPolicy) (fuel n : Nat)
    (game : GameSimulator) (g : GRng) :
    Option (Option MCTSAction × MTree × GRng) :=
  let root : MTree := .mk Option.none 0 F.zero 0 [] (getLegalActions game)
  if (getLegalActions game).isEmpty then some (Option.none, root, g)
  else
    match searchLoop cfg policy fuel game n root g with
    | Option.none => Option.none
    | some (t, g') => some (bestAction t, t, g')

/-- Sum of the visit counts of a node's children. -/
def childVisitSum (t : MTree) : Nat :=
  (t.childrenOf.map (fun c => c.2.visitsOf)).sum

/-- `isInitSeg q p`: `q` is an initial segment of `p` — the nodes the
backpropagation of path `p` touches are exactly those at such `q`. -/
def isInitSeg : List MCTSAction → List MCTSAction → Bool
  | [], _ => true
  | _ :: _, [] => false
  | a :: q, b :: p => a == b && isInitSeg q p

/-- The visit count of the node at `path`, when it exists. -/
def visitsAt (path : List MCTSAction) (t : MTree) : Option Nat :=
  (lookupPath path t).map MTree.visitsOf

/-! ## Definitions supporting the claim statements -/

/-- The (rank, suit) multiset of a pile — "composition" in the spec's
sense (the standard deck carries no modifiers). -/
def rsCards (l : List Card) : Multiset (Rank × Suit) :=
  (l.map (fun c => (c.rank, c.suit)) : List (Rank × Suit))

/-- The three-pile (rank, suit) multiset union of a deck tracker. -/
def deckRS (ds : DeckState) : Multiset (Rank × Suit) :=
  rsCards ds.remainingCards + rsCards ds.cardsPlayed + rsCards ds.cardsDiscarded

/-- The starting 52-card composition. -/
def standardRS : Multiset (Rank × Suit) := rsCards createStandardDeck

/-- The flush-suit count the *spec's words* prescribe — "count of cards
in hand matching suit s with wild cards counting as matching every
suit", i.e. counted through `Card.has_suit`.  Defined only to be
compared against the source's literal-suit count. -/
def specWildSuitCount (hand : List Card) (s : Suit) : Nat :=
  hand.countP (fun c => c.hasSuit s)

/-- A zeroed global-RNG oracle (all `random()` results 0, all
`randint` results 0). -/
def zeroGRng : GRng := { qs := fun _ => F.zero, ints := fun _ => 0 }

/-- A global-RNG oracle whose `randint` stream is constantly 1. -/
def oneGRng : GRng := { qs := fun _ => F.zero, ints := fun _ => 1 }

/-- Concrete cards used by the concrete checks below. -/
def aceS : Card := { rank := .ace, suit := .spades }

def aceH : Card := { rank := .ace, suit := .hearts }

def twoS : Card := { rank := .two, suit := .spades }

/-- A Misprint instance (fresh state). -/
def misprintInst : JokerInstance := { id := "misprint", name := "Misprint" }

/-- A Supernova instance with `times_played = 0`: a catalogued entity
whose contribution is `add_mult = 0`. -/
def supernovaZero : JokerInstance :=
  { id := "supernova", name := "Supernova", state := [("times_played", .i 0)] }

/-- A Cavendish instance: a catalogued entity contributing `×3 Mult`. -/
def cavendishInst : JokerInstance := { id := "cavendish", name := "Cavendish" }

/-- A simulator one winning play away from beating the Boss blind of
the last ante: ante 8 of 8, Boss blind, requirement 10 chips, a lone
Ace in hand (a HighCard play worth 16). -/
def winSim : GameSimulator :=
  { deck := [], hand := [aceS], phase := .playing, ante := 8, maxAnte := 8,
    blindType := .boss, handsRemaining := 2, discardsRemaining := 3,
    currentChips := 0, blindChips := 10, handSize := 1 }

/-- A simulator whose hand holds a Glass-enhanced card (the failing
input for the cloning contract). -/
def glassSim : GameSimulator :=
  { deck := [], hand := [{ rank := .ace, suit := .spades, enhancement := .glass }],
    phase := .playing }

/-- A one-card game in blind select, used for the concrete MCTS run. -/
def mctsGame : GameSimulator :=
  { deck := [twoS], hand := [], phase := .blindSelect, blindType := .small,
    handSize := 1 }

/-- An MCTS configuration with a zero rollout budget (the rollout value
does not enter any visit-count statement). -/
def cfg0 : MCTSConfig := { maxRolloutDepth := 0 }

/-- A head-of-list child selector; a single-iteration search never
consults it (the root still has untried actions). -/
def policy0 : MPolicy := fun _ cs => cs.head?

/-! ## Further definitions supporting the claim statements -/

/-- A Wild six of spades (matches every suit through `has_suit`). -/
def wildSixS : Card := { rank := .six, suit := .spades, enhancement := .wild }

/-- Four literal hearts plus a wild spade: five hearts by `has_suit`. -/
def c7hand : List Card :=
  [{ rank := .two, suit := .hearts }, { rank := .three, suit := .hearts },
   { rank := .four, suit := .hearts }, { rank := .five, suit := .hearts }, wildSixS]

/-- A one-card remaining deck for the flush-probability check. -/
def c7deck : DeckState := ⟨[twoS], [], []⟩

/-- A catalogued entity whose calculator adds a constant `+4 Mult`. -/
def jokerPlainInst : JokerInstance := { id := "joker", name := "Joker" }

/-- A Stone-enhanced Ace of Spades. -/
def stoneA : Card := { rank := .ace, suit := .spades, enhancement := .stone }

/-- The breakdown of playing a lone Ace of Spades with no jokers. -/
def bdAce16 : ScoringBreakdown :=
  { handType := .highCard, baseChips := 16, baseMult := 1,
    cardEffects := [{ card := aceS }],
    finalChips := 16, finalMult := F.one, finalScore := 16 }

/-- The single evaluated action for that one-card hand. -/
def c3act : EvaluatedAction :=
  { actionType := .play, cardIndices := [0], cards := [aceS], expectedScore := 16,
    handType := some .highCard, scoringBreakdown := some bdAce16, isLethal := true }

/-! ## Theorems -/


/-- Helper: chip sum of an all-stone scoring list. -/
theorem sumStoneChips (l : List Card) (h : ∀ c ∈ l, c.enhancement = .stone) :
    (l.map scoringCardChips).sum = 50 * l.length := by
  induction l with
  | nil => simp
  | cons c t ih =>
      have hc := h c (by simp)
      have ht := ih (fun d hd => h d (by simp [hd]))
      simp [scoringCardChips, hc, ht]
      ring

/-- C10 (confirmed): a non-empty all-Stone play of at most five cards evaluates
without error to HighCard, scoring exactly the stone cards, with
`base_chips = 5·level + 50·n` and `base_mult = level` (no normal card is
selected by the HighCard rule). -/
theorem c10_stone_hands (cards : List Card) (level : Nat)
    (hne : cards ≠ []) (hlen : cards.length ≤ 5)
    (hstone : ∀ c ∈ cards, c.enhancement = .stone) (hlev : 1 ≤ level) :
    evaluateHand cards level = some
      { handType := .highCard
        scoringCards := cards
        baseChips := level * 5 + 50 * cards.length
        baseMult := level } := by
  have hstoneF : cards.filter (fun c => c.enhancement == Enhancement.stone) = cards := by
    rw [List.filter_eq_self]
    intro c hc
    simp [hstone c hc]
  have hnormF : cards.filter (fun c => c.enhancement != Enhancement.stone) = [] := by
    rw [List.filter_eq_nil_iff]
    intro c hc
    simp [hstone c hc]
  have hne' : cards.isEmpty = false := by
    cases cards with
    | nil => exact absurd rfl hne
    | cons a t => rfl
  rw [evaluateHand, hne']
  simp only [Bool.false_eq_true, if_false, hstoneF, hnormF]
  rw [if_neg (by omega)]
  simp only [sortedRanksDesc, countValues, distinctRanks, checkFlush, isStraightRanks,
    identifyHand, List.map_nil, List.dedup_nil, sortDescBy, List.foldl_nil,
    List.nil_append, List.length_nil, List.isEmpty_nil]
  norm_num
  rw [sumStoneChips cards hstone]
  simp [HandType.baseChips, HandType.baseMult]
  omega

theorem rsCards_cons (a : Card) (l : List Card) :
    rsCards (a :: l) = (a.rank, a.suit) ::ₘ rsCards l := rfl

theorem rsCards_append (l₁ l₂ : List Card) :
    rsCards (l₁ ++ l₂) = rsCards l₁ + rsCards l₂ := by
  simp [rsCards]

/-- Popping the first (rank, suit) match and re-adding the searched
card's (rank, suit) is a multiset identity. -/
theorem eraseIdx_match (card : Card) (l : List Card) (i : Nat)
    (h : l.findIdx? (fun c => c.rank == card.rank && c.suit == card.suit) = some i) :
    rsCards (l.eraseIdx i) + {(card.rank, card.suit)} = rsCards l := by
  induction l generalizing i with
  | nil => simp [List.findIdx?] at h
  | cons a t ih =>
      rw [List.findIdx?_cons] at h
      by_cases hp : (a.rank == card.rank && a.suit == card.suit) = true
      · rw [if_pos hp] at h
        obtain ⟨h1, h2⟩ := by simpa using hp
        cases h
        simp only [List.eraseIdx, rsCards_cons, h1, h2]
        rw [add_comm, Multiset.singleton_add]
      · rw [if_neg hp] at h
        rw [show (0 : Nat) + 1 = 1 from rfl, List.findIdx?_succ] at h
        cases hj : t.findIdx? (fun c => c.rank == card.rank && c.suit == card.suit) with
        | none => rw [hj] at h; simp at h
        | some j =>
            rw [hj] at h
            simp at h
            subst h
            rw [List.eraseIdx_cons_succ, rsCards_cons, rsCards_cons]
            rw [Multiset.cons_add]
            rw [ih j hj]

theorem rsCards_singleton (c : Card) : rsCards [c] = {(c.rank, c.suit)} := rfl

theorem removeCard_conserves (ds : DeckState) (c : Card) (played : Bool) :
    deckRS (ds.removeCard c played).1 = deckRS ds := by
  unfold DeckState.removeCard
  cases h : ds.remainingCards.findIdx? (fun x => x.rank == c.rank && x.suit == c.suit) with
  | none => rfl
  | some i =>
      cases played with
      | true =>
          simp [deckRS, rsCards_append, rsCards_singleton]
          rw [← eraseIdx_match c ds.remainingCards i h]
          abel
      | false =>
          simp [deckRS, rsCards_append, rsCards_singleton]
          rw [← eraseIdx_match c ds.remainingCards i h]
          abel

theorem removeCards_conserves (ds : DeckState) (cards : List Card) (played : Bool) :
    deckRS (ds.removeCards cards played).1 = deckRS ds := by
  have h : ∀ (p : DeckState × Nat),
      deckRS (cards.foldl (fun acc c =>
        ((acc.1.removeCard c played).1,
         acc.2 + (if (acc.1.removeCard c played).2 then 1 else 0))) p).1 = deckRS p.1 := by
    induction cards with
    | nil => intro p; rfl
    | cons c u ih =>
        intro p
        simp only [List.foldl_cons]
        rw [ih]
        exact removeCard_conserves p.1 c played
  exact h (ds, 0)

theorem c6x_reset (ds : DeckState) : deckRS ds.reset = standardRS := by
  simp [DeckState.reset, deckRS, standardRS, rsCards]

theorem c6x_default : deckRS (DeckState.create [] [] []) = standardRS := by decide

/-- C7 counterexample: a hand holding four literal hearts plus a Wild card
counts five hearts under `has_suit` (the spec's rule), yet the source's
flush probability for hearts is 0, not 1 — the code counts the literal
`suit` field, ignoring wild. -/
theorem c7_wild_counterexample :
    specWildSuitCount c7hand .hearts = 5 ∧
    (flushCompletionProbability c7hand c7deck 1 .hearts).beq F.one = false ∧
    (flushCompletionProbability c7hand c7deck 1 .hearts).beq F.zero = true := by decide

/-- C7 (corrected): with `cards_in_hand` the count of the literal `suit`
field (wild cards not special-cased), the per-suit flush completion
probability follows the claimed needed/draws case split. -/
theorem c7_flush_formula (hand : List Card) (ds : DeckState) (draws : Nat) (s : Suit)
    (hd : 0 < draws) (hr : 0 < ds.totalRemaining) :
    flushCompletionProbability hand ds draws s =
      (if 5 - hand.countP (fun c => c.suit == s) = 0 then F.one
       else if draws < 5 - hand.countP (fun c => c.suit == s) then F.zero
       else cdfAtLeast (ds.suitCount s) ds.totalRemaining draws
         ((5 - hand.countP (fun c => c.suit == s) : Nat) : Int)) := by
  unfold flushCompletionProbability
  have h0 : (ds.totalRemaining == 0 || draws == 0) = false := by
    simp only [Bool.or_eq_false_iff]
    constructor
    · simp; omega
    · simp; omega
  rw [h0]
  simp only [Bool.false_eq_true, if_false]
  split_ifs with h1 h2 h3 h4 h5 <;> first | rfl | (simp at *; omega)

/-- C5 (code bug): beating the Boss blind of the last ante reports
`won = true` and moves to GameOver, but `is_won` is `false` in the resulting
state: the win branch never increments `ante`, and `is_won` demands
`ante > max_ante`. -/
theorem c5_win_flag_mismatch :
    (winSim.playHand [0] zeroGRng).2.1.won = true ∧
    (winSim.playHand [0] zeroGRng).2.1.blindBeaten = true ∧
    (winSim.playHand [0] zeroGRng).1.phase = GamePhase.gameOver ∧
    (winSim.playHand [0] zeroGRng).1.ante = 8 ∧
    (winSim.playHand [0] zeroGRng).1.isWon = false := by decide

/-- C4 (code bug): `clone` rebuilds every card as `Card(rank, suit)`,
dropping enhancement, edition and seal — the clone of a hand holding a
Glass ace differs from its parent at clone time. -/
theorem c4_clone_drops_modifiers :
    glassSim.clone.hand ≠ glassSim.hand ∧
    glassSim.clone.hand = [{ rank := .ace, suit := .spades }] ∧
    glassSim.hand = [{ rank := .ace, suit := .spades, enhancement := .glass }] := by decide

/-- C2 counterexample: with a Misprint held, two runs of `calculate_score`
on identical inputs (including `rng_seed`) differ — Misprint consults the
unseeded module-level RNG, modelled by the two oracles. -/
theorem c2_misprint_counterexample :
    (calculateScore [aceS] [misprintInst] {} [] Option.none zeroGRng).map
        (fun r => r.1.finalScore) = some 16 ∧
    (calculateScore [aceS] [misprintInst] {} [] Option.none oneGRng).map
        (fun r => r.1.finalScore) = some 32 := by decide

/-- C1 counterexample: A = Supernova at `times_played = 0` contributes
`add_mult = 0`; with B = Cavendish (`×3 Mult`, multiplicative) both orders
score 192 — the original "the two final scores differ whenever at least one
contribution is multiplicative" fails at `a = 0`. -/
theorem c1_zero_add_counterexample :
    (∀ ctx g, calculateEffect supernovaZero ctx g = ({ addMult := 0 }, supernovaZero, g)) ∧
    (∀ ctx g, calculateEffect cavendishInst ctx g =
      ({ multMult := F.ofInt 3 }, cavendishInst, g)) ∧
    (calculateScore [aceS, aceH] [supernovaZero, cavendishInst] {} [] Option.none zeroGRng).map
        (fun r => r.1.finalScore) = some 192 ∧
    (calculateScore [aceS, aceH] [cavendishInst, supernovaZero] {} [] Option.none zeroGRng).map
        (fun r => r.1.finalScore) = some 192 :=
  ⟨fun _ _ => rfl, fun _ _ => rfl, by decide, by decide⟩

/-! C6 assembly -/

/-- C6 (corrected): the three-pile (rank, suit) multiset union equals the
standard 52-card composition for the default construction and is preserved by
`remove_card`, `remove_cards` and `reset`; a no-match `remove_card` returns
`false` and changes nothing, and a matching one moves exactly one matching
card into the designated pile.  (`from_known_cards` with hand cards breaks
the invariant — see the counterexample.) -/
theorem c6_deck_conservation :
    deckRS (DeckState.create [] [] []) = standardRS ∧
    (∀ ds : DeckState, deckRS ds.reset = standardRS) ∧
    (∀ (ds : DeckState) (c : Card) (played : Bool),
        deckRS (ds.removeCard c played).1 = deckRS ds) ∧
    (∀ (ds : DeckState) (cards : List Card) (played : Bool),
        deckRS (ds.removeCards cards played).1 = deckRS ds) ∧
    (∀ (ds : DeckState) (c : Card) (played : Bool),
        ds.remainingCards.findIdx?
            (fun x => x.rank == c.rank && x.suit == c.suit) = Option.none →
        ds.removeCard c played = (ds, false)) ∧
    (∀ (ds : DeckState) (c : Card) (played : Bool) (i : Nat),
        ds.remainingCards.findIdx?
            (fun x => x.rank == c.rank && x.suit == c.suit) = some i →
        (ds.removeCard c played).2 = true ∧
        rsCards (ds.removeCard c played).1.remainingCards + {(c.rank, c.suit)}
          = rsCards ds.remainingCards ∧
        (played = true →
          (ds.removeCard c played).1.cardsPlayed = ds.cardsPlayed ++ [c] ∧
          (ds.removeCard c played).1.cardsDiscarded = ds.cardsDiscarded) ∧
        (played = false →
          (ds.removeCard c played).1.cardsDiscarded = ds.cardsDiscarded ++ [c] ∧
          (ds.removeCard c played).1.cardsPlayed = ds.cardsPlayed)) := by
  refine ⟨c6x_default, c6x_reset, removeCard_conserves, removeCards_conserves, ?_, ?_⟩
  · intro ds c played hf
    unfold DeckState.removeCard
    rw [hf]
  · intro ds c played i hf
    unfold DeckState.removeCard
    rw [hf]
    cases played with
    | true =>
        dsimp only
        rw [if_pos rfl]
        exact ⟨rfl, eraseIdx_match c ds.remainingCards i hf,
          fun _ => ⟨rfl, rfl⟩, fun h => absurd h (by simp)⟩
    | false =>
        dsimp only
        rw [if_neg (by simp)]
        exact ⟨rfl, eraseIdx_match c ds.remainingCards i hf,
          fun h => absurd h (by simp), fun _ => ⟨rfl, rfl⟩⟩

/-- C6 counterexample: `from_known_cards` removes the hand's cards from
`remaining` but files them in no pile, so the three-pile union has 51
cards, not the starting 52. -/
theorem c6_from_known_counterexample :
    (deckRS (DeckState.fromKnownCards [aceS] [] [])).card = 51 ∧
    standardRS.card = 52 ∧
    deckRS (DeckState.fromKnownCards [aceS] [] []) ≠ standardRS :=
  ⟨by decide, by decide,
    fun h => absurd (congrArg Multiset.card h) (by decide)⟩

/-! C8 -/

/-- C8 (corrected): a `true` recommendation requires discards remaining,
more than one hand remaining and a non-lethal best play, and then EITHER the
hand admits nothing better than HighCard (`_find_best_hand_in_cards` returns
`None`, the early-`true` exit the original claim missed) OR the full chain:
best hand at most Pair, a positive-scoring discard, and best-play chips
below half the chips still needed. -/
theorem c8_should_discard_conditions
    (hand : List Card) (jokers : List JokerInstance) (gs : GameStateM)
    (blindChips currentChips : Int)
    (handsRemaining discardsRemaining deckRemaining : Nat)
    (g : GRng) (js' : List JokerInstance) (g' : GRng)
    (h : shouldDiscard hand jokers gs blindChips currentChips handsRemaining
          discardsRemaining deckRemaining g = some (true, js', g')) :
    0 < discardsRemaining ∧ 1 < handsRemaining ∧
    ∃ playActions bestPlay,
      evaluatePlays hand jokers gs blindChips currentChips handsRemaining {} g
        = some (playActions, js', g') ∧
      playActions.head? = some bestPlay ∧
      bestPlay.isLethal = false ∧
      (findBestHandInCards hand = some Option.none ∨
        ∃ ht bc discardActions bestDiscard,
          findBestHandInCards hand = some (some (ht, bc)) ∧
          ht.val ≤ HandType.pair.val ∧
          evaluateDiscards hand js' gs deckRemaining {} = some discardActions ∧
          discardActions.head? = some bestDiscard ∧
          F.lt F.zero bestDiscard.score = true ∧
          F.lt (F.ofInt bestPlay.expectedChips)
            ((F.ofInt (blindChips - currentChips)).mul ⟨1, 2⟩) = true) := by
  rw [shouldDiscard] at h
  by_cases h0 : (discardsRemaining == 0) = true
  · rw [if_pos h0] at h; simp at h
  · rw [if_neg h0] at h
    have hd0 : 0 < discardsRemaining := by
      have : discardsRemaining ≠ 0 := by simpa using h0
      omega
    cases hEval : evaluatePlays hand jokers gs blindChips currentChips handsRemaining {} g with
    | none => rw [hEval] at h; simp at h
    | some trip =>
      obtain ⟨playActions, jokers1, g1⟩ := trip
      rw [hEval] at h
      try dsimp only at h
      cases hHead : playActions.head? with
      | none => rw [hHead] at h; simp at h
      | some bestPlay =>
        rw [hHead] at h
        try dsimp only at h
        by_cases hLeth : bestPlay.isLethal = true
        · rw [if_pos hLeth] at h; simp at h
        · rw [if_neg hLeth] at h
          by_cases hHands : handsRemaining ≤ 1
          · rw [if_pos hHands] at h; simp at h
          · rw [if_neg hHands] at h
            cases hFbh : findBestHandInCards hand with
            | none => rw [hFbh] at h; simp at h
            | some ob =>
              rw [hFbh] at h
              try dsimp only at h
              cases ob with
              | none =>
                  obtain ⟨-, hjs, hg⟩ : True ∧ jokers1 = js' ∧ g1 = g' := by
                    simpa using h
                  subst hjs; subst hg
                  exact ⟨hd0, by omega, playActions, bestPlay, rfl, hHead,
                    by simpa using hLeth, Or.inl rfl⟩
              | some pr =>
                obtain ⟨cht, bc⟩ := pr
                try dsimp only at h
                by_cases hPair : (decide (cht.val ≤ HandType.pair.val)
                    && decide (0 < discardsRemaining)) = true
                · rw [if_pos hPair] at h
                  cases hED : evaluateDiscards hand jokers1 gs deckRemaining {} with
                  | none => rw [hED] at h; simp at h
                  | some dacts =>
                    rw [hED] at h
                    try dsimp only at h
                    cases hDH : dacts.head? with
                    | none => rw [hDH] at h; simp at h
                    | some bestDiscard =>
                      rw [hDH] at h
                      try dsimp only at h
                      by_cases hPos : F.lt F.zero bestDiscard.score = true
                      · rw [if_pos hPos] at h
                        by_cases hHalf : F.lt (F.ofInt bestPlay.expectedChips)
                            ((F.ofInt (blindChips - currentChips)).mul ⟨1, 2⟩) = true
                        · rw [if_pos hHalf] at h
                          obtain ⟨-, hjs, hg⟩ : True ∧ jokers1 = js' ∧ g1 = g' := by
                            simpa using h
                          subst hjs; subst hg
                          refine ⟨hd0, by omega, playActions, bestPlay, rfl, hHead,
                            by simpa using hLeth, Or.inr ⟨cht, bc, dacts, bestDiscard,
                              rfl, ?_, hED, hDH, hPos, hHalf⟩⟩
                          have h2 := (Bool.and_eq_true _ _).mp hPair
                          exact of_decide_eq_true h2.1
                        · rw [if_neg hHalf] at h; simp at h
                      · rw [if_neg hPos] at h; simp at h
                · rw [if_neg hPair] at h; simp at h

/-! C3 -/

theorem lexLt3_irrefl (x : Int × Int × Int) : lexLt3 x x = false := by
  obtain ⟨x1, x2, x3⟩ := x
  simp [lexLt3]

theorem lexLt3_trans (x y z : Int × Int × Int)
    (h1 : lexLt3 x y = true) (h2 : lexLt3 y z = true) : lexLt3 x z = true := by
  obtain ⟨x1, x2, x3⟩ := x
  obtain ⟨y1, y2, y3⟩ := y
  obtain ⟨z1, z2, z3⟩ := z
  simp only [lexLt3, Bool.or_eq_true, Bool.and_eq_true, decide_eq_true_eq,
    beq_iff_eq] at *
  omega

theorem lexLt3_cross (x y z : Int × Int × Int)
    (h1 : lexLt3 x y = true) (h2 : lexLt3 z y = false) : lexLt3 x z = true := by
  obtain ⟨x1, x2, x3⟩ := x
  obtain ⟨y1, y2, y3⟩ := y
  obtain ⟨z1, z2, z3⟩ := z
  simp only [lexLt3, Bool.or_eq_true, Bool.and_eq_true, decide_eq_true_eq,
    beq_iff_eq, Bool.or_eq_false_iff, Bool.and_eq_false_iff,
    decide_eq_false_iff_not, beq_eq_false_iff_ne] at *
  omega

theorem safestFold_mem (a : EvaluatedAction) (l : List EvaluatedAction) :
    l.foldl (fun m b => if lexLt3 (safetyKey m) (safetyKey b) then b else m) a
      ∈ a :: l := by
  induction l generalizing a with
  | nil => simp
  | cons b t ih =>
      simp only [List.foldl_cons]
      by_cases hc : lexLt3 (safetyKey a) (safetyKey b) = true
      · rw [if_pos hc]
        rcases List.mem_cons.mp (ih b) with h | h
        · rw [h]; exact List.mem_cons_of_mem _ (List.mem_cons_self _ _)
        · exact List.mem_cons_of_mem _ (List.mem_cons_of_mem _ h)
      · rw [if_neg hc]
        rcases List.mem_cons.mp (ih a) with h | h
        · rw [h]; exact List.mem_cons_self _ _
        · exact List.mem_cons_of_mem _ (List.mem_cons_of_mem _ h)

theorem safestFold_max (a : EvaluatedAction) (l : List EvaluatedAction) :
    ∀ x ∈ a :: l,
      lexLt3 (safetyKey (l.foldl
          (fun m b => if lexLt3 (safetyKey m) (safetyKey b) then b else m) a))
        (safetyKey x) = false := by
  induction l generalizing a with
  | nil =>
      intro x hx
      rw [List.mem_singleton] at hx
      subst hx
      exact lexLt3_irrefl _
  | cons b t ih =>
      intro x hx
      simp only [List.foldl_cons]
      by_cases hc : lexLt3 (safetyKey a) (safetyKey b) = true
      · rw [if_pos hc]
        rcases List.mem_cons.mp hx with heq | hx'
        · rw [heq]
          by_contra hra
          rw [Bool.not_eq_false] at hra
          exact absurd (lexLt3_trans _ _ _ hra hc)
            (by simpa using ih b b (List.mem_cons_self _ _))
        · rcases List.mem_cons.mp hx' with heq | hxt
          · rw [heq]; exact ih b b (List.mem_cons_self _ _)
          · exact ih b x (List.mem_cons_of_mem _ hxt)
      · rw [if_neg hc]
        rcases List.mem_cons.mp hx with heq | hx'
        · rw [heq]; exact ih a a (List.mem_cons_self _ _)
        · rcases List.mem_cons.mp hx' with heq | hxt
          · rw [heq]
            by_contra hrb
            rw [Bool.not_eq_false] at hrb
            have hcf : lexLt3 (safetyKey a) (safetyKey b) = false :=
              Bool.eq_false_iff.mpr hc
            exact absurd (lexLt3_cross _ _ _ hrb hcf)
              (by simpa using ih a a (List.mem_cons_self _ _))
          · exact ih a x (List.mem_cons_of_mem _ hxt)

theorem deepEvalPlaysLoop_props :
    ∀ (idxss : List (List Nat)) (hand : List Card) (jokers : List JokerInstance)
      (gs : GameStateM) (cn : Int) (g : GRng) (acc out : List EvaluatedAction)
      (js' : List JokerInstance) (g' : GRng),
      deepEvalPlaysLoop idxss hand jokers gs cn g acc = some (out, js', g') →
      (∀ a ∈ acc, a.actionType = HActionType.play ∧
        (a.isLethal = true ↔ cn ≤ a.expectedScore)) →
      ∀ a ∈ out, a.actionType = HActionType.play ∧
        (a.isLethal = true ↔ cn ≤ a.expectedScore) := by
  intro idxss
  induction idxss with
  | nil =>
      intro hand jokers gs cn g acc out js' g' h hacc
      rw [deepEvalPlaysLoop] at h
      obtain ⟨h1, -, -⟩ : acc = out ∧ jokers = js' ∧ g = g' := by simpa using h
      exact h1 ▸ hacc
  | cons idxs rest ih =>
      intro hand jokers gs cn g acc out js' g' h hacc
      rw [deepEvalPlaysLoop] at h
      cases hcs : calculateScore (selectIndices hand idxs) jokers gs
          (removeIndices hand idxs) Option.none g with
      | none => rw [hcs] at h; simp at h
      | some trip =>
        obtain ⟨bd, jokers2, g2⟩ := trip
        rw [hcs] at h
        dsimp only at h
        refine ih hand jokers2 gs cn g2 _ out js' g' h ?_
        intro a ha
        rcases List.mem_append.mp ha with ha' | ha'
        · exact hacc a ha'
        · rw [List.mem_singleton] at ha'
          subst ha'
          exact ⟨rfl, by simp⟩

/-- C3 (confirmed): when some evaluated play reaches the chips needed,
`decide` returns — for every discard budget and deck state, i.e. without
consulting discards — a lethal play action that is first-maximal among the
lethal plays in the `(score, -cards, hand type)` lexicographic order. -/
theorem c3_lethal_gating
    (hand : List Card) (jokers : List JokerInstance) (gs : GameStateM)
    (blindChips currentChips : Int) (handsRemaining : Nat)
    (isBossBlind : Bool) (cfg : DecisionConfig) (g : GRng)
    (playActions : List EvaluatedAction) (jokers' : List JokerInstance) (g' : GRng)
    (hEval : evaluateAllPlays hand jokers gs (blindChips - currentChips) g
      = some (playActions, jokers', g'))
    (hLethal : ∃ a ∈ playActions, blindChips - currentChips ≤ a.expectedScore) :
    ∃ best,
      (∀ (discardsRemaining : Nat) (deckState : Option DeckState),
        deepDecide hand jokers gs blindChips currentChips handsRemaining
          discardsRemaining deckState isBossBlind cfg g = some (best, jokers', g')) ∧
      best ∈ playActions ∧
      best.actionType = HActionType.play ∧
      best.isLethal = true ∧
      blindChips - currentChips ≤ best.expectedScore ∧
      ∀ a ∈ playActions, a.isLethal = true →
        lexLt3 (safetyKey best) (safetyKey a) = false := by
  have hProps : ∀ a ∈ playActions, a.actionType = HActionType.play ∧
      (a.isLethal = true ↔ blindChips - currentChips ≤ a.expectedScore) := by
    have h' := hEval
    rw [evaluateAllPlays] at h'
    exact deepEvalPlaysLoop_props _ _ _ _ _ _ _ _ _ _ h' (by simp)
  obtain ⟨a0, ha0, hsc0⟩ := hLethal
  have ha0L : a0.isLethal = true := (hProps a0 ha0).2.mpr hsc0
  have hmem0 : a0 ∈ playActions.filter (fun a => a.isLethal) :=
    List.mem_filter.mpr ⟨ha0, ha0L⟩
  cases hfl : playActions.filter (fun a => a.isLethal) with
  | nil => rw [hfl] at hmem0; simp at hmem0
  | cons b rest =>
    have hBmem : rest.foldl
        (fun m x => if lexLt3 (safetyKey m) (safetyKey x) then x else m) b
        ∈ b :: rest := safestFold_mem b rest
    have hBmem' : rest.foldl
        (fun m x => if lexLt3 (safetyKey m) (safetyKey x) then x else m) b
        ∈ playActions.filter (fun a => a.isLethal) := by rw [hfl]; exact hBmem
    have hBf := List.mem_filter.mp hBmem'
    refine ⟨rest.foldl
        (fun m x => if lexLt3 (safetyKey m) (safetyKey x) then x else m) b,
      ?_, hBf.1, (hProps _ hBf.1).1, by simpa using hBf.2,
      (hProps _ hBf.1).2.mp (by simpa using hBf.2), ?_⟩
    · intro discardsRemaining deckState
      rw [deepDecide.eq_def]
      dsimp only
      rw [hEval]
      dsimp only
      rw [hfl]
      simp only [List.isEmpty_cons, Bool.not_false, if_true, findSafestLethal]
    · intro a ha haL
      have : a ∈ b :: rest := by
        rw [← hfl]; exact List.mem_filter.mpr ⟨ha, haL⟩
      exact safestFold_max b rest a this

/-! C1 / C2 shared decomposition of `calculateScore` -/

theorem calculateScore_decomp (played : List Card) (gs : GameStateM)
    (hand : List Card) (rng : Option CRng) :
    (∀ (js : List JokerInstance) (g : GRng),
        calculateScore played js gs hand rng g = Option.none) ∨
    (∃ (ctx : ScoringContext) (bd : ScoringBreakdown),
      ctx.currentChips = bd.finalChips ∧ ctx.currentMult = bd.finalMult ∧
      bd.jokerEffects = [] ∧
      bd.finalScore = (F.mul (F.ofInt bd.finalChips) bd.finalMult).trunc ∧
      ∀ (js : List JokerInstance) (g : GRng),
        calculateScore played js gs hand rng g =
          (match applyJokerChain js ctx bd.finalChips bd.finalMult [] g with
           | (fc, fm, recs, js2, g2) =>
              some ({ bd with
                        jokerEffects := recs
                        finalChips := fc
                        finalMult := fm
                        finalScore := (F.mul (F.ofInt fc) fm).trunc },
                    js2, g2))) := by
  by_cases hpe : played.isEmpty = true
  · left; intro js g; rw [calculateScore, if_pos hpe]
  · cases hev1 : evaluateHand played 1 with
    | none =>
        left; intro js g
        rw [calculateScore, if_neg hpe, hev1]
    | some r0 =>
      cases hev2 : evaluateHand played (gs.handLevels r0.handType) with
      | none =>
          left; intro js g
          rw [calculateScore, if_neg hpe, hev1]
          dsimp only
          rw [hev2]
      | some hr =>
        right
        obtain ⟨⟨chips1, mult1, money1, effs, destr, rr⟩, hsc⟩ :
            ∃ x, scoreCardsLoop hr.scoringCards rng ((hr.baseChips : Nat) : Int)
              (F.ofInt ((hr.baseMult : Nat) : Int)) 0 [] [] = x := ⟨_, rfl⟩
        obtain ⟨⟨sc0, steelMult⟩, hst⟩ :
            ∃ x, applySteelCardsInHand hand = x := ⟨_, rfl⟩
        refine ⟨{ playedCards := played, scoringCards := hr.scoringCards,
                  cardsInHand := hand, handResult := hr, gameState := gs,
                  currentChips := chips1,
                  currentMult := if !(steelMult.beq F.one)
                    then mult1.mul steelMult else mult1 },
                { handType := hr.handType, baseChips := ((hr.baseChips : Nat) : Int),
                  baseMult := ((hr.baseMult : Nat) : Int), cardEffects := effs,
                  jokerEffects := [], moneyEarned := money1, destroyedCards := destr,
                  finalChips := chips1,
                  finalMult := if !(steelMult.beq F.one)
                    then mult1.mul steelMult else mult1,
                  finalScore := (F.mul (F.ofInt chips1)
                    (if !(steelMult.beq F.one)
                     then mult1.mul steelMult else mult1)).trunc },
                rfl, rfl, rfl, rfl, ?_⟩
        intro js g
        rw [calculateScore, if_neg hpe, hev1]
        dsimp only
        rw [hev2]
        dsimp only
        rw [hsc, hst]

theorem applyJokerChain_addMult (j : JokerInstance) (a : Int) (ha : a ≠ 0)
    (rest : List JokerInstance) (ctx : ScoringContext) (chips : Int) (m : F)
    (recs : List (String × Int × Int × F)) (g : GRng)
    (hA : ∀ (ctx' : ScoringContext) (g' : GRng),
      calculateEffect j ctx' g' = ({ addMult := a }, j, g')) :
    applyJokerChain (j :: rest) ctx chips m recs g =
      (match applyJokerChain rest
          { ctx with currentChips := chips, currentMult := m.add (F.ofInt a) }
          chips (m.add (F.ofInt a)) (recs ++ [(j.name, 0, a, F.one)]) g with
       | (fc, fm, frecs, fjs, fg) => (fc, fm, frecs, j :: fjs, fg)) := by
  have hact : JokerEffect.isActive { addMult := a } = true := by
    simp [JokerEffect.isActive, ha]
  rw [applyJokerChain, hA]
  dsimp only
  rw [if_pos hact]
  have h1 : ((0 : Int) != 0) = false := by decide
  have h2 : (a != 0) = true := by simpa using ha
  have h3 : (!(F.beq F.one F.one)) = false := by decide
  rw [h1, h2, h3]
  rfl

theorem applyJokerChain_multMult (j : JokerInstance) (mm : Int) (hm : mm ≠ 1)
    (rest : List JokerInstance) (ctx : ScoringContext) (chips : Int) (m : F)
    (recs : List (String × Int × Int × F)) (g : GRng)
    (hB : ∀ (ctx' : ScoringContext) (g' : GRng),
      calculateEffect j ctx' g' = ({ multMult := F.ofInt mm }, j, g')) :
    applyJokerChain (j :: rest) ctx chips m recs g =
      (match applyJokerChain rest
          { ctx with currentChips := chips, currentMult := m.mul (F.ofInt mm) }
          chips (m.mul (F.ofInt mm)) (recs ++ [(j.name, 0, 0, F.ofInt mm)]) g with
       | (fc, fm, frecs, fjs, fg) => (fc, fm, frecs, j :: fjs, fg)) := by
  have hbeq : F.beq (F.ofInt mm) F.one = false := by
    simp [F.beq, F.ofInt, F.one, hm]
  have hact : JokerEffect.isActive { multMult := F.ofInt mm } = true := by
    simp [JokerEffect.isActive, hbeq]
  rw [applyJokerChain, hB]
  dsimp only
  rw [if_pos hact]
  have h1 : ((0 : Int) != 0) = false := by decide
  rw [h1, hbeq]
  rfl

/-- C1 (corrected): appending `[A, B]` (A adds `a` mult, B multiplies by
`m`) to any succeeding scoring run yields final mult `(M + a)·m`, while
`[B, A]` yields `M·m + a`, each joker seeing the running totals; the
recorded effects list both firings in order.  The two final mults differ
whenever `a ≠ 0` AND `m ≠ 1` — not, as originally claimed, whenever at
least one contribution is multiplicative. -/
theorem c1_order_sensitivity
    (played hand : List Card) (gs : GameStateM) (rng : Option CRng) (g : GRng)
    (jA jB : JokerInstance) (a mm : Int)
    (bd0 : ScoringBreakdown) (js0 : List JokerInstance) (g0 : GRng)
    (hA : ∀ (ctx' : ScoringContext) (g' : GRng),
      calculateEffect jA ctx' g' = ({ addMult := a }, jA, g'))
    (hB : ∀ (ctx' : ScoringContext) (g' : GRng),
      calculateEffect jB ctx' g' = ({ multMult := F.ofInt mm }, jB, g'))
    (ha : a ≠ 0) (hm : mm ≠ 1)
    (h0 : calculateScore played [] gs hand rng g = some (bd0, js0, g0)) :
    ∃ bdAB bdBA : ScoringBreakdown,
      calculateScore played [jA, jB] gs hand rng g = some (bdAB, [jA, jB], g) ∧
      calculateScore played [jB, jA] gs hand rng g = some (bdBA, [jB, jA], g) ∧
      bdAB.finalChips = bd0.finalChips ∧
      bdBA.finalChips = bd0.finalChips ∧
      bdAB.finalMult = (bd0.finalMult.add (F.ofInt a)).mul (F.ofInt mm) ∧
      bdBA.finalMult = (bd0.finalMult.mul (F.ofInt mm)).add (F.ofInt a) ∧
      bdAB.finalScore = (F.mul (F.ofInt bd0.finalChips)
        ((bd0.finalMult.add (F.ofInt a)).mul (F.ofInt mm))).trunc ∧
      bdBA.finalScore = (F.mul (F.ofInt bd0.finalChips)
        ((bd0.finalMult.mul (F.ofInt mm)).add (F.ofInt a))).trunc ∧
      bdAB.jokerEffects = [(jA.name, 0, a, F.one), (jB.name, 0, 0, F.ofInt mm)] ∧
      bdBA.jokerEffects = [(jB.name, 0, 0, F.ofInt mm), (jA.name, 0, a, F.one)] ∧
      (0 < bd0.finalMult.den → bdAB.finalMult.beq bdBA.finalMult = false) := by
  rcases calculateScore_decomp played gs hand rng with hnone | ⟨ctx, bd, hc, hmu, hje, hfs, hall⟩
  · rw [hnone [] g] at h0; exact Option.noConfusion h0
  · have h00 := hall [] g
    simp only [applyJokerChain] at h00
    rw [h0] at h00
    obtain ⟨hbd, hjs, hg⟩ : bd0 = { bd with
        jokerEffects := ([] : List (String × Int × Int × F))
        finalChips := bd.finalChips
        finalMult := bd.finalMult
        finalScore := (F.mul (F.ofInt bd.finalChips) bd.finalMult).trunc }
          ∧ js0 = [] ∧ g0 = g := by simpa using h00
    have hbd' : bd0 = bd := by
      rw [hbd, ← hje, ← hfs]
    have hAB := hall [jA, jB] g
    rw [applyJokerChain_addMult jA a ha [jB] ctx bd.finalChips bd.finalMult [] g hA] at hAB
    rw [applyJokerChain_multMult jB mm hm [] _ bd.finalChips
      (bd.finalMult.add (F.ofInt a)) _ g hB] at hAB
    simp only [applyJokerChain, List.nil_append, List.cons_append] at hAB
    have hBA := hall [jB, jA] g
    rw [applyJokerChain_multMult jB mm hm [jA] ctx bd.finalChips bd.finalMult [] g hB] at hBA
    rw [applyJokerChain_addMult jA a ha [] _ bd.finalChips
      (bd.finalMult.mul (F.ofInt mm)) _ g hA] at hBA
    simp only [applyJokerChain, List.nil_append, List.cons_append] at hBA
    subst hbd'
    refine ⟨_, _, hAB, hBA, rfl, rfl, rfl, rfl, rfl, rfl, rfl, rfl, ?_⟩
    intro hden
    rcases hMM : bd0.finalMult with ⟨p, d⟩
    rw [hMM] at hden
    simp only [F.add, F.mul, F.ofInt, F.beq]
    rw [beq_eq_false_iff_ne]
    intro heq
    push_cast at heq
    have hd : ((d : Int)) ≠ 0 := by
      have : (0 : Int) < (d : Int) := by exact_mod_cast hden
      omega
    have key : a * (d : Int) * (d : Int) * (mm - 1) = 0 := by linear_combination heq
    rcases mul_eq_zero.mp key with h' | h'
    · rcases mul_eq_zero.mp h' with h2 | h2
      · rcases mul_eq_zero.mp h2 with h3 | h3
        · exact ha h3
        · exact hd h3
      · exact hd h2
    · exact hm (by omega)

/-! C2 -/

theorem calculateEffect_gIndep (j : JokerInstance) (ctx : ScoringContext)
    (h : usesGlobalRng j.id = false) (g g' : GRng) :
    calculateEffect j ctx g =
      ((calculateEffect j ctx g').1, (calculateEffect j ctx g').2.1, g) := by
  rw [usesGlobalRng] at h
  rw [calculateEffect, calculateEffect]
  cases hf : (List.find? (fun p => p.1 == j.id) JOKER_CALCULATORS).map
      (Prod.snd : String × JokerCalc → JokerCalc) with
  | none => rfl
  | some c =>
      cases c with
      | det f => dsimp only
      | rnd f => rw [hf] at h; simp at h

theorem applyJokerChain_gIndep (js : List JokerInstance)
    (h : ∀ j ∈ js, usesGlobalRng j.id = false) :
    ∀ (ctx : ScoringContext) (chips : Int) (m : F)
      (recs : List (String × Int × Int × F)) (g g' : GRng),
      ∃ (A : Int) (B : F) (C : List (String × Int × Int × F))
        (D : List JokerInstance),
        applyJokerChain js ctx chips m recs g = (A, B, C, D, g) ∧
        applyJokerChain js ctx chips m recs g' = (A, B, C, D, g') := by
  induction js with
  | nil =>
      intro ctx chips m recs g g'
      exact ⟨chips, m, recs, [], rfl, rfl⟩
  | cons j t ih =>
      intro ctx chips m recs g g'
      have hj := h j (by simp)
      have ht : ∀ x ∈ t, usesGlobalRng x.id = false := fun x hx => h x (by simp [hx])
      obtain ⟨⟨E, J2, G2⟩, hce⟩ : ∃ x, calculateEffect j ctx g' = x := ⟨_, rfl⟩
      have hceg : calculateEffect j ctx g = (E, J2, g) := by
        rw [calculateEffect_gIndep j ctx hj g g', hce]
      have hceg' : calculateEffect j ctx g' = (E, J2, g') := by
        rw [calculateEffect_gIndep j ctx hj g' g', hce]
      rw [applyJokerChain, applyJokerChain, hceg, hceg']
      dsimp only
      by_cases hact : E.isActive = true
      · rw [if_pos hact, if_pos hact]
        obtain ⟨A, B, C, D, h1, h2⟩ := ih ht _ _ _ _ g g'
        exact ⟨A, B, C, J2 :: D, by rw [h1], by rw [h2]⟩
      · rw [if_neg hact, if_neg hact]
        obtain ⟨A, B, C, D, h1, h2⟩ := ih ht _ _ _ _ g g'
        exact ⟨A, B, C, J2 :: D, by rw [h1], by rw [h2]⟩

/-- C2 (corrected): `calculate_score` is a pure function of its inputs for
every entity sequence that avoids the four global-RNG calculators
(Misprint, Bloodstone, Business Card, Reserved Parking): the breakdown and
updated entity states are independent of the global-RNG oracle.  For the
catalogued global-RNG entities purity fails — see the counterexample. -/
theorem c2_scoring_determinism (played hand : List Card)
    (jokers : List JokerInstance) (gs : GameStateM) (rng : Option CRng)
    (g g' : GRng) (h : ∀ j ∈ jokers, usesGlobalRng j.id = false) :
    (calculateScore played jokers gs hand rng g).map (fun r => (r.1, r.2.1)) =
      (calculateScore played jokers gs hand rng g').map (fun r => (r.1, r.2.1)) := by
  rcases calculateScore_decomp played gs hand rng with hnone | ⟨ctx, bd, -, -, -, -, hall⟩
  · rw [hnone jokers g, hnone jokers g']
  · rw [hall jokers g, hall jokers g']
    obtain ⟨A, B, C, D, h1, h2⟩ :=
      applyJokerChain_gIndep jokers h ctx bd.finalChips bd.finalMult [] g g'
    rw [h1, h2]
    rfl

/-! C9 helper lemmas -/

theorem modifyChild_keys (x : MCTSAction) (f : MTree → MTree)
    (cs : List (MCTSAction × MTree)) :
    (modifyChild x f cs).map Prod.fst = cs.map Prod.fst := by
  induction cs with
  | nil => rfl
  | cons e rest ih =>
      obtain ⟨k, t⟩ := e
      rw [modifyChild]
      by_cases hk : (k == x) = true
      · rw [if_pos hk]
        simp only [List.map_cons]
      · rw [if_neg hk]
        simp only [List.map_cons, ih]

theorem modifyChild_visits_pres (x : MCTSAction) (f : MTree → MTree)
    (hf : ∀ s, (f s).visitsOf = s.visitsOf) (cs : List (MCTSAction × MTree)) :
    (modifyChild x f cs).map (fun c => c.2.visitsOf)
      = cs.map (fun c => c.2.visitsOf) := by
  induction cs with
  | nil => rfl
  | cons e rest ih =>
      obtain ⟨k, t⟩ := e
      rw [modifyChild]
      by_cases hk : (k == x) = true
      · rw [if_pos hk]
        simp only [List.map_cons, hf]
      · rw [if_neg hk]
        simp only [List.map_cons, ih]

theorem find_decomp {α : Type} (p : α → Bool) (l : List α) (e : α)
    (h : l.find? p = some e) :
    ∃ l1 l2, l = l1 ++ e :: l2 ∧ (∀ x ∈ l1, p x = false) ∧ p e = true := by
  induction l with
  | nil => simp [List.find?] at h
  | cons a rest ih =>
      rw [List.find?] at h
      by_cases hp : p a = true
      · rw [hp] at h
        obtain rfl : a = e := by simpa using h
        exact ⟨[], rest, rfl, by simp, hp⟩
      · rw [Bool.eq_false_iff.mpr hp] at h
        obtain ⟨l1, l2, heq, hl1, hpe⟩ := ih h
        exact ⟨a :: l1, l2, by rw [heq]; rfl, by
          intro x hx
          rcases List.mem_cons.mp hx with hxa | hx'
          · rw [hxa]; exact Bool.eq_false_iff.mpr hp
          · exact hl1 x hx', hpe⟩

theorem mem_keys_find (x : MCTSAction) (cs : List (MCTSAction × MTree))
    (h : x ∈ cs.map Prod.fst) :
    ∃ c, cs.find? (fun q => q.1 == x) = some (x, c) := by
  induction cs with
  | nil => simp at h
  | cons e rest ih =>
      obtain ⟨k, t⟩ := e
      rw [List.find?]
      by_cases hk : (k == x) = true
      · have : k = x := by simpa using hk
        subst this
        exact ⟨t, by rw [hk]⟩
      · rw [Bool.eq_false_iff.mpr hk]
        apply ih
        rcases List.mem_cons.mp h with hx | hx
        · exact absurd (by simpa using hx.symm) (by simpa using hk)
        · exact hx

theorem modifyChild_decomp (x : MCTSAction) (f : MTree → MTree)
    (l1 l2 : List (MCTSAction × MTree)) (c : MTree)
    (hl1 : ∀ e ∈ l1, (e.1 == x) = false) :
    modifyChild x f (l1 ++ (x, c) :: l2) = l1 ++ (x, f c) :: l2 := by
  induction l1 with
  | nil =>
      simp only [List.nil_append]
      rw [modifyChild]
      rw [if_pos (by simp)]
  | cons e rest ih =>
      obtain ⟨k, t⟩ := e
      simp only [List.cons_append]
      rw [modifyChild]
      rw [if_neg (by simpa using hl1 (k, t) (List.mem_cons_self _ _))]
      rw [ih (fun e he => hl1 e (List.mem_cons_of_mem _ he))]

theorem find_modifyChild_self (x : MCTSAction) (f : MTree → MTree)
    (cs : List (MCTSAction × MTree)) :
    (modifyChild x f cs).find? (fun q => q.1 == x)
      = (cs.find? (fun q => q.1 == x)).map (fun e => (e.1, f e.2)) := by
  induction cs with
  | nil => rfl
  | cons e rest ih =>
      obtain ⟨k, t⟩ := e
      rw [modifyChild]
      by_cases hk : (k == x) = true
      · rw [if_pos hk]
        rw [List.find?, List.find?]
        simp only [hk]
        rfl
      · rw [if_neg hk]
        rw [List.find?, List.find?]
        simp only [hk]
        exact ih

theorem find_modifyChild_ne (x y : MCTSAction) (f : MTree → MTree)
    (cs : List (MCTSAction × MTree)) (hxy : (y == x) = false) :
    (modifyChild x f cs).find? (fun q => q.1 == y)
      = cs.find? (fun q => q.1 == y) := by
  induction cs with
  | nil => rfl
  | cons e rest ih =>
      obtain ⟨k, t⟩ := e
      rw [modifyChild]
      by_cases hk : (k == x) = true
      · rw [if_pos hk]
        have hk' : k = x := by simpa using hk
        subst hk'
        have hky : (k == y) = false := by
          by_contra hc
          rw [Bool.not_eq_false] at hc
          have h1 : k = y := by simpa using hc
          subst h1
          simp at hxy
        rw [List.find?, List.find?]
        simp only [hky]
      · rw [if_neg hk]
        rw [List.find?, List.find?]
        by_cases hky : (k == y) = true
        · simp only [hky]
        · simp only [Bool.eq_false_iff.mpr hky]
          exact ih

theorem backprop_visitsOf (p : List MCTSAction) (v : F) (w : Bool) (t : MTree) :
    (backprop p v w t).visitsOf = t.visitsOf + 1 := by
  cases t with
  | mk a vis tv wn cs ut => rw [backprop.eq_def]; rfl

theorem backprop_untried (p : List MCTSAction) (v : F) (w : Bool) (t : MTree) :
    (backprop p v w t).untriedOf = t.untriedOf := by
  cases t with
  | mk a vis tv wn cs ut => rw [backprop.eq_def]; rfl

theorem backprop_children_nil (v : F) (w : Bool) (t : MTree) :
    (backprop [] v w t).childrenOf = t.childrenOf := by
  cases t with
  | mk a vis tv wn cs ut => rw [backprop]; rfl

theorem backprop_children_cons (x : MCTSAction) (q : List MCTSAction)
    (v : F) (w : Bool) (t : MTree) :
    (backprop (x :: q) v w t).childrenOf
      = modifyChild x (backprop q v w) t.childrenOf := by
  cases t with
  | mk a vis tv wn cs ut => rw [backprop]; rfl

theorem backprop_keys (p : List MCTSAction) (v : F) (w : Bool) (t : MTree) :
    (backprop p v w t).childrenOf.map Prod.fst = t.childrenOf.map Prod.fst := by
  cases p with
  | nil => rw [backprop_children_nil]
  | cons x q => rw [backprop_children_cons]; exact modifyChild_keys _ _ _

theorem backprop_sum_cons (x : MCTSAction) (q : List MCTSAction)
    (v : F) (w : Bool) (t : MTree) (hx : x ∈ t.childrenOf.map Prod.fst) :
    ((backprop (x :: q) v w t).childrenOf.map (fun c => c.2.visitsOf)).sum
      = (t.childrenOf.map (fun c => c.2.visitsOf)).sum + 1 := by
  rw [backprop_children_cons]
  obtain ⟨c, hf⟩ := mem_keys_find x t.childrenOf hx
  obtain ⟨l1, l2, heq, hl1, -⟩ := find_decomp _ _ _ hf
  rw [heq]
  rw [modifyChild_decomp x (backprop q v w) l1 l2 c (fun e he => hl1 e he)]
  simp only [List.map_append, List.map_cons, List.sum_append, List.sum_cons,
    backprop_visitsOf]
  omega

theorem withUntried_visitsOf (t : MTree) (us : List MCTSAction) :
    (t.withUntried us).visitsOf = t.visitsOf := by
  cases t with
  | mk a vis tv wn cs ut => rfl

theorem removeUntriedAddChild_visitsOf (t : MTree) (act : MCTSAction) (c : MTree) :
    (t.removeUntriedAddChild act c).visitsOf = t.visitsOf := by
  cases t with
  | mk a vis tv wn cs ut => rfl

theorem removeUntriedAddChild_children (t : MTree) (act : MCTSAction) (c : MTree) :
    (t.removeUntriedAddChild act c).childrenOf = t.childrenOf ++ [(act, c)] := by
  cases t with
  | mk a vis tv wn cs ut => rfl

theorem updateAt_visitsOf (f : MTree → MTree)
    (hf : ∀ s, (f s).visitsOf = s.visitsOf) :
    ∀ (p : List MCTSAction) (t : MTree), (updateAt p f t).visitsOf = t.visitsOf := by
  intro p t
  cases p with
  | nil => exact hf t
  | cons x q =>
      cases t with
      | mk a vis tv wn cs ut => rfl

theorem updateAt_nil (f : MTree → MTree) (t : MTree) : updateAt [] f t = f t := rfl

theorem updateAt_cons_children (f : MTree → MTree) (x : MCTSAction)
    (q : List MCTSAction) (t : MTree) :
    (updateAt (x :: q) f t).childrenOf
      = modifyChild x (updateAt q f) t.childrenOf := by
  cases t with
  | mk a vis tv wn cs ut => rfl

theorem updateAt_cons_untried (f : MTree → MTree) (x : MCTSAction)
    (q : List MCTSAction) (t : MTree) :
    (updateAt (x :: q) f t).untriedOf = t.untriedOf := by
  cases t with
  | mk a vis tv wn cs ut => rfl

theorem selectLoop_pres (policy : MPolicy)
    (hpol : ∀ (v : Nat) (cs : List (MCTSAction × MTree)) (pr : MCTSAction × MTree),
      policy v cs = some pr → cs.find? (fun q => q.1 == pr.1) = some pr) :
    ∀ (fuel : Nat) (t : MTree) (game : GameSimulator) (g : GRng),
      (selectLoop policy fuel t game g).2.1.visitsOf = t.visitsOf ∧
      (selectLoop policy fuel t game g).2.1.childrenOf.map Prod.fst
        = t.childrenOf.map Prod.fst ∧
      (selectLoop policy fuel t game g).2.1.childrenOf.map (fun c => c.2.visitsOf)
        = t.childrenOf.map (fun c => c.2.visitsOf) ∧
      (selectLoop policy fuel t game g).2.1.untriedOf = t.untriedOf ∧
      (∀ (a : MCTSAction) (p' : List MCTSAction),
        (selectLoop policy fuel t game g).1 = a :: p' → a ∈ t.childrenOf.map Prod.fst) ∧
      ((selectLoop policy fuel t game g).1 = [] →
        (selectLoop policy fuel t game g).2.1 = t) := by
  intro fuel
  induction fuel with
  | zero =>
      intro t game g
      exact ⟨rfl, rfl, rfl, rfl, fun a p' h => absurd h (by simp [selectLoop]),
        fun _ => rfl⟩
  | succ f ih =>
      intro t game g
      cases t with
      | mk a vis tv wn cs ut =>
        by_cases hcond : (ut.isEmpty && !cs.isEmpty) = true
        · cases hp : policy vis cs with
          | none =>
              have hsel : selectLoop policy (f + 1) (MTree.mk a vis tv wn cs ut) game g
                  = ([], MTree.mk a vis tv wn cs ut, game, g) := by
                rw [selectLoop, if_pos hcond, hp]
              rw [hsel]
              exact ⟨rfl, rfl, rfl, rfl, fun a' p' h => absurd h (by simp),
                fun _ => rfl⟩
          | some pr =>
            obtain ⟨act, child⟩ := pr
            have hfind := hpol vis cs (act, child) hp
            obtain ⟨⟨game1, g1⟩, hga⟩ : ∃ x, applyAction game act g = x := ⟨_, rfl⟩
            obtain ⟨⟨P, CT, GME, GG⟩, hrec⟩ : ∃ x, selectLoop policy f
                (if child.untriedOf.isEmpty && child.childrenOf.isEmpty
                 then child.withUntried (getLegalActions game1)
                 else child) game1 g1 = x := ⟨_, rfl⟩
            have hsel : selectLoop policy (f + 1) (MTree.mk a vis tv wn cs ut) game g
                = (act :: P,
                   MTree.mk a vis tv wn (modifyChild act (fun _ => CT) cs) ut,
                   GME, GG) := by
              rw [selectLoop, if_pos hcond, hp]
              dsimp only
              rw [hga]
              dsimp only
              rw [hrec]
            have hCT : CT.visitsOf = child.visitsOf := by
              have h1 := (ih (if child.untriedOf.isEmpty && child.childrenOf.isEmpty
                 then child.withUntried (getLegalActions game1)
                 else child) game1 g1).1
              rw [hrec] at h1
              dsimp only at h1
              rw [h1]
              by_cases hb : (child.untriedOf.isEmpty && child.childrenOf.isEmpty) = true
              · rw [if_pos hb]; exact withUntried_visitsOf child _
              · rw [if_neg hb]
            rw [hsel]
            obtain ⟨l1, l2, heq, hl1, -⟩ := find_decomp _ _ _ hfind
            refine ⟨rfl, modifyChild_keys _ _ _, ?_, rfl, ?_, ?_⟩
            · rw [heq, modifyChild_decomp act (fun _ => CT) l1 l2 child
                (fun e he => hl1 e he)]
              simp only [MTree.childrenOf, List.map_append, List.map_cons, hCT]
            · intro a' p' hpp
              have haa : act = a' := by injection hpp
              rw [← haa, heq]
              simp [MTree.childrenOf]
            · intro hempty
              exact absurd hempty (by simp)
        · have hsel : selectLoop policy (f + 1) (MTree.mk a vis tv wn cs ut) game g
              = ([], MTree.mk a vis tv wn cs ut, game, g) := by
            rw [selectLoop, if_neg hcond]
          rw [hsel]
          exact ⟨rfl, rfl, rfl, rfl, fun a' p' h => absurd h (by simp),
            fun _ => rfl⟩

theorem selectLoop_desc (policy : MPolicy)
    (hpol : ∀ (v : Nat) (cs : List (MCTSAction × MTree)) (pr : MCTSAction × MTree),
      policy v cs = some pr → cs.find? (fun q => q.1 == pr.1) = some pr)
    (f : Nat) (a : Option MCTSAction) (vis : Nat) (tv : F) (wn : Nat)
    (cs : List (MCTSAction × MTree)) (ut : List MCTSAction)
    (game : GameSimulator) (g : GRng) (act : MCTSAction) (child : MTree)
    (hcond : (ut.isEmpty && !cs.isEmpty) = true)
    (hp : policy vis cs = some (act, child)) :
    ∃ (P : List MCTSAction) (CT : MTree) (GME : GameSimulator) (GG : GRng),
      selectLoop policy (f + 1) (MTree.mk a vis tv wn cs ut) game g
        = (act :: P,
           MTree.mk a vis tv wn (modifyChild act (fun _ => CT) cs) ut, GME, GG) ∧
      CT.visitsOf = child.visitsOf ∧
      act ∈ cs.map Prod.fst ∧
      (modifyChild act (fun _ => CT) cs).map (fun c => c.2.visitsOf)
        = cs.map (fun c => c.2.visitsOf) := by
  have hfind := hpol vis cs (act, child) hp
  obtain ⟨⟨game1, g1⟩, hga⟩ : ∃ x, applyAction game act g = x := ⟨_, rfl⟩
  obtain ⟨⟨P, CT, GME, GG⟩, hrec⟩ : ∃ x, selectLoop policy f
      (if child.untriedOf.isEmpty && child.childrenOf.isEmpty
       then child.withUntried (getLegalActions game1)
       else child) game1 g1 = x := ⟨_, rfl⟩
  have hCT : CT.visitsOf = child.visitsOf := by
    have h1 := (selectLoop_pres policy hpol f
      (if child.untriedOf.isEmpty && child.childrenOf.isEmpty
       then child.withUntried (getLegalActions game1)
       else child) game1 g1).1
    rw [hrec] at h1
    dsimp only at h1
    rw [h1]
    by_cases hb : (child.untriedOf.isEmpty && child.childrenOf.isEmpty) = true
    · rw [if_pos hb]; exact withUntried_visitsOf child _
    · rw [if_neg hb]
  obtain ⟨l1, l2, heq, hl1, -⟩ := find_decomp _ _ _ hfind
  refine ⟨P, CT, GME, GG, ?_, hCT, ?_, ?_⟩
  · rw [selectLoop, if_pos hcond, hp]
    dsimp only
    rw [hga]
    dsimp only
    rw [hrec]
  · rw [heq]; simp
  · rw [heq, modifyChild_decomp act (fun _ => CT) l1 l2 child
      (fun e he => hl1 e he)]
    simp only [List.map_append, List.map_cons, hCT]

theorem mctsIterate_step (cfg : MCTSConfig) (policy : MPolicy) (fuel : Nat)
    (game : GameSimulator) (t : MTree) (g : GRng) (t' : MTree) (g' : GRng)
    (hpol : ∀ (v : Nat) (cs : List (MCTSAction × MTree)) (pr : MCTSAction × MTree),
      policy v cs = some pr → cs.find? (fun q => q.1 == pr.1) = some pr)
    (hpol2 : ∀ (v : Nat) (cs : List (MCTSAction × MTree)),
      cs ≠ [] → policy v cs ≠ Option.none)
    (hfuel : 0 < fuel) (hgo : game.clone.isGameOver = false)
    (hne : t.childrenOf ≠ [] ∨ t.untriedOf ≠ [])
    (hit : mctsIterate cfg policy fuel game t g = some (t', g')) :
    t'.visitsOf = t.visitsOf + 1 ∧ childVisitSum t' = childVisitSum t + 1 ∧
    t'.childrenOf ≠ [] := by
  obtain ⟨f, rfl⟩ : ∃ f, fuel = f + 1 := ⟨fuel - 1, by omega⟩
  cases t with
  | mk a vis tv wn cs ut =>
    by_cases hut : ut = []
    · subst hut
      have hcs : cs ≠ [] := by
        rcases hne with h | h
        · exact h
        · exact absurd rfl h
      have hcsE : cs.isEmpty = false := by
        cases cs with
        | nil => exact absurd rfl hcs
        | cons e r => rfl
      have hcond : (([] : List MCTSAction).isEmpty && !cs.isEmpty) = true := by
        rw [hcsE]; rfl
      cases hp : policy vis cs with
      | none => exact absurd hp (hpol2 vis cs hcs)
      | some pr =>
        obtain ⟨act, child⟩ := pr
        obtain ⟨P, CT, GME, GG, hsel, hCT, hmemact, hvismap⟩ :=
          selectLoop_desc policy hpol f a vis tv wn cs [] game.clone g act child hcond hp
        rw [mctsIterate] at hit
        rw [hsel] at hit
        dsimp only at hit
        by_cases hS : ((lookupPath (act :: P)
            (MTree.mk a vis tv wn (modifyChild act (fun _ => CT) cs) [])).getD
            (MTree.mk a vis tv wn (modifyChild act (fun _ => CT) cs) [])).untriedOf.isEmpty = true
        · rw [hS] at hit
          simp only [List.isEmpty_cons, Bool.false_and, Bool.not_false, Bool.not_true,
            Bool.true_and, Bool.and_false, if_false] at hit
          cases hroll : rolloutLoop cfg cfg.maxRolloutDepth GME GG with
          | none => rw [hroll] at hit; simp at hit
          | some pr2 =>
            obtain ⟨game3, g3⟩ := pr2
            rw [hroll] at hit
            dsimp only at hit
            obtain ⟨ht', hg'⟩ : backprop (act :: P) (evaluateTerminal cfg game3)
                game3.isWon (MTree.mk a vis tv wn (modifyChild act (fun _ => CT) cs) [])
                  = t' ∧ g3 = g' := by simpa using hit
            subst ht'
            refine ⟨by rw [backprop_visitsOf]; rfl, ?_, ?_⟩
            · show ((backprop _ _ _ _).childrenOf.map (fun c => c.2.visitsOf)).sum = _
              rw [backprop_sum_cons]
              · simp only [MTree.childrenOf, hvismap, childVisitSum]
              · simp only [MTree.childrenOf, modifyChild_keys]
                exact hmemact
            · intro hnil
              have hkeys := backprop_keys (act :: P) (evaluateTerminal cfg game3)
                game3.isWon (MTree.mk a vis tv wn (modifyChild act (fun _ => CT) cs) [])
              rw [hnil] at hkeys
              simp only [List.map_nil, MTree.childrenOf, modifyChild_keys] at hkeys
              exact hcs (List.map_eq_nil_iff.mp hkeys.symm)
        · rw [Bool.eq_false_iff.mpr hS] at hit
          simp only [List.isEmpty_cons, Bool.false_and, Bool.not_false, Bool.true_and,
            if_true] at hit
          cases hsu : selectUntriedAction ((lookupPath (act :: P)
              (MTree.mk a vis tv wn (modifyChild act (fun _ => CT) cs) [])).getD
              (MTree.mk a vis tv wn (modifyChild act (fun _ => CT) cs) [])) GME GG with
          | none => rw [hsu] at hit; simp at hit
          | some tr =>
            obtain ⟨action, gme2, gg2⟩ := tr
            rw [hsu] at hit
            dsimp only at hit
            obtain ⟨⟨game2, g2⟩, hga2⟩ : ∃ x, applyAction gme2 action gg2 = x := ⟨_, rfl⟩
            rw [hga2] at hit
            dsimp only at hit
            cases hroll : rolloutLoop cfg cfg.maxRolloutDepth game2 g2 with
            | none => rw [hroll] at hit; simp at hit
            | some pr2 =>
              obtain ⟨game3, g3⟩ := pr2
              rw [hroll] at hit
              dsimp only at hit
              obtain ⟨ht', hg'⟩ : backprop ((act :: P) ++ [action])
                  (evaluateTerminal cfg game3) game3.isWon
                  (updateAt (act :: P)
                    (fun nd : MTree => nd.removeUntriedAddChild action
                      (MTree.mk (some action) 0 F.zero 0 [] (getLegalActions game2)))
                    (MTree.mk a vis tv wn (modifyChild act (fun _ => CT) cs) []))
                    = t' ∧ g3 = g' := by simpa using hit
              subst ht'
              have hUvis : ∀ s : MTree, ((fun nd : MTree => nd.removeUntriedAddChild action
                  (MTree.mk (some action) 0 F.zero 0 [] (getLegalActions game2))) s).visitsOf
                    = s.visitsOf := fun s => removeUntriedAddChild_visitsOf s _ _
              have ht2children : (updateAt (act :: P)
                  (fun nd : MTree => nd.removeUntriedAddChild action
                    (MTree.mk (some action) 0 F.zero 0 [] (getLegalActions game2)))
                  (MTree.mk a vis tv wn (modifyChild act (fun _ => CT) cs) [])).childrenOf
                    = modifyChild act (updateAt P (fun nd : MTree => nd.removeUntriedAddChild action
                      (MTree.mk (some action) 0 F.zero 0 [] (getLegalActions game2))))
                      (modifyChild act (fun _ => CT) cs) :=
                updateAt_cons_children _ _ _ _
              refine ⟨?_, ?_, ?_⟩
              · rw [List.cons_append, backprop_visitsOf]
                rw [updateAt_visitsOf _ hUvis]
                rfl
              · show ((backprop _ _ _ _).childrenOf.map (fun c => c.2.visitsOf)).sum = _
                rw [List.cons_append, backprop_sum_cons]
                · rw [ht2children]
                  rw [modifyChild_visits_pres _ _ (fun s => updateAt_visitsOf _ hUvis P s)]
                  simp only [MTree.childrenOf, hvismap, childVisitSum]
                · rw [ht2children]
                  simp only [modifyChild_keys]
                  exact hmemact
              · intro hnil
                have hkeys := backprop_keys ((act :: P) ++ [action])
                  (evaluateTerminal cfg game3) game3.isWon
                  (updateAt (act :: P)
                    (fun nd : MTree => nd.removeUntriedAddChild action
                      (MTree.mk (some action) 0 F.zero 0 [] (getLegalActions game2)))
                    (MTree.mk a vis tv wn (modifyChild act (fun _ => CT) cs) []))
                rw [hnil, ht2children] at hkeys
                simp only [List.map_nil, modifyChild_keys] at hkeys
                exact hcs (List.map_eq_nil_iff.mp hkeys.symm)
    · have hutE : ut.isEmpty = false := by
        cases ut with
        | nil => exact absurd rfl hut
        | cons e r => rfl
      have hsel : selectLoop policy (f + 1) (MTree.mk a vis tv wn cs ut) game.clone g
          = ([], MTree.mk a vis tv wn cs ut, game.clone, g) := by
        rw [selectLoop, if_neg (by rw [hutE]; simp)]
      rw [mctsIterate] at hit
      rw [hsel] at hit
      dsimp only at hit
      rw [hgo] at hit
      simp only [lookupPath, Option.getD_some, List.isEmpty_nil, Bool.true_and,
        Bool.and_false, Bool.not_false, MTree.untriedOf, hutE, Bool.true_and,
        if_true] at hit
      cases hsu : selectUntriedAction (MTree.mk a vis tv wn cs ut) game.clone g with
      | none => rw [hsu] at hit; simp at hit
      | some tr =>
        obtain ⟨action, gme2, gg2⟩ := tr
        rw [hsu] at hit
        dsimp only at hit
        obtain ⟨⟨game2, g2⟩, hga2⟩ : ∃ x, applyAction gme2 action gg2 = x := ⟨_, rfl⟩
        rw [hga2] at hit
        dsimp only at hit
        cases hroll : rolloutLoop cfg cfg.maxRolloutDepth game2 g2 with
        | none => rw [hroll] at hit; simp at hit
        | some pr2 =>
          obtain ⟨game3, g3⟩ := pr2
          rw [hroll] at hit
          dsimp only at hit
          obtain ⟨ht', hg'⟩ : backprop ([] ++ [action])
              (evaluateTerminal cfg game3) game3.isWon
              (updateAt []
                (fun nd : MTree => nd.removeUntriedAddChild action
                  (MTree.mk (some action) 0 F.zero 0 [] (getLegalActions game2)))
                (MTree.mk a vis tv wn cs ut)) = t' ∧ g3 = g' := by simpa using hit
          subst ht'
          refine ⟨?_, ?_, ?_⟩
          · rw [List.nil_append, backprop_visitsOf, updateAt_nil,
              removeUntriedAddChild_visitsOf]
          · show ((backprop _ _ _ _).childrenOf.map (fun c => c.2.visitsOf)).sum = _
            rw [List.nil_append, backprop_sum_cons]
            · rw [updateAt_nil, removeUntriedAddChild_children]
              simp only [MTree.childrenOf, List.map_append, List.sum_append,
                childVisitSum, List.map_cons, List.map_nil, List.sum_cons,
                List.sum_nil, MTree.visitsOf]
              omega
            · rw [updateAt_nil, removeUntriedAddChild_children]
              simp
          · intro hnil
            have hkeys := backprop_keys ([] ++ [action])
              (evaluateTerminal cfg game3) game3.isWon
              (updateAt []
                (fun nd : MTree => nd.removeUntriedAddChild action
                  (MTree.mk (some action) 0 F.zero 0 [] (getLegalActions game2)))
                (MTree.mk a vis tv wn cs ut))
            rw [hnil, updateAt_nil, removeUntriedAddChild_children] at hkeys
            simp at hkeys

theorem searchLoop_visits (cfg : MCTSConfig) (policy : MPolicy) (fuel : Nat)
    (game : GameSimulator)
    (hpol : ∀ (v : Nat) (cs : List (MCTSAction × MTree)) (pr : MCTSAction × MTree),
      policy v cs = some pr → cs.find? (fun q => q.1 == pr.1) = some pr)
    (hpol2 : ∀ (v : Nat) (cs : List (MCTSAction × MTree)),
      cs ≠ [] → policy v cs ≠ Option.none)
    (hfuel : 0 < fuel) (hgo : game.clone.isGameOver = false) :
    ∀ (n : Nat) (t : MTree) (g : GRng) (t' : MTree) (g' : GRng),
      searchLoop cfg policy fuel game n t g = some (t', g') →
      (t.childrenOf ≠ [] ∨ t.untriedOf ≠ []) →
      t'.visitsOf = t.visitsOf + n ∧ childVisitSum t' = childVisitSum t + n ∧
      (t'.childrenOf ≠ [] ∨ t'.untriedOf ≠ []) ∧
      (0 < n → t'.childrenOf ≠ []) := by
  intro n
  induction n with
  | zero =>
      intro t g t' g' h hne
      obtain ⟨h1, -⟩ : t = t' ∧ g = g' := by
        rw [searchLoop] at h
        simpa using h
      subst h1
      exact ⟨rfl, rfl, hne, fun h0 => absurd h0 (by omega)⟩
  | succ n ih =>
      intro t g t' g' h hne
      rw [searchLoop] at h
      cases hitr : mctsIterate cfg policy fuel game t g with
      | none => rw [hitr] at h; simp at h
      | some pr =>
        obtain ⟨t1, g1⟩ := pr
        rw [hitr] at h
        dsimp only at h
        obtain ⟨hv1, hs1, hc1⟩ := mctsIterate_step cfg policy fuel game t g t1 g1
          hpol hpol2 hfuel hgo hne hitr
        obtain ⟨hv2, hs2, hne2, hc2⟩ := ih t1 g1 t' g' h (Or.inl hc1)
        refine ⟨by omega, by omega, hne2, fun _ => ?_⟩
        rcases Nat.eq_zero_or_pos n with hn0 | hn0
        · subst hn0
          obtain ⟨h1, -⟩ : t1 = t' ∧ g1 = g' := by
            rw [searchLoop] at h
            simpa using h
          subst h1
          exact hc1
        · exact hc2 hn0

theorem visFold_mem (c : MCTSAction × MTree) (l : List (MCTSAction × MTree)) :
    l.foldl (fun (m : MCTSAction × MTree) p =>
        if m.2.visitsOf < p.2.visitsOf then p else m) c ∈ c :: l := by
  induction l generalizing c with
  | nil => simp
  | cons b t ih =>
      simp only [List.foldl_cons]
      by_cases hc : c.2.visitsOf < b.2.visitsOf
      · rw [if_pos hc]
        rcases List.mem_cons.mp (ih b) with h | h
        · rw [h]; exact List.mem_cons_of_mem _ (List.mem_cons_self _ _)
        · exact List.mem_cons_of_mem _ (List.mem_cons_of_mem _ h)
      · rw [if_neg hc]
        rcases List.mem_cons.mp (ih c) with h | h
        · rw [h]; exact List.mem_cons_self _ _
        · exact List.mem_cons_of_mem _ (List.mem_cons_of_mem _ h)

theorem visFold_max (c : MCTSAction × MTree) (l : List (MCTSAction × MTree)) :
    ∀ x ∈ c :: l, x.2.visitsOf ≤
      (l.foldl (fun (m : MCTSAction × MTree) p =>
        if m.2.visitsOf < p.2.visitsOf then p else m) c).2.visitsOf := by
  induction l generalizing c with
  | nil =>
      intro x hx
      rw [List.mem_singleton] at hx
      subst hx
      exact le_refl _
  | cons b t ih =>
      intro x hx
      simp only [List.foldl_cons]
      by_cases hc : c.2.visitsOf < b.2.visitsOf
      · rw [if_pos hc]
        rcases List.mem_cons.mp hx with heq | hx'
        · rw [heq]
          exact le_trans (le_of_lt hc) (ih b b (List.mem_cons_self _ _))
        · rcases List.mem_cons.mp hx' with heq | hxt
          · rw [heq]; exact ih b b (List.mem_cons_self _ _)
          · exact ih b x (List.mem_cons_of_mem _ hxt)
      · rw [if_neg hc]
        rcases List.mem_cons.mp hx with heq | hx'
        · rw [heq]; exact ih c c (List.mem_cons_self _ _)
        · rcases List.mem_cons.mp hx' with heq | hxt
          · rw [heq]
            exact le_trans (le_of_not_lt hc) (ih c c (List.mem_cons_self _ _))
          · exact ih c x (List.mem_cons_of_mem _ hxt)

theorem sum_pos_mem (l : List (MCTSAction × MTree))
    (h : 0 < (l.map (fun c => c.2.visitsOf)).sum) :
    ∃ d ∈ l, 0 < d.2.visitsOf := by
  induction l with
  | nil => simp at h
  | cons e r ih =>
      rw [List.map_cons, List.sum_cons] at h
      rcases Nat.eq_zero_or_pos e.2.visitsOf with h0 | h0
      · rw [h0] at h
        obtain ⟨d, hd, hdp⟩ := ih (by omega)
        exact ⟨d, List.mem_cons_of_mem _ hd, hdp⟩
      · exact ⟨e, List.mem_cons_self _ _, h0⟩

theorem bestAction_visited (t : MTree) (hsum : 0 < childVisitSum t) :
    ∃ (act : MCTSAction) (c : MTree), bestAction t = some act ∧
      (act, c) ∈ t.childrenOf ∧ 1 ≤ c.visitsOf := by
  rw [bestAction]
  cases hcs : t.childrenOf with
  | nil =>
      rw [childVisitSum, hcs] at hsum
      simp at hsum
  | cons c rest =>
      refine ⟨_, (rest.foldl (fun (m : MCTSAction × MTree) p =>
        if m.2.visitsOf < p.2.visitsOf then p else m) c).2, rfl, ?_, ?_⟩
      · exact visFold_mem c rest
      · rw [childVisitSum, hcs] at hsum
        obtain ⟨d, hd, hdp⟩ := sum_pos_mem _ hsum
        exact le_trans hdp (visFold_max c rest d hd)

theorem backprop_initSeg :
    ∀ (q path : List MCTSAction) (v : F) (w : Bool) (t : MTree) (k : Nat),
      isInitSeg q path = true → visitsAt q t = some k →
      visitsAt q (backprop path v w t) = some (k + 1) := by
  intro q
  induction q with
  | nil =>
      intro path v w t k hseg ht
      rw [visitsAt, lookupPath] at ht
      have hk : t.visitsOf = k := by simpa using ht
      rw [visitsAt, lookupPath]
      simp [backprop_visitsOf, hk]
  | cons y q' ih =>
      intro path v w t k hseg ht
      cases path with
      | nil => simp [isInitSeg] at hseg
      | cons x p' =>
        rw [isInitSeg] at hseg
        obtain ⟨hxy, hqp⟩ := (Bool.and_eq_true _ _).mp hseg
        have hyx : y = x := by simpa using hxy
        subst hyx
        rw [visitsAt, lookupPath] at ht
        cases hf : t.childrenOf.find? (fun qq => qq.1 == y) with
        | none => rw [hf] at ht; simp at ht
        | some e =>
            rw [hf] at ht
            try dsimp only at ht
            have ht' : visitsAt q' e.2 = some k := by rw [visitsAt]; exact ht
            rw [visitsAt, lookupPath]
            rw [backprop_children_cons, find_modifyChild_self, hf]
            try dsimp only
            have hres := ih p' v w e.2 k hqp ht'
            rw [visitsAt] at hres
            exact hres

theorem backprop_notInitSeg :
    ∀ (q path : List MCTSAction) (v : F) (w : Bool) (t : MTree) (k : Nat),
      isInitSeg q path = false → visitsAt q t = some k →
      visitsAt q (backprop path v w t) = some k := by
  intro q
  induction q with
  | nil =>
      intro path v w t k hseg ht
      simp [isInitSeg] at hseg
  | cons y q' ih =>
      intro path v w t k hseg ht
      cases path with
      | nil =>
          rw [visitsAt, lookupPath] at ht
          rw [visitsAt, lookupPath, backprop_children_nil]
          exact ht
      | cons x p' =>
        rw [isInitSeg] at hseg
        rcases Bool.and_eq_false_iff.mp hseg with hyx | hqp
        · rw [visitsAt, lookupPath] at ht
          rw [visitsAt, lookupPath, backprop_children_cons,
            find_modifyChild_ne x y _ _ hyx]
          exact ht
        · by_cases hyx : (y == x) = true
          · have hyx' : y = x := by simpa using hyx
            subst hyx'
            rw [visitsAt, lookupPath] at ht
            cases hf : t.childrenOf.find? (fun qq => qq.1 == y) with
            | none => rw [hf] at ht; simp at ht
            | some e =>
                rw [hf] at ht
                try dsimp only at ht
                have ht' : visitsAt q' e.2 = some k := by rw [visitsAt]; exact ht
                rw [visitsAt, lookupPath]
                rw [backprop_children_cons, find_modifyChild_self, hf]
                try dsimp only
                have hres := ih p' v w e.2 k hqp ht'
                rw [visitsAt] at hres
                exact hres
          · rw [visitsAt, lookupPath] at ht
            rw [visitsAt, lookupPath, backprop_children_cons,
              find_modifyChild_ne x y _ _ (Bool.eq_false_iff.mpr hyx)]
            exact ht

/-- C9 (corrected): backpropagation adds exactly one visit to every node
whose path is an initial segment of the selected path and leaves every
other node's count unchanged; after `n` iterations of `search` (positive
fuel, a policy that picks existing children, a live game with legal
actions) the root's visit count is `n` and the children's visit sum equals
the root's count EXACTLY — not `n - 1` as claimed — and `best_action`
returns a child visited at least once. -/
theorem c9_mcts_visit_accounting :
    (∀ (path : List MCTSAction) (v : F) (w : Bool) (t : MTree)
       (q : List MCTSAction) (k : Nat),
        isInitSeg q path = true → visitsAt q t = some k →
        visitsAt q (backprop path v w t) = some (k + 1)) ∧
    (∀ (path : List MCTSAction) (v : F) (w : Bool) (t : MTree)
       (q : List MCTSAction) (k : Nat),
        isInitSeg q path = false → visitsAt q t = some k →
        visitsAt q (backprop path v w t) = some k) ∧
    (∀ (cfg : MCTSConfig) (policy : MPolicy) (fuel n : Nat)
       (game : GameSimulator) (g : GRng) (res : Option MCTSAction)
       (t : MTree) (g' : GRng),
        (∀ (v : Nat) (cs : List (MCTSAction × MTree)) (pr : MCTSAction × MTree),
          policy v cs = some pr → cs.find? (fun q => q.1 == pr.1) = some pr) →
        (∀ (v : Nat) (cs : List (MCTSAction × MTree)),
          cs ≠ [] → policy v cs ≠ Option.none) →
        0 < fuel → game.clone.isGameOver = false →
        getLegalActions game ≠ [] → 0 < n →
        mctsSearch cfg policy fuel n game g = some (res, t, g') →
        t.visitsOf = n ∧ childVisitSum t = n ∧
        ∃ (act : MCTSAction) (c : MTree),
          res = some act ∧ (act, c) ∈ t.childrenOf ∧ 1 ≤ c.visitsOf) := by
  refine ⟨fun path v w t q k => backprop_initSeg q path v w t k,
    fun path v w t q k => backprop_notInitSeg q path v w t k, ?_⟩
  intro cfg policy fuel n game g res t g' hpol hpol2 hfuel hgo hlegal hn hsearch
  rw [mctsSearch] at hsearch
  have hlegE : (getLegalActions game).isEmpty = false := by
    cases hleg : getLegalActions game with
    | nil => exact absurd hleg hlegal
    | cons e r => rfl
  rw [hlegE] at hsearch
  try dsimp only at hsearch
  cases hloop : searchLoop cfg policy fuel game n
      (MTree.mk Option.none 0 F.zero 0 [] (getLegalActions game)) g with
  | none => rw [hloop] at hsearch; simp at hsearch
  | some pr =>
    obtain ⟨tF, gF⟩ := pr
    rw [hloop] at hsearch
    try dsimp only at hsearch
    obtain ⟨hres, hT, hG⟩ : bestAction tF = res ∧ tF = t ∧ gF = g' := by
      simpa using hsearch
    subst hT
    obtain ⟨hv, hs, -, hc⟩ := searchLoop_visits cfg policy fuel game hpol hpol2
      hfuel hgo n (MTree.mk Option.none 0 F.zero 0 [] (getLegalActions game))
      g tF gF hloop (Or.inr hlegal)
    have hr0 : (MTree.mk Option.none 0 F.zero 0 [] (getLegalActions game)).visitsOf
        = 0 := rfl
    have hc0 : childVisitSum (MTree.mk Option.none 0 F.zero 0 [] (getLegalActions game))
        = 0 := rfl
    have hv' : tF.visitsOf = n := by omega
    have hs' : childVisitSum tF = n := by omega
    obtain ⟨act, c, hba, hmem, hvis⟩ := bestAction_visited tF (by omega)
    refine ⟨hv', hs', act, c, ?_, hmem, hvis⟩
    rw [← hres]
    exact hba

/-! ## Witnesses and remaining concrete checks -/

/-- C9 counterexample: one iteration on a live one-card game gives root
visits 1 and children's visit sum 1 — the claimed `sum = visits - 1 = 0`
fails on the very first iteration. -/
theorem c9_sum_counterexample :
    (mctsSearch cfg0 policy0 5 1 mctsGame zeroGRng).map
      (fun r => (r.2.1.visitsOf, childVisitSum r.2.1)) = some (1, 1) ∧
    ¬((1 : Nat) = 1 - 1) := ⟨rfl, by decide⟩

/-- C8 counterexample: the early-`true` exit fires although the best play's
expected chips (7) are not below half the chips still required (5) and no
positive-scoring discard was ever consulted. -/
theorem c8_half_counterexample :
    (shouldDiscard [twoS] [] {} 10 0 2 1 0 zeroGRng).map (fun r => r.1)
      = some true ∧
    (evaluatePlays [twoS] [] {} 10 0 2 {} zeroGRng).map
      (fun r => r.1.map (fun a => (a.expectedChips, a.isLethal)))
        = some [(7, false)] ∧
    F.lt (F.ofInt 7) ((F.ofInt (10 - 0)).mul ⟨1, 2⟩) = false ∧
    findBestHandInCards [twoS] = some Option.none := by
  exact ⟨by decide, by decide, by decide, by decide⟩

/-- C10 witness: a lone Stone ace at hand level 1. -/
theorem c10_stone_hands_witness :
    [stoneA] ≠ [] ∧ [stoneA].length ≤ 5 ∧
    (∀ c ∈ [stoneA], c.enhancement = Enhancement.stone) ∧ 1 ≤ 1 ∧
    evaluateHand [stoneA] 1 = some
      { handType := .highCard
        scoringCards := [stoneA]
        baseChips := 1 * 5 + 50 * [stoneA].length
        baseMult := 1 } :=
  ⟨by decide, by decide, by decide, le_refl 1,
   c10_stone_hands [stoneA] 1 (by decide) (by decide) (by decide) (by decide)⟩

/-- C7 witness: the empty hand against a fresh standard deck, one draw. -/
theorem c7_flush_formula_witness :
    (0 : Nat) < 1 ∧ 0 < (DeckState.create [] [] []).totalRemaining ∧
    flushCompletionProbability [] (DeckState.create [] [] []) 1 Suit.spades =
      (if 5 - ([] : List Card).countP (fun c => c.suit == Suit.spades) = 0 then F.one
       else if 1 < 5 - ([] : List Card).countP (fun c => c.suit == Suit.spades) then F.zero
       else cdfAtLeast ((DeckState.create [] [] []).suitCount Suit.spades)
         (DeckState.create [] [] []).totalRemaining 1
         ((5 - ([] : List Card).countP (fun c => c.suit == Suit.spades) : Nat) : Int)) :=
  ⟨by decide, by decide,
   c7_flush_formula [] (DeckState.create [] [] []) 1 Suit.spades
     (by decide) (by decide)⟩

/-- C8 witness: the early-`true` input instantiating every necessary
condition. -/
theorem c8_should_discard_conditions_witness :
    shouldDiscard [twoS] [] {} 10 0 2 1 0 zeroGRng = some (true, [], zeroGRng) ∧
    ((0 : Nat) < 1 ∧ 1 < 2 ∧
      ∃ playActions bestPlay,
        evaluatePlays [twoS] [] {} 10 0 2 {} zeroGRng
          = some (playActions, [], zeroGRng) ∧
        playActions.head? = some bestPlay ∧
        bestPlay.isLethal = false ∧
        (findBestHandInCards [twoS] = some Option.none ∨
          ∃ ht bc discardActions bestDiscard,
            findBestHandInCards [twoS] = some (some (ht, bc)) ∧
            ht.val ≤ HandType.pair.val ∧
            evaluateDiscards [twoS] [] {} 0 {} = some discardActions ∧
            discardActions.head? = some bestDiscard ∧
            F.lt F.zero bestDiscard.score = true ∧
            F.lt (F.ofInt bestPlay.expectedChips)
              ((F.ofInt ((10 : Int) - 0)).mul ⟨1, 2⟩) = true)) :=
  ⟨rfl, c8_should_discard_conditions [twoS] [] {} 10 0 2 1 0 zeroGRng [] zeroGRng rfl⟩

/-- C3 witness: a lone lethal Ace against a 10-chip requirement. -/
theorem c3_lethal_gating_witness :
    evaluateAllPlays [aceS] [] {} (10 - 0) zeroGRng = some ([c3act], [], zeroGRng) ∧
    (∃ a ∈ [c3act], (10 : Int) - 0 ≤ a.expectedScore) ∧
    (∃ best,
      (∀ (discardsRemaining : Nat) (deckState : Option DeckState),
        deepDecide [aceS] [] {} 10 0 4 discardsRemaining deckState false {} zeroGRng
          = some (best, [], zeroGRng)) ∧
      best ∈ [c3act] ∧
      best.actionType = HActionType.play ∧
      best.isLethal = true ∧
      (10 : Int) - 0 ≤ best.expectedScore ∧
      ∀ a ∈ [c3act], a.isLethal = true →
        lexLt3 (safetyKey best) (safetyKey a) = false) :=
  ⟨rfl, by decide,
   c3_lethal_gating [aceS] [] {} 10 0 4 false {} zeroGRng [c3act] [] zeroGRng
     rfl (by decide)⟩

/-- C1 witness: the base Joker (`+4 Mult`) against Cavendish (`×3 Mult`) on
a lone Ace. -/
theorem c1_order_sensitivity_witness :
    (∀ (ctx' : ScoringContext) (g' : GRng),
      calculateEffect jokerPlainInst ctx' g'
        = ({ addMult := 4 }, jokerPlainInst, g')) ∧
    (∀ (ctx' : ScoringContext) (g' : GRng),
      calculateEffect cavendishInst ctx' g'
        = ({ multMult := F.ofInt 3 }, cavendishInst, g')) ∧
    (4 : Int) ≠ 0 ∧ (3 : Int) ≠ 1 ∧
    calculateScore [aceS] [] {} [] Option.none zeroGRng
      = some (bdAce16, [], zeroGRng) ∧
    (∃ bdAB bdBA : ScoringBreakdown,
      calculateScore [aceS] [jokerPlainInst, cavendishInst] {} [] Option.none zeroGRng
        = some (bdAB, [jokerPlainInst, cavendishInst], zeroGRng) ∧
      calculateScore [aceS] [cavendishInst, jokerPlainInst] {} [] Option.none zeroGRng
        = some (bdBA, [cavendishInst, jokerPlainInst], zeroGRng) ∧
      bdAB.finalChips = bdAce16.finalChips ∧
      bdBA.finalChips = bdAce16.finalChips ∧
      bdAB.finalMult = (bdAce16.finalMult.add (F.ofInt 4)).mul (F.ofInt 3) ∧
      bdBA.finalMult = (bdAce16.finalMult.mul (F.ofInt 3)).add (F.ofInt 4) ∧
      bdAB.finalScore = (F.mul (F.ofInt bdAce16.finalChips)
        ((bdAce16.finalMult.add (F.ofInt 4)).mul (F.ofInt 3))).trunc ∧
      bdBA.finalScore = (F.mul (F.ofInt bdAce16.finalChips)
        ((bdAce16.finalMult.mul (F.ofInt 3)).add (F.ofInt 4))).trunc ∧
      bdAB.jokerEffects
        = [(jokerPlainInst.name, 0, 4, F.one), (cavendishInst.name, 0, 0, F.ofInt 3)] ∧
      bdBA.jokerEffects
        = [(cavendishInst.name, 0, 0, F.ofInt 3), (jokerPlainInst.name, 0, 4, F.one)] ∧
      (0 < bdAce16.finalMult.den → bdAB.finalMult.beq bdBA.finalMult = false)) :=
  ⟨fun _ _ => rfl, fun _ _ => rfl, by decide, by decide, rfl,
   c1_order_sensitivity [aceS] [] {} Option.none zeroGRng jokerPlainInst cavendishInst
     4 3 bdAce16 [] zeroGRng (fun _ _ => rfl) (fun _ _ => rfl)
     (by decide) (by decide) rfl⟩

/-- C2 witness: a Supernova holder scores identically under two different
global-RNG oracles. -/
theorem c2_scoring_determinism_witness :
    (∀ j ∈ [supernovaZero], usesGlobalRng j.id = false) ∧
    (calculateScore [aceS] [supernovaZero] {} [] Option.none zeroGRng).map
        (fun r => (r.1, r.2.1))
      = (calculateScore [aceS] [supernovaZero] {} [] Option.none oneGRng).map
        (fun r => (r.1, r.2.1)) :=
  ⟨by decide,
   c2_scoring_determinism [aceS] [] [supernovaZero] {} Option.none zeroGRng oneGRng
     (by decide)⟩

/-- C9 witness: backpropagating the empty path bumps the root from 0 to 1
visits. -/
theorem c9_mcts_visit_accounting_witness :
    isInitSeg [] [] = true ∧
    visitsAt [] (MTree.mk Option.none 0 F.zero 0 [] []) = some 0 ∧
    visitsAt [] (backprop [] F.zero false (MTree.mk Option.none 0 F.zero 0 [] []))
      = some (0 + 1) :=
  ⟨rfl, rfl,
   c9_mcts_visit_accounting.1 [] F.zero false (MTree.mk Option.none 0 F.zero 0 [] [])
     [] 0 rfl rfl⟩
